import Mathlib

/-!
# Hotel system: booking ledger

A shallow embedding of `Booking.cpp` and of the part of `DBManager.cpp` it
calls. The program keeps no data of its own: every operation builds one SQL
statement and sends it through `DBManager`. The embedding therefore carries
the stored tables as explicit state and gives each statement the meaning the
PostgreSQL server gives it.

Conventions of the embedding

* A C++ `int` is an `Int`; the integer columns (`id`, `user_id`, `room_id`,
  `booking_id`, `service_id`, `quantity`) hold values `std::to_string` and
  `std::stoi` carry unchanged. `COUNT(*)` is a `bigint`, so `std::stoi` of a
  count is modelled with its range check.
* A date is the value the date columns hold, a day number (PostgreSQL keeps a
  date as the number of days since 2000-01-01, so 2023-01-01 is day 8401). The
  text `YYYY-MM-DD` that the program splices into a statement or reads back
  with `PQgetvalue` is the server's rendering of that value.
* A function that may throw returns `Except Exn α` together with the state
  it leaves behind; `nullptr` is `none`.
* A `double` is the rational number it stands for; rounding, and the six
  decimals `std::to_string` writes, are not modelled.
* The statements of `User::authenticate` and `User::addUser` are built as the
  code builds them, the login and the credential spliced between quotes, and
  read by a reader of the part of the server's grammar they need (`lexSql`,
  `parseCond`). For text without quote characters (`SqlText`) the statement
  means the comparison or the row it is written for; general theorems about
  these statements carry that hypothesis. The text that `Room::addRoom` and
  `Service::addService` splice is given its meaning for `SqlText` only.
* The values `std::cin` delivers are arguments of the functions of
  `UIManager.cpp`; an extraction whose failure the code tests is an `Option`,
  the others are taken to succeed. What is written to `std::cout` is not
  modelled; of `std::cerr`, the lines written during `calculateBill` are
  (`calculateBillCerr`).
* `makeBooking` and `viewAvailableRooms` are also given with the lines typed at
  their date prompts (`makeBookingLines`, `viewAvailableRoomsLines`); there a
  date is the text, checked by `isValidDate`, and `dateIn` is the reading the
  server makes of a text of that form.
-/

namespace HotelSystem

/-- A calendar date, as the day number stored in a date column. -/
abbrev Date := Int

/-- The exceptions the code can raise: `std::runtime_error` thrown by
`DBManager`, and `std::out_of_range` thrown by `std::stoi`. -/
inductive Exn where
  | runtime_error (what : String)
  | out_of_range (what : String)
  deriving DecidableEq, Repr

deriving instance DecidableEq for Except

/-- The text `what()` returns. -/
def Exn.what : Exn → String
  | Exn.runtime_error what => what
  | Exn.out_of_range what => what

/-! ## Booking.h -/

/-- The enumeration `BookingStatus`. -/
inductive BookingStatus where
  | PENDING
  | CONFIRMED
  | CANCELLED
  | COMPLETED
  deriving DecidableEq, Repr

/-- The data members of class `Booking`. -/
structure Booking where
  id : Int
  userId : Int
  roomId : Int
  dateFrom : Date
  dateTo : Date
  status : BookingStatus
  deriving DecidableEq, Repr

/-! ## User.h, Room.h, Service.h -/

/-- The enumeration `UserRole`. -/
inductive UserRole where
  | ADMIN
  | MANAGER
  | USER
  deriving DecidableEq, Repr

/-- The data members of class `User`. -/
structure User where
  id : Int
  login : String
  password : String
  role : UserRole
  deriving DecidableEq, Repr

/-- The data members of class `Room`. -/
structure Room where
  id : Int
  number : String
  type : String
  pricePerDay : ℚ
  description : String
  deriving DecidableEq, Repr

/-- The data members of class `Service`. -/
structure Service where
  id : Int
  name : String
  price : ℚ
  deriving DecidableEq, Repr

/-! ## The stored tables -/

/-- Modelled from the spec: a row of table `bookings`; the repository holds no
table declaration. Columns as named by the statements of `Booking.cpp` and by
the persisted schema `bookings(id, user_id, room_id, date_from, date_to,
status)`; `status` is text. -/
structure BookingRow where
  id : Int
  user_id : Int
  room_id : Int
  date_from : Date
  date_to : Date
  status : String
  deriving DecidableEq, Repr

/-- Modelled from the spec: a row of table `booking_services`; the repository
holds no table declaration. Columns as named by the statements of
`Booking.cpp` and by the persisted schema `booking_services(booking_id,
service_id, quantity)`. -/
structure BookingServiceRow where
  booking_id : Int
  service_id : Int
  quantity : Int
  deriving DecidableEq, Repr

/-- Modelled from the spec: a row of table `users`; the repository holds no
table declaration. Columns as named by the statements of `User.cpp` and by the
persisted schema `users(id, login unique, credential, role)`; `role` is
text. -/
structure UserRow where
  id : Int
  login : String
  password_hash : String
  role : String
  deriving DecidableEq, Repr

/-- Modelled from the spec: a row of table `rooms`; the repository holds no
table declaration. Columns as named by the statements of `Room.cpp` and by the
persisted schema `rooms(id, number unique, type, price_per_day,
description)`. -/
structure RoomRow where
  id : Int
  number : String
  type : String
  price_per_day : ℚ
  description : String
  deriving DecidableEq, Repr

/-- Modelled from the spec: a row of table `services`; the repository holds no
table declaration. Columns as named by the statements of `Service.cpp` and by
the persisted schema `services(id, name unique, price)`. -/
structure ServiceRow where
  id : Int
  name : String
  price : ℚ
  deriving DecidableEq, Repr

/-- The values `PQstatus` gives for a connection. -/
inductive ConnStatusType where
  | CONNECTION_OK
  | CONNECTION_BAD
  deriving DecidableEq, Repr

/-- The state behind a `DBManager`.

* `connection` is the member `connection`: `none` is `nullptr`, otherwise the
  value `PQstatus` reports for it.
* `faults` is what the server will answer to the coming statements, one entry
  per statement sent, `true` meaning that the statement is refused for a reason
  the tables below do not decide (a lost connection, a foreign key, a
  malformed literal). Past the end of the list nothing is refused.
* `bookings` and `booking_services` are the stored tables.
* `bookings_id_seq` is the next value of the generator behind `bookings.id`.
* `users`, `rooms` and `services` are the other stored tables, each with the
  generator behind its `id`. -/
structure DBManager where
  connection : Option ConnStatusType
  faults : List Bool
  bookings : List BookingRow
  booking_services : List BookingServiceRow
  bookings_id_seq : Int
  users : List UserRow := []
  users_id_seq : Int := 1
  rooms : List RoomRow := []
  rooms_id_seq : Int := 1
  services : List ServiceRow := []
  services_id_seq : Int := 1
  deriving DecidableEq, Repr

/-- The meaning of one SQL statement: its rows (or count), or the error message
of the server, and the tables afterwards. -/
abbrev Statement (α : Type) := DBManager → Except String α × DBManager

/-! ## DBManager.cpp -/

/-- `DBManager::isConnected`. -/
def DBManager.isConnected (db : DBManager) : Bool :=
  db.connection != none && db.connection == some ConnStatusType.CONNECTION_OK

/-- `PQexec` followed by the test of `PQresultStatus`, shared by
`executeQuery` and `executeUpdate`: the statement is sent, the server refuses
it or runs it, and a refusal becomes a `runtime_error` carrying `failure`. -/
def DBManager.exec {α : Type} (db : DBManager) (failure : String) (stmt : Statement α) :
    Except Exn α × DBManager :=
  let sent : DBManager := { db with faults := db.faults.tail }
  if db.faults.head? = some true then
    (Except.error (Exn.runtime_error failure), sent)
  else
    match stmt sent with
    | (Except.error msg, db1) => (Except.error (Exn.runtime_error (failure ++ msg)), db1)
    | (Except.ok rows, db1) => (Except.ok rows, db1)

/-- `DBManager::executeQuery`. -/
def DBManager.executeQuery {α : Type} (db : DBManager) (query : Statement α) :
    Except Exn α × DBManager :=
  if !db.isConnected then
    (Except.error (Exn.runtime_error "Database not connected"), db)
  else
    db.exec "Query execution failed: " query

/-- `DBManager::executeUpdate`; the statement yields the number of affected
rows. -/
def DBManager.executeUpdate (db : DBManager) (query : Statement Nat) :
    Except Exn Nat × DBManager :=
  if !db.isConnected then
    (Except.error (Exn.runtime_error "Database not connected"), db)
  else
    db.exec "Update execution failed: " query

/-- The constructor of `DBManager`: the member `connection` starts as
`nullptr`. The argument carries what the server stores. -/
def DBManager.construct (server : DBManager) : DBManager :=
  { server with connection := none }

/-- `DBManager::disconnect`. -/
def DBManager.disconnect (db : DBManager) : DBManager :=
  match db.connection with
  | some _ => { db with connection := none }
  | none => db

/-- `DBManager::beginTransaction`; `sqlBegin` is the meaning of the statement
`BEGIN`. -/
def DBManager.beginTransaction (db : DBManager) (sqlBegin : Statement Nat) :
    Except Exn Unit × DBManager :=
  if !db.isConnected then
    (Except.error (Exn.runtime_error "Database not connected"), db)
  else
    match db.exec "Failed to begin transaction: " sqlBegin with
    | (Except.error e, db1) => (Except.error e, db1)
    | (Except.ok _, db1) => (Except.ok (), db1)

/-- `DBManager::commit`; `sqlCommit` is the meaning of the statement
`COMMIT`. -/
def DBManager.commit (db : DBManager) (sqlCommit : Statement Nat) :
    Except Exn Unit × DBManager :=
  if !db.isConnected then
    (Except.error (Exn.runtime_error "Database not connected"), db)
  else
    match db.exec "Failed to commit transaction: " sqlCommit with
    | (Except.error e, db1) => (Except.error e, db1)
    | (Except.ok _, db1) => (Except.ok (), db1)

/-- `DBManager::rollback`; `sqlRollback` is the meaning of the statement
`ROLLBACK`. -/
def DBManager.rollback (db : DBManager) (sqlRollback : Statement Nat) :
    Except Exn Unit × DBManager :=
  if !db.isConnected then
    (Except.error (Exn.runtime_error "Database not connected"), db)
  else
    match db.exec "Failed to rollback transaction: " sqlRollback with
    | (Except.error e, db1) => (Except.error e, db1)
    | (Except.ok _, db1) => (Except.ok (), db1)

/-! ## The statements of Booking.cpp -/

/-- The SQL operator `(s1, e1) OVERLAPS (s2, e2)` on non-null dates, as the
PostgreSQL server evaluates it: each pair is put in order, the earlier value
being the start; then the periods overlap when the later start lies strictly
before the end of the other period, or when both start together. -/
def overlaps (s1 e1 s2 e2 : Date) : Bool :=
  let ts1 := if s1 > e1 then e1 else s1
  let te1 := if s1 > e1 then s1 else e1
  let ts2 := if s2 > e2 then e2 else s2
  let te2 := if s2 > e2 then s2 else e2
  if ts1 > ts2 then decide (ts1 < te2)
  else if ts1 < ts2 then decide (ts2 < te1)
  else true

/-- The condition
`room_id = R AND status <> 'cancelled' AND (date_from, date_to) OVERLAPS (c, d)`
of the statement of `isRoomAvailable`. -/
def conflicts (roomId : Int) (dateFrom dateTo : Date) (r : BookingRow) : Bool :=
  r.room_id == roomId && r.status != "cancelled" &&
    overlaps r.date_from r.date_to dateFrom dateTo

/-- `SELECT COUNT(*) FROM bookings WHERE room_id = R AND status <> 'cancelled'
AND (date_from, date_to) OVERLAPS (c, d);` -/
def sqlCountConflicts (roomId : Int) (dateFrom dateTo : Date) : Statement Nat :=
  fun db => (Except.ok (db.bookings.filter (conflicts roomId dateFrom dateTo)).length, db)

/-- `INSERT INTO bookings (user_id, room_id, date_from, date_to, status) VALUES
(u, R, c, d, 'pending') RETURNING id;` The id comes from the generator of the
column, which advances whether or not the row is stored; `id` is the identity
of a booking, so a value already taken is a unique violation. The result is
the list of returned ids. -/
def sqlInsertBooking (userId roomId : Int) (dateFrom dateTo : Date) : Statement (List Int) :=
  fun db =>
    let newId := db.bookings_id_seq
    let db1 : DBManager := { db with bookings_id_seq := newId + 1 }
    if db.bookings.any (fun r => r.id == newId) then
      (Except.error "duplicate key value violates unique constraint", db1)
    else
      (Except.ok [newId],
        { db1 with bookings := db.bookings ++
            [{ id := newId, user_id := userId, room_id := roomId,
               date_from := dateFrom, date_to := dateTo, status := "pending" }] })

/-- `SELECT user_id, room_id, date_from, date_to, status FROM bookings WHERE
id = ID;` -/
def sqlSelectBookingById (id : Int) : Statement (List BookingRow) :=
  fun db => (Except.ok (db.bookings.filter (fun r => r.id == id)), db)

/-- `UPDATE bookings SET status = 'S' WHERE id = ID;` -/
def sqlUpdateBookingStatus (id : Int) (status : String) : Statement Nat :=
  fun db =>
    (Except.ok (db.bookings.filter (fun r => r.id == id)).length,
      { db with bookings :=
          db.bookings.map (fun r => if r.id == id then { r with status := status } else r) })

/-- `SELECT service_id, quantity FROM booking_services WHERE booking_id = ID;` -/
def sqlSelectBookingServices (bookingId : Int) : Statement (List (Int × Int)) :=
  fun db =>
    (Except.ok ((db.booking_services.filter (fun r => r.booking_id == bookingId)).map
      (fun r => (r.service_id, r.quantity))), db)

/-- `INSERT INTO booking_services (booking_id, service_id, quantity) VALUES
(ID, s, q) ON CONFLICT (booking_id, service_id) DO UPDATE SET quantity = q;` -/
def sqlUpsertBookingService (bookingId serviceId quantity : Int) : Statement Nat :=
  fun db =>
    if db.booking_services.any
        (fun r => r.booking_id == bookingId && r.service_id == serviceId) then
      (Except.ok 1,
        { db with booking_services := db.booking_services.map (fun r =>
            if r.booking_id == bookingId && r.service_id == serviceId then
              { r with quantity := quantity }
            else r) })
    else
      (Except.ok 1,
        { db with booking_services := db.booking_services ++
            [{ booking_id := bookingId, service_id := serviceId, quantity := quantity }] })

/-- `DELETE FROM booking_services WHERE booking_id = ID AND service_id = s;` -/
def sqlDeleteBookingService (bookingId serviceId : Int) : Statement Nat :=
  fun db =>
    (Except.ok (db.booking_services.filter
        (fun r => r.booking_id == bookingId && r.service_id == serviceId)).length,
      { db with booking_services := db.booking_services.filter (fun r =>
          not (r.booking_id == bookingId && r.service_id == serviceId)) })

/-- `SELECT id, user_id, room_id, date_from, date_to, status FROM bookings;` -/
def sqlSelectBookings : Statement (List BookingRow) :=
  fun db => (Except.ok db.bookings, db)

/-- `SELECT id, room_id, date_from, date_to, status FROM bookings WHERE
user_id = U;` -/
def sqlSelectBookingsByUserId (userId : Int) : Statement (List BookingRow) :=
  fun db => (Except.ok (db.bookings.filter (fun r => r.user_id == userId)), db)

/-! ## The server's reading of a statement built from text

`User::authenticate` and `User::addUser` splice the login and the credential
between quotes. The statement is therefore built here as the code builds it,
character by character, and read as the server reads it: split into units
(`lexSql`), then parsed. The reader covers what these statements are made of
and what text spliced into them can turn them into within that grammar: words,
text literals with doubled quotes, the symbols `=`, `(`, `)`, `,`, `;`,
comments `--` up to the end of the line, comparisons of text values, `AND`,
`OR` and parentheses. Inside a literal every character but the quote stands
for itself, a backslash too, as with the default settings of the server. A
text the reader does not read (other operators, numbers, several statements,
escape strings, a literal continued on a new line) is answered as a syntax
error, though the server reads some such texts; the theorems use the reader on
text without quote characters and on the texts of the examples, which it
reads as the server does. -/

/-- The quote character, which delimits a text literal. -/
def quoteChar : Char := Char.ofNat 39

/-- A lexical unit of a statement: a key word or name (in lower case), a text
literal, or one of the symbols `=`, `(`, `)`, `,`, `;`. -/
inductive SqlToken where
  | word (w : String)
  | text (t : String)
  | symbol (c : Char)
  deriving DecidableEq, Repr

/-- Where the lexer stands: between units, in a word, in a text literal, after
a quote met in a literal (its end, or the first of a doubled quote), after one
`-`, or in a comment `--`. The characters gathered are kept in reverse. -/
inductive LexState where
  | start
  | inWord (acc : List Char)
  | inText (acc : List Char)
  | quoteSeen (acc : List Char)
  | dashSeen
  | inComment
  deriving DecidableEq, Repr

/-- The characters of a word: letters, digits and `_`. -/
def isWordChar (c : Char) : Bool :=
  c.isAlphanum || c == '_'

/-- The symbols read. -/
def isSymbolChar (c : Char) : Bool :=
  c == '=' || c == '(' || c == ')' || c == ',' || c == ';'

/-- A character met between units: the units it completes (none) and the
state it leads to; `none` for a character that is not read. -/
def lexStart (c : Char) : Option (List SqlToken × LexState) :=
  if c = quoteChar then some ([], LexState.inText [])
  else if c = '-' then some ([], LexState.dashSeen)
  else if c.isWhitespace then some ([], LexState.start)
  else if isSymbolChar c then some ([SqlToken.symbol c], LexState.start)
  else if isWordChar c then some ([], LexState.inWord [c.toLower])
  else none

/-- One character: the units it completes and the next state. -/
def lexStep : LexState → Char → Option (List SqlToken × LexState)
  | LexState.start, c => lexStart c
  | LexState.inWord acc, c =>
    if isWordChar c then some ([], LexState.inWord (c.toLower :: acc))
    else (lexStart c).map (fun r => (SqlToken.word (String.mk acc.reverse) :: r.1, r.2))
  | LexState.inText acc, c =>
    if c = quoteChar then some ([], LexState.quoteSeen acc)
    else some ([], LexState.inText (c :: acc))
  | LexState.quoteSeen acc, c =>
    if c = quoteChar then some ([], LexState.inText (quoteChar :: acc))
    else (lexStart c).map (fun r => (SqlToken.text (String.mk acc.reverse) :: r.1, r.2))
  | LexState.dashSeen, c => if c = '-' then some ([], LexState.inComment) else none
  | LexState.inComment, c =>
    if c = '\n' ∨ c = '\r' then some ([], LexState.start) else some ([], LexState.inComment)

/-- The end of the text: the unit it completes; a literal left open is an
error (`unterminated quoted string`). -/
def lexEnd : LexState → Option (List SqlToken)
  | LexState.start => some []
  | LexState.inWord acc => some [SqlToken.word (String.mk acc.reverse)]
  | LexState.inText _ => none
  | LexState.quoteSeen acc => some [SqlToken.text (String.mk acc.reverse)]
  | LexState.dashSeen => none
  | LexState.inComment => some []

/-- The units of a text, from a state. -/
def lexSql : LexState → List Char → Option (List SqlToken)
  | s, [] => lexEnd s
  | s, c :: cs =>
    match lexStep s c with
    | none => none
    | some (units, s1) =>
      match lexSql s1 cs with
      | none => none
      | some rest => some (units ++ rest)


/-- A text value of a condition: a literal or a text column of `users`. -/
inductive SqlValue where
  | lit (t : String)
  | col (name : String)
  deriving DecidableEq, Repr

/-- A condition: a comparison `a = b` of text values, `AND`, `OR`. -/
inductive SqlCond where
  | eq (a b : SqlValue)
  | and (a b : SqlCond)
  | or (a b : SqlCond)
  deriving DecidableEq, Repr

/-- The value on a row of `users`. -/
def SqlValue.eval (r : UserRow) : SqlValue → String
  | SqlValue.lit t => t
  | SqlValue.col name =>
    if name = "login" then r.login
    else if name = "password_hash" then r.password_hash
    else r.role

/-- The truth of a condition on a row of `users`. -/
def SqlCond.eval (r : UserRow) : SqlCond → Bool
  | SqlCond.eq a b => a.eval r == b.eval r
  | SqlCond.and a b => a.eval r && b.eval r
  | SqlCond.or a b => a.eval r || b.eval r

/-- A text value at the head of the units, and the units after it: a literal,
one of the columns `login`, `password_hash`, `role`, or a value in
parentheses. The first argument bounds the depth. -/
def parseValue : Nat → List SqlToken → Option (SqlValue × List SqlToken)
  | 0, _ => none
  | _ + 1, SqlToken.text t :: rest => some (SqlValue.lit t, rest)
  | _ + 1, SqlToken.word w :: rest =>
    if w = "login" ∨ w = "password_hash" ∨ w = "role" then some (SqlValue.col w, rest)
    else none
  | n + 1, SqlToken.symbol c :: rest =>
    if c = '(' then
      match parseValue n rest with
      | some (v, SqlToken.symbol d :: rest2) => if d = ')' then some (v, rest2) else none
      | _ => none
    else none
  | _ + 1, [] => none

/-- A condition at the head of the units, and the units after it. Level 0 is
a comparison or a condition in parentheses, level 1 a chain of `AND`, level 2
a chain of `OR`, so that `AND` binds before `OR`. The first argument bounds
the depth. -/
def parseCond : Nat → Nat → List SqlToken → Option (SqlCond × List SqlToken)
  | 0, _, _ => none
  | n + 1, 0, units =>
    match parseValue n units with
    | some (a, SqlToken.symbol c :: rest) =>
      if c = '=' then
        match parseValue n rest with
        | some (b, rest2) => some (SqlCond.eq a b, rest2)
        | none => none
      else none
    | _ =>
      match units with
      | SqlToken.symbol c :: rest =>
        if c = '(' then
          match parseCond n 2 rest with
          | some (cond, SqlToken.symbol d :: rest2) => if d = ')' then some (cond, rest2) else none
          | _ => none
        else none
      | _ => none
  | n + 1, 1, units =>
    match parseCond n 0 units with
    | some (a, SqlToken.word w :: rest) =>
      if w = "and" then
        match parseCond n 1 rest with
        | some (b, rest2) => some (SqlCond.and a b, rest2)
        | none => none
      else some (a, SqlToken.word w :: rest)
    | other => other
  | n + 1, _ + 2, units =>
    match parseCond n 1 units with
    | some (a, SqlToken.word w :: rest) =>
      if w = "or" then
        match parseCond n 2 rest with
        | some (b, rest2) => some (SqlCond.or a b, rest2)
        | none => none
      else some (a, SqlToken.word w :: rest)
    | other => other

/-- The end of a statement: nothing more, or one `;`. -/
def atEnd : List SqlToken → Bool
  | [] => true
  | [SqlToken.symbol c] => c == ';'
  | _ => false

/-- The condition of a statement `<head> WHERE <condition>;` whose units start
with `head`. -/
def readWhere (head : List SqlToken) (statement : String) : Option SqlCond :=
  match lexSql LexState.start statement.data with
  | none => none
  | some units =>
    if head.isPrefixOf units then
      match parseCond (4 * units.length + 4) 2 (units.drop head.length) with
      | some (cond, rest) => if atEnd rest then some cond else none
      | none => none
    else none

/-- The units completed by a run of characters, and the state reached. -/
def lexRun : LexState → List Char → Option (List SqlToken × LexState)
  | s, [] => some ([], s)
  | s, c :: cs =>
    match lexStep s c with
    | none => none
    | some (units, s1) =>
      match lexRun s1 cs with
      | none => none
      | some (more, s2) => some (units ++ more, s2)

/-! ## The statements of User.cpp, Room.cpp and Service.cpp -/

/-- Text that can be spliced between quotes so that the literal stands for the
text: it holds no quote character (character 39). -/
def SqlText (s : String) : Prop :=
  s.data.contains (Char.ofNat 39) = false

instance (s : String) : Decidable (SqlText s) :=
  inferInstanceAs (Decidable (s.data.contains (Char.ofNat 39) = false))

/-- The units every statement `SELECT id, login, password_hash, role FROM
users WHERE ...` starts with. -/
def headSelectUser : List SqlToken :=
  [SqlToken.word "select", SqlToken.word "id", SqlToken.symbol ',', SqlToken.word "login",
   SqlToken.symbol ',', SqlToken.word "password_hash", SqlToken.symbol ',',
   SqlToken.word "role", SqlToken.word "from", SqlToken.word "users", SqlToken.word "where"]

/-- The units every statement `SELECT id FROM users WHERE ...` starts with. -/
def headSelectUserId : List SqlToken :=
  [SqlToken.word "select", SqlToken.word "id", SqlToken.word "from", SqlToken.word "users",
   SqlToken.word "where"]

/-- The units every statement `INSERT INTO users (login, password_hash, role)
VALUES (...` starts with. -/
def headInsertUser : List SqlToken :=
  [SqlToken.word "insert", SqlToken.word "into", SqlToken.word "users", SqlToken.symbol '(',
   SqlToken.word "login", SqlToken.symbol ',', SqlToken.word "password_hash",
   SqlToken.symbol ',', SqlToken.word "role", SqlToken.symbol ')', SqlToken.word "values",
   SqlToken.symbol '(']

/-- The three text literals of a statement `INSERT INTO users (login,
password_hash, role) VALUES ('a', 'b', 'c');`. -/
def readInsertUser (statement : String) : Option (String × String × String) :=
  match lexSql LexState.start statement.data with
  | none => none
  | some units =>
    if headInsertUser.isPrefixOf units then
      match units.drop headInsertUser.length with
      | SqlToken.text a :: SqlToken.symbol c1 :: SqlToken.text b :: SqlToken.symbol c2 ::
          SqlToken.text c :: SqlToken.symbol c3 :: rest =>
        if c1 = ',' ∧ c2 = ',' ∧ c3 = ')' ∧ atEnd rest = true then some (a, b, c) else none
      | _ => none
    else none

/-- The statement `User::authenticate` builds:
`"SELECT id, login, password_hash, role FROM users WHERE login = '" + login +
"' AND password_hash = '" + password + "';"`, with the meaning the server
gives the text: the rows its condition holds of, or a syntax error. -/
def sqlSelectUserByCredentials (login password : String) : Statement (List UserRow) :=
  fun db =>
    match readWhere headSelectUser
        ("SELECT id, login, password_hash, role FROM users WHERE login = '" ++ login ++
          "' AND password_hash = '" ++ password ++ "';") with
    | some cond => (Except.ok (db.users.filter (fun r => cond.eval r)), db)
    | none => (Except.error "syntax error", db)

/-- The first statement `User::addUser` builds:
`"SELECT id FROM users WHERE login = '" + login + "';"`. -/
def sqlSelectUserIdByLogin (login : String) : Statement (List Int) :=
  fun db =>
    match readWhere headSelectUserId
        ("SELECT id FROM users WHERE login = '" ++ login ++ "';") with
    | some cond =>
      (Except.ok ((db.users.filter (fun r => cond.eval r)).map (fun r => r.id)), db)
    | none => (Except.error "syntax error", db)

/-- The row `INSERT INTO users (login, password_hash, role) VALUES ('L', 'P',
'R');` stores. The id comes from the generator of the column, which advances
whether or not the row is stored; an id or a login already taken is a unique
violation. -/
def storeUser (login password role : String) : Statement Nat :=
  fun db =>
    let newId := db.users_id_seq
    let db1 : DBManager := { db with users_id_seq := newId + 1 }
    if db.users.any (fun r => r.id == newId || r.login == login) then
      (Except.error "duplicate key value violates unique constraint", db1)
    else
      (Except.ok 1,
        { db1 with users := db.users ++
            [{ id := newId, login := login, password_hash := password, role := role }] })

/-- The second statement `User::addUser` builds:
`"INSERT INTO users (login, password_hash, role) VALUES ('" + login + "', '" +
password + "', '" + roleStr + "');"`, with the meaning the server gives the
text: the row of the three literals it reads is stored, or a syntax error. -/
def sqlInsertUser (login password role : String) : Statement Nat :=
  fun db =>
    match readInsertUser
        ("INSERT INTO users (login, password_hash, role) VALUES ('" ++ login ++ "', '" ++
          password ++ "', '" ++ role ++ "');") with
    | some (l, p, r) => storeUser l p r db
    | none => (Except.error "syntax error", db)

/-- `SELECT id, login, password_hash, role FROM users WHERE id = ID;` -/
def sqlSelectUserById (id : Int) : Statement (List UserRow) :=
  fun db => (Except.ok (db.users.filter (fun r => r.id == id)), db)

/-- `SELECT id, login, password_hash, role FROM users;` -/
def sqlSelectUsers : Statement (List UserRow) :=
  fun db => (Except.ok db.users, db)

/-- `UPDATE users SET role = 'R' WHERE id = ID;` -/
def sqlUpdateUserRole (id : Int) (role : String) : Statement Nat :=
  fun db =>
    (Except.ok (db.users.filter (fun r => r.id == id)).length,
      { db with users :=
          db.users.map (fun r => if r.id == id then { r with role := role } else r) })

/-- `SELECT id, number, type, price_per_day, description FROM rooms;` -/
def sqlSelectRooms : Statement (List RoomRow) :=
  fun db => (Except.ok db.rooms, db)

/-- `INSERT INTO rooms (number, type, price_per_day, description) VALUES ('N',
'T', p, 'D');` The id comes from the generator of the column; an id or a room
number already taken is a unique violation. -/
def sqlInsertRoom (number type : String) (pricePerDay : ℚ) (description : String) :
    Statement Nat :=
  fun db =>
    let newId := db.rooms_id_seq
    let db1 : DBManager := { db with rooms_id_seq := newId + 1 }
    if db.rooms.any (fun r => r.id == newId || r.number == number) then
      (Except.error "duplicate key value violates unique constraint", db1)
    else
      (Except.ok 1,
        { db1 with rooms := db.rooms ++
            [{ id := newId, number := number, type := type,
               price_per_day := pricePerDay, description := description }] })

/-- `SELECT number, type, price_per_day, description FROM rooms WHERE id =
ID;` -/
def sqlSelectRoomById (id : Int) : Statement (List RoomRow) :=
  fun db => (Except.ok (db.rooms.filter (fun r => r.id == id)), db)

/-- `SELECT id, name, price FROM services;` -/
def sqlSelectServices : Statement (List ServiceRow) :=
  fun db => (Except.ok db.services, db)

/-- `INSERT INTO services (name, price) VALUES ('N', p);` The id comes from the
generator of the column; an id or a service name already taken is a unique
violation. -/
def sqlInsertService (name : String) (price : ℚ) : Statement Nat :=
  fun db =>
    let newId := db.services_id_seq
    let db1 : DBManager := { db with services_id_seq := newId + 1 }
    if db.services.any (fun r => r.id == newId || r.name == name) then
      (Except.error "duplicate key value violates unique constraint", db1)
    else
      (Except.ok 1,
        { db1 with services := db.services ++
            [{ id := newId, name := name, price := price }] })

/-- `SELECT name, price FROM services WHERE id = ID;` -/
def sqlSelectServiceById (id : Int) : Statement (List ServiceRow) :=
  fun db => (Except.ok (db.services.filter (fun r => r.id == id)), db)

/-! ## Booking.cpp -/

/-- `toBookingStatus`. -/
def toBookingStatus (statusStr : String) : BookingStatus :=
  if statusStr = "pending" then BookingStatus.PENDING
  else if statusStr = "confirmed" then BookingStatus.CONFIRMED
  else if statusStr = "cancelled" then BookingStatus.CANCELLED
  else if statusStr = "completed" then BookingStatus.COMPLETED
  else BookingStatus.PENDING

/-- `Booking::getStatusString`; the `default` branch of the switch is not
reached by a value of the enumeration. -/
def Booking.getStatusString (self : Booking) : String :=
  match self.status with
  | BookingStatus.PENDING => "pending"
  | BookingStatus.CONFIRMED => "confirmed"
  | BookingStatus.CANCELLED => "cancelled"
  | BookingStatus.COMPLETED => "completed"

/-- `std::stoi` on the decimal text of `n`: the value when it fits an `int`,
`std::out_of_range` otherwise. -/
def stoi (n : Int) : Except Exn Int :=
  if -2147483648 ≤ n ∧ n ≤ 2147483647 then Except.ok n
  else Except.error (Exn.out_of_range "stoi")

/-- The assignment `m[k] = v` on a `std::map<int, int>`, kept as the list of
its entries in ascending key order. -/
def mapAssign : List (Int × Int) → Int → Int → List (Int × Int)
  | [], k, v => [(k, v)]
  | (k0, v0) :: m, k, v =>
    if k < k0 then (k, v) :: (k0, v0) :: m
    else if k = k0 then (k, v) :: m
    else (k0, v0) :: mapAssign m k v

/-- `Booking::getServices`. -/
def Booking.getServices (self : Booking) (db : DBManager) :
    Except Exn (List (Int × Int)) × DBManager :=
  match db.executeQuery (sqlSelectBookingServices self.id) with
  | (Except.error e, db1) => (Except.error e, db1)
  | (Except.ok rows, db1) =>
    (Except.ok (rows.foldl (fun servicesMap row => mapAssign servicesMap row.1 row.2) []), db1)

/-- `Booking::addService`. -/
def Booking.addService (self : Booking) (db : DBManager) (serviceId quantity : Int) :
    Except Exn Unit × DBManager :=
  match db.executeUpdate (sqlUpsertBookingService self.id serviceId quantity) with
  | (Except.error e, db1) => (Except.error e, db1)
  | (Except.ok _, db1) => (Except.ok (), db1)

/-- `Booking::updateStatus`: the member is assigned first, then the statement
is sent; the object is returned with the outcome. -/
def Booking.updateStatus (self : Booking) (db : DBManager) (newStatus : BookingStatus) :
    Except Exn Unit × Booking × DBManager :=
  let self1 : Booking := { self with status := newStatus }
  match db.executeUpdate (sqlUpdateBookingStatus self1.id self1.getStatusString) with
  | (Except.error e, db1) => (Except.error e, self1, db1)
  | (Except.ok _, db1) => (Except.ok (), self1, db1)

/-- `Booking::findBookingById`. -/
def Booking.findBookingById (db : DBManager) (id : Int) :
    Except Exn (Option Booking) × DBManager :=
  match db.executeQuery (sqlSelectBookingById id) with
  | (Except.error e, db1) => (Except.error e, db1)
  | (Except.ok rows, db1) =>
    match rows with
    | [r] =>
      (Except.ok (some { id := id, userId := r.user_id, roomId := r.room_id,
                          dateFrom := r.date_from, dateTo := r.date_to,
                          status := toBookingStatus r.status }), db1)
    | _ => (Except.ok none, db1)

/-- `Booking::isRoomAvailable`. -/
def Booking.isRoomAvailable (db : DBManager) (roomId : Int) (dateFrom dateTo : Date) :
    Except Exn Bool × DBManager :=
  match db.executeQuery (sqlCountConflicts roomId dateFrom dateTo) with
  | (Except.error e, db1) => (Except.error e, db1)
  | (Except.ok count, db1) =>
    match stoi (count : Int) with
    | Except.error e => (Except.error e, db1)
    | Except.ok n => (Except.ok (n == 0), db1)

/-- `Booking::createBooking`. -/
def Booking.createBooking (db : DBManager) (userId roomId : Int) (dateFrom dateTo : Date) :
    Except Exn (Option Booking) × DBManager :=
  match Booking.isRoomAvailable db roomId dateFrom dateTo with
  | (Except.error e, db1) => (Except.error e, db1)
  | (Except.ok false, db1) => (Except.ok none, db1)
  | (Except.ok true, db1) =>
    match db1.executeQuery (sqlInsertBooking userId roomId dateFrom dateTo) with
    | (Except.error e, db2) => (Except.error e, db2)
    | (Except.ok ids, db2) =>
      match ids with
      | [newId] => Booking.findBookingById db2 newId
      | _ => (Except.ok none, db2)

/-- `Booking::removeService`. -/
def Booking.removeService (self : Booking) (db : DBManager) (serviceId : Int) :
    Except Exn Unit × DBManager :=
  match db.executeUpdate (sqlDeleteBookingService self.id serviceId) with
  | (Except.error e, db1) => (Except.error e, db1)
  | (Except.ok _, db1) => (Except.ok (), db1)

/-- `Booking::getAllBookings`. -/
def Booking.getAllBookings (db : DBManager) : Except Exn (List Booking) × DBManager :=
  match db.executeQuery sqlSelectBookings with
  | (Except.error e, db1) => (Except.error e, db1)
  | (Except.ok rows, db1) =>
    (Except.ok (rows.map (fun r =>
      { id := r.id, userId := r.user_id, roomId := r.room_id, dateFrom := r.date_from,
        dateTo := r.date_to, status := toBookingStatus r.status })), db1)

/-- `Booking::findBookingsByUserId`. -/
def Booking.findBookingsByUserId (db : DBManager) (userId : Int) :
    Except Exn (List Booking) × DBManager :=
  match db.executeQuery (sqlSelectBookingsByUserId userId) with
  | (Except.error e, db1) => (Except.error e, db1)
  | (Except.ok rows, db1) =>
    (Except.ok (rows.map (fun r =>
      { id := r.id, userId := userId, roomId := r.room_id, dateFrom := r.date_from,
        dateTo := r.date_to, status := toBookingStatus r.status })), db1)

/-! ## User.cpp

The static member `currentUser` is passed in and handed back as an
`Option User`. Every function below that sends a statement does so inside
`try`, and its `catch (const std::exception&)` takes both exceptions of `Exn`. -/

/-- `User::getRoleString`; the `default` branch of the switch is not reached by
a value of the enumeration. -/
def User.getRoleString (self : User) : String :=
  match self.role with
  | UserRole.ADMIN => "admin"
  | UserRole.MANAGER => "manager"
  | UserRole.USER => "user"

/-- `User::getCurrentUser`. -/
def User.getCurrentUser (currentUser : Option User) : Option User :=
  currentUser

/-- `User::setCurrentUser`: the user held before is dropped. -/
def User.setCurrentUser (_currentUser : Option User) (user : Option User) : Option User :=
  user

/-- `User::logout`. -/
def User.logout (_currentUser : Option User) : Option User :=
  none

/-- `User::authenticate`: the result, and `currentUser` afterwards. -/
def User.authenticate (db : DBManager) (currentUser : Option User) (login password : String) :
    Bool × Option User × DBManager :=
  match db.executeQuery (sqlSelectUserByCredentials login password) with
  | (Except.error _, db1) => (false, currentUser, db1)
  | (Except.ok rows, db1) =>
    match rows with
    | [r] =>
      let role : UserRole :=
        if r.role = "admin" then UserRole.ADMIN
        else if r.role = "manager" then UserRole.MANAGER
        else UserRole.USER
      (true,
        User.setCurrentUser currentUser
          (some { id := r.id, login := r.login, password := r.password_hash, role := role }),
        db1)
    | _ => (false, currentUser, db1)

/-- `User::addUser`. -/
def User.addUser (db : DBManager) (login password : String) (role : UserRole) :
    Bool × DBManager :=
  match db.executeQuery (sqlSelectUserIdByLogin login) with
  | (Except.error _, db1) => (false, db1)
  | (Except.ok rows, db1) =>
    if rows.length > 0 then (false, db1)
    else
      let roleStr : String :=
        match role with
        | UserRole.ADMIN => "admin"
        | UserRole.MANAGER => "manager"
        | UserRole.USER => "user"
      match db1.executeUpdate (sqlInsertUser login password roleStr) with
      | (Except.error _, db2) => (false, db2)
      | (Except.ok _, db2) => (true, db2)

/-- `User::findUserById`. -/
def User.findUserById (db : DBManager) (id : Int) : Option User × DBManager :=
  match db.executeQuery (sqlSelectUserById id) with
  | (Except.error _, db1) => (none, db1)
  | (Except.ok rows, db1) =>
    match rows with
    | [r] =>
      let role : UserRole :=
        if r.role = "admin" then UserRole.ADMIN
        else if r.role = "manager" then UserRole.MANAGER
        else UserRole.USER
      (some { id := r.id, login := r.login, password := r.password_hash, role := role }, db1)
    | _ => (none, db1)

/-- `User::getAllUsers`. -/
def User.getAllUsers (db : DBManager) : List User × DBManager :=
  match db.executeQuery sqlSelectUsers with
  | (Except.error _, db1) => ([], db1)
  | (Except.ok rows, db1) =>
    (rows.map (fun r =>
      let role : UserRole :=
        if r.role = "admin" then UserRole.ADMIN
        else if r.role = "manager" then UserRole.MANAGER
        else UserRole.USER
      { id := r.id, login := r.login, password := r.password_hash, role := role }), db1)

/-- `User::updateRole`: the result, and the object afterwards. -/
def User.updateRole (self : User) (db : DBManager) (newRole : UserRole) :
    Bool × User × DBManager :=
  let roleStr : String :=
    match newRole with
    | UserRole.ADMIN => "admin"
    | UserRole.MANAGER => "manager"
    | UserRole.USER => "user"
  match db.executeUpdate (sqlUpdateUserRole self.id roleStr) with
  | (Except.error _, db1) => (false, self, db1)
  | (Except.ok _, db1) => (true, { self with role := newRole }, db1)

/-! ## Room.cpp and Service.cpp -/

/-- `Room::getAllRooms`. -/
def Room.getAllRooms (db : DBManager) : List Room × DBManager :=
  match db.executeQuery sqlSelectRooms with
  | (Except.error _, db1) => ([], db1)
  | (Except.ok rows, db1) =>
    (rows.map (fun r =>
      { id := r.id, number := r.number, type := r.type, pricePerDay := r.price_per_day,
        description := r.description }), db1)

/-- `Room::addRoom`. -/
def Room.addRoom (db : DBManager) (number type : String) (pricePerDay : ℚ)
    (description : String) : Bool × DBManager :=
  match db.executeUpdate (sqlInsertRoom number type pricePerDay description) with
  | (Except.error _, db1) => (false, db1)
  | (Except.ok _, db1) => (true, db1)

/-- `Room::findRoomById`. -/
def Room.findRoomById (db : DBManager) (id : Int) : Option Room × DBManager :=
  match db.executeQuery (sqlSelectRoomById id) with
  | (Except.error _, db1) => (none, db1)
  | (Except.ok rows, db1) =>
    match rows with
    | [r] =>
      (some { id := id, number := r.number, type := r.type, pricePerDay := r.price_per_day,
              description := r.description }, db1)
    | _ => (none, db1)

/-- `Service::getAllServices`. -/
def Service.getAllServices (db : DBManager) : List Service × DBManager :=
  match db.executeQuery sqlSelectServices with
  | (Except.error _, db1) => ([], db1)
  | (Except.ok rows, db1) =>
    (rows.map (fun r => { id := r.id, name := r.name, price := r.price }), db1)

/-- `Service::addService`. -/
def Service.addService (db : DBManager) (name : String) (price : ℚ) : Bool × DBManager :=
  match db.executeUpdate (sqlInsertService name price) with
  | (Except.error _, db1) => (false, db1)
  | (Except.ok _, db1) => (true, db1)

/-- `Service::findServiceById`. -/
def Service.findServiceById (db : DBManager) (id : Int) : Option Service × DBManager :=
  match db.executeQuery (sqlSelectServiceById id) with
  | (Except.error _, db1) => (none, db1)
  | (Except.ok rows, db1) =>
    match rows with
    | [r] => (some { id := id, name := r.name, price := r.price }, db1)
    | _ => (none, db1)

/-- What `Room::findRoomById` writes to `std::cerr`: the line of its `catch`
block when the query throws, nothing when the query is answered. -/
def Room.findRoomByIdCerr (db : DBManager) (id : Int) : List String :=
  match db.executeQuery (sqlSelectRoomById id) with
  | (Except.error e, _) => ["Failed to find room by ID: " ++ e.what]
  | (Except.ok _, _) => []

/-- What `Service::findServiceById` writes to `std::cerr`: the line of its
`catch` block when the query throws, nothing when the query is answered,
whatever the number of rows. -/
def Service.findServiceByIdCerr (db : DBManager) (id : Int) : List String :=
  match db.executeQuery (sqlSelectServiceById id) with
  | (Except.error e, _) => ["Failed to find service by ID: " ++ e.what]
  | (Except.ok _, _) => []

/-! ## UIManager.cpp -/

/-- `login`. -/
def login (db : DBManager) (currentUser : Option User) (login password : String) :
    Bool × Option User × DBManager :=
  User.authenticate db currentUser login password

/-- `registerUser`; `roleChoice` is `none` when `std::cin.fail()`. -/
def registerUser (db : DBManager) (currentUser : Option User) (roleChoice : Option Int)
    (login password : String) : Bool × DBManager :=
  let admin := User.getCurrentUser currentUser
  let isAdmin : Bool :=
    match admin with
    | some a => a.role == UserRole.ADMIN
    | none => false
  if isAdmin then
    match roleChoice with
    | none => (false, db)
    | some c =>
      let role : UserRole :=
        if c = 1 then UserRole.ADMIN
        else if c = 2 then UserRole.MANAGER
        else if c = 3 then UserRole.USER
        else UserRole.USER
      User.addUser db login password role
  else
    User.addUser db login password UserRole.USER

/-- `displayBooking`: the room of the booking is looked up. -/
def displayBooking (db : DBManager) (booking : Booking) : DBManager :=
  (Room.findRoomById db booking.roomId).2

/-- `viewAllBookings`. -/
def viewAllBookings (db : DBManager) : Except Exn Unit × DBManager :=
  match Booking.getAllBookings db with
  | (Except.error e, db1) => (Except.error e, db1)
  | (Except.ok bookings, db1) =>
    if bookings.isEmpty then (Except.ok (), db1)
    else (Except.ok (), bookings.foldl displayBooking db1)

/-- `manageBooking`. -/
def manageBooking (db : DBManager) (bookingId choice : Int) : Except Exn Unit × DBManager :=
  match Booking.findBookingById db bookingId with
  | (Except.error e, db1) => (Except.error e, db1)
  | (Except.ok none, db1) => (Except.ok (), db1)
  | (Except.ok (some booking), db1) =>
    let newStatus : Option BookingStatus :=
      if choice = 1 then some BookingStatus.CONFIRMED
      else if choice = 2 then some BookingStatus.CANCELLED
      else if choice = 3 then some BookingStatus.COMPLETED
      else none
    match newStatus with
    | none => (Except.ok (), db1)
    | some t =>
      match booking.updateStatus db1 t with
      | (Except.error e, _, db2) => (Except.error e, db2)
      | (Except.ok _, _, db2) => (Except.ok (), db2)

/-- `addServiceToBooking`. -/
def addServiceToBooking (db : DBManager) (bookingId serviceId quantity : Int) :
    Except Exn Unit × DBManager :=
  match Booking.findBookingById db bookingId with
  | (Except.error e, db1) => (Except.error e, db1)
  | (Except.ok none, db1) => (Except.ok (), db1)
  | (Except.ok (some booking), db1) =>
    let db2 := (Service.getAllServices db1).2
    booking.addService db2 serviceId quantity

/-- `calculateBill`: the value written after `Total cost`, or `none` when the
booking or its room is not found. -/
def calculateBill (db : DBManager) (bookingId : Int) : Except Exn (Option ℚ) × DBManager :=
  match Booking.findBookingById db bookingId with
  | (Except.error e, db1) => (Except.error e, db1)
  | (Except.ok none, db1) => (Except.ok none, db1)
  | (Except.ok (some booking), db1) =>
    match Room.findRoomById db1 booking.roomId with
    | (none, db2) => (Except.ok none, db2)
    | (some room, db2) =>
      let days : Int := 1
      let roomCost : ℚ := room.pricePerDay * (days : ℚ)
      match booking.getServices db2 with
      | (Except.error e, db3) => (Except.error e, db3)
      | (Except.ok bookingServices, db3) =>
        let billed : ℚ × DBManager :=
          bookingServices.foldl
            (fun acc entry =>
              match Service.findServiceById acc.2 entry.1 with
              | (some service, db4) => (acc.1 + service.price * (entry.2 : ℚ), db4)
              | (none, db4) => (acc.1, db4))
            (0, db3)
        (Except.ok (some (roomCost + billed.1)), billed.2)

/-- What is written to `std::cerr` during `calculateBill`: the function writes
nothing there itself; the lines are those of the lookups of the room and of
the attached services, in the order of the calls. -/
def calculateBillCerr (db : DBManager) (bookingId : Int) : List String :=
  match Booking.findBookingById db bookingId with
  | (Except.error _, _) => []
  | (Except.ok none, _) => []
  | (Except.ok (some booking), db1) =>
    Room.findRoomByIdCerr db1 booking.roomId ++
      match Room.findRoomById db1 booking.roomId with
      | (none, _) => []
      | (some _, db2) =>
        match booking.getServices db2 with
        | (Except.error _, _) => []
        | (Except.ok bookingServices, db3) =>
          (bookingServices.foldl
            (fun acc entry =>
              (acc.1 ++ Service.findServiceByIdCerr acc.2 entry.1,
                (Service.findServiceById acc.2 entry.1).2))
            (([] : List String), db3)).1

/-- `viewAvailableRooms`: the rooms displayed. -/
def viewAvailableRooms (db : DBManager) (dateFrom dateTo : Date) :
    Except Exn (List Room) × DBManager :=
  let all := Room.getAllRooms db
  all.1.foldl
    (fun acc room =>
      match acc with
      | (Except.error e, db1) => (Except.error e, db1)
      | (Except.ok shown, db1) =>
        match Booking.isRoomAvailable db1 room.id dateFrom dateTo with
        | (Except.error e, db2) => (Except.error e, db2)
        | (Except.ok true, db2) => (Except.ok (shown ++ [room]), db2)
        | (Except.ok false, db2) => (Except.ok shown, db2))
    (Except.ok [], all.2)

/-- `makeBooking`; `roomId` is `none` when `std::cin.fail()`. The call of
`createBooking` is inside `try`, so no exception leaves the function. -/
def makeBooking (db : DBManager) (currentUser : Option User) (roomId : Option Int)
    (dateFrom dateTo : Date) : Option Booking × DBManager :=
  match User.getCurrentUser currentUser with
  | none => (none, db)
  | some user =>
    match roomId with
    | none => (none, db)
    | some roomId =>
      match Room.findRoomById db roomId with
      | (none, db1) => (none, db1)
      | (some _, db1) =>
        match Booking.createBooking db1 user.id roomId dateFrom dateTo with
        | (Except.error _, db2) => (none, db2)
        | (Except.ok newBooking, db2) => (newBooking, db2)

/-- `viewMyBookings`. -/
def viewMyBookings (db : DBManager) (currentUser : Option User) :
    Except Exn Unit × DBManager :=
  match User.getCurrentUser currentUser with
  | none => (Except.ok (), db)
  | some user =>
    match Booking.findBookingsByUserId db user.id with
    | (Except.error e, db1) => (Except.error e, db1)
    | (Except.ok bookings, db1) =>
      if bookings.isEmpty then (Except.ok (), db1)
      else (Except.ok (), bookings.foldl displayBooking db1)

/-- `manageUserRoles`; `userId` and `choice` are `none` when
`std::cin.fail()`. -/
def manageUserRoles (db : DBManager) (userId choice : Option Int) : DBManager :=
  let all := User.getAllUsers db
  if all.1.isEmpty then all.2
  else
    match userId with
    | none => all.2
    | some userId =>
      if userId = -1 then all.2
      else
        match User.findUserById all.2 userId with
        | (none, db1) => db1
        | (some userToModify, db1) =>
          match choice with
          | none => db1
          | some c =>
            let newRole : Option UserRole :=
              if c = 1 then some UserRole.ADMIN
              else if c = 2 then some UserRole.MANAGER
              else if c = 3 then some UserRole.USER
              else none
            match newRole with
            | none => db1
            | some r => (userToModify.updateRole db1 r).2.2

/-- `viewAllRooms`. -/
def viewAllRooms (db : DBManager) : DBManager :=
  (Room.getAllRooms db).2

/-- `addRoom`; `pricePerDay` is `none` when `std::cin.fail()`. -/
def addRoom (db : DBManager) (number type : String) (pricePerDay : Option ℚ)
    (description : String) : DBManager :=
  match pricePerDay with
  | none => db
  | some p => if p < 0 then db else (Room.addRoom db number type p description).2

/-- `viewAllServices`. -/
def viewAllServices (db : DBManager) : DBManager :=
  (Service.getAllServices db).2

/-- `addService`; `price` is `none` when `std::cin.fail()`. -/
def addService (db : DBManager) (name : String) (price : Option ℚ) : DBManager :=
  match price with
  | none => db
  | some p => if p < 0 then db else (Service.addService db name p).2

/-! ## UIManager.cpp: the date prompts -/

/-- One position of the regular expression of `isValidDate`: the class `\d`
or a literal character. -/
inductive RegexAtom where
  | digit
  | literal (c : Char)
  deriving DecidableEq, Repr

/-- The characters a position accepts; `\d` is a decimal digit. -/
def RegexAtom.accepts : RegexAtom → Char → Bool
  | RegexAtom.digit, c => c.isDigit
  | RegexAtom.literal a, c => c == a

/-- `std::regex_match` for an expression that is a sequence of positions: the
whole text has to be matched, position by position. -/
def regexMatch : List RegexAtom → List Char → Bool
  | [], [] => true
  | a :: rest, c :: cs => a.accepts c && regexMatch rest cs
  | _, _ => false

/-- The expression `(\d{4})-(\d{2})-(\d{2})` of `isValidDate`. -/
def datePattern : List RegexAtom :=
  List.replicate 4 RegexAtom.digit ++ [RegexAtom.literal '-'] ++
    List.replicate 2 RegexAtom.digit ++ [RegexAtom.literal '-'] ++
    List.replicate 2 RegexAtom.digit

/-- `isValidDate`. -/
def isValidDate (date : String) : Bool :=
  regexMatch datePattern date.data

/-- The loop `while (true)` of a date prompt over the lines typed: lines are
read until `isValidDate` accepts one; the result is that line and the lines
left. `none`: no line typed is accepted, and the loop does not end. -/
def readValidDate : List String → Option (String × List String)
  | [] => none
  | line :: rest => if isValidDate line then some (line, rest) else readValidDate rest

/-- The value of a decimal digit. -/
def digitValue (c : Char) : Int :=
  (c.toNat : Int) - 48

/-- The leap years of the server. -/
def isleap (y : Int) : Bool :=
  y % 4 == 0 && (y % 100 != 0 || y % 400 == 0)

/-- The number of days of month `m` of year `y`. -/
def daysInMonth (y m : Int) : Int :=
  if m = 2 then (if isleap y then 29 else 28)
  else if m = 4 ∨ m = 6 ∨ m = 9 ∨ m = 11 then 30
  else 31

/-- The Julian day number of a calendar date, as the server computes it. -/
def date2j (y m d : Int) : Int :=
  let m1 := if m > 2 then m + 1 else m + 13
  let y1 := if m > 2 then y + 4800 else y + 4799
  let century := y1 / 100
  y1 * 365 - 32167 + (y1 / 4 - century + century / 4) + (7834 * m1 / 256 + d)

/-- The reading the server makes of a date literal of the form `isValidDate`
accepts: the day number counted from 2000-01-01 (Julian day 2451545), or
`none` when the literal is out of range (year 0, a month outside 1..12, a day
the month does not have). A text `isValidDate` does not accept is given no
reading: the result is `none` for it. -/
def dateIn (text : String) : Option Date :=
  if isValidDate text then
    match text.data with
    | [y1, y2, y3, y4, _, m1, m2, _, d1, d2] =>
      let y := 1000 * digitValue y1 + 100 * digitValue y2 + 10 * digitValue y3 + digitValue y4
      let m := 10 * digitValue m1 + digitValue m2
      let d := 10 * digitValue d1 + digitValue d2
      if 1 ≤ y ∧ 1 ≤ m ∧ m ≤ 12 ∧ 1 ≤ d ∧ d ≤ daysInMonth y m then
        some (date2j y m d - 2451545)
      else none
    | _ => none
  else none

/-- The answer of the server to a statement that holds a date literal out of
range. -/
def sqlRejectedDate {α : Type} : Statement α :=
  fun db => (Except.error "date/time field value out of range", db)

/-- `Booking::isRoomAvailable` on date texts that `isValidDate` accepted, as
the prompts of `UIManager.cpp` hand them on: the statement of
`isRoomAvailable` when the server reads both literals, a statement the server
rejects when one is out of range. A text of another form is not modelled: it
is treated as out of range, though the server reads some such texts. -/
def Booking.isRoomAvailableText (db : DBManager) (roomId : Int) (dateFrom dateTo : String) :
    Except Exn Bool × DBManager :=
  match dateIn dateFrom, dateIn dateTo with
  | some c, some d => Booking.isRoomAvailable db roomId c d
  | _, _ =>
    match db.executeQuery (sqlRejectedDate : Statement Nat) with
    | (Except.error e, db1) => (Except.error e, db1)
    | (Except.ok count, db1) => (Except.ok (count == 0), db1)

/-- `Booking::createBooking` on date texts that `isValidDate` accepted; with a
literal out of range the availability statement fails and nothing else is
sent. -/
def Booking.createBookingText (db : DBManager) (userId roomId : Int)
    (dateFrom dateTo : String) : Except Exn (Option Booking) × DBManager :=
  match dateIn dateFrom, dateIn dateTo with
  | some c, some d => Booking.createBooking db userId roomId c d
  | _, _ =>
    match Booking.isRoomAvailableText db roomId dateFrom dateTo with
    | (Except.error e, db1) => (Except.error e, db1)
    | (Except.ok _, db1) => (Except.ok none, db1)

/-- The `try` block of `makeBooking`, for the date texts its prompts
accepted: `createBooking` is called, and an exception is caught. -/
def makeBookingTry (db : DBManager) (userId roomId : Int) (dateFrom dateTo : String) :
    Option Booking × DBManager :=
  match Booking.createBookingText db userId roomId dateFrom dateTo with
  | (Except.error _, db2) => (none, db2)
  | (Except.ok newBooking, db2) => (newBooking, db2)

/-- `makeBooking` with the lines typed at its two date prompts. `none`: a
prompt never gets an accepted line. -/
def makeBookingLines (db : DBManager) (currentUser : Option User) (roomId : Option Int)
    (lines : List String) : Option (Option Booking × DBManager) :=
  match User.getCurrentUser currentUser with
  | none => some (none, db)
  | some user =>
    match roomId with
    | none => some (none, db)
    | some roomId =>
      match Room.findRoomById db roomId with
      | (none, db1) => some (none, db1)
      | (some _, db1) =>
        match readValidDate lines with
        | none => none
        | some (dateFrom, rest) =>
          match readValidDate rest with
          | none => none
          | some (dateTo, _) => some (makeBookingTry db1 user.id roomId dateFrom dateTo)

/-- The part of `viewAvailableRooms` after its prompts, for the date texts
they accepted: the rooms displayed. -/
def viewAvailableRoomsFor (db : DBManager) (dateFrom dateTo : String) :
    Except Exn (List Room) × DBManager :=
  let all := Room.getAllRooms db
  all.1.foldl
    (fun acc room =>
      match acc with
      | (Except.error e, db1) => (Except.error e, db1)
      | (Except.ok shown, db1) =>
        match Booking.isRoomAvailableText db1 room.id dateFrom dateTo with
        | (Except.error e, db2) => (Except.error e, db2)
        | (Except.ok true, db2) => (Except.ok (shown ++ [room]), db2)
        | (Except.ok false, db2) => (Except.ok shown, db2))
    (Except.ok [], all.2)

/-- `viewAvailableRooms` with the lines typed at its two date prompts. `none`:
a prompt never gets an accepted line. -/
def viewAvailableRoomsLines (db : DBManager) (lines : List String) :
    Option (Except Exn (List Room) × DBManager) :=
  match readValidDate lines with
  | none => none
  | some (dateFrom, rest) =>
    match readValidDate rest with
    | none => none
    | some (dateTo, _) => some (viewAvailableRoomsFor db dateFrom dateTo)

/-! ## main.cpp -/

/-- What is typed during one pass of the loop of `main`: the menu choice
(`none` when `std::cin.fail()`), then the values the chosen action reads. -/
structure Typed where
  choice : Option Int
  login : String := ""
  password : String := ""
  roleChoice : Option Int := none
  bookingId : Int := 0
  statusChoice : Int := 0
  serviceId : Int := 0
  quantity : Int := 0
  roomId : Option Int := none
  dateFrom : Date := 0
  dateTo : Date := 0
  userId : Option Int := none
  newRoleChoice : Option Int := none
  number : String := ""
  type : String := ""
  pricePerDay : Option ℚ := none
  description : String := ""
  name : String := ""
  price : Option ℚ := none
  deriving DecidableEq, Repr

/-- The calls the nested switch of `main` makes for a logged-in user. -/
inductive Action where
  | viewAllBookings
  | manageBooking
  | addServiceToBooking
  | calculateBill
  | manageUserRoles
  | registerUser
  | viewAllRooms
  | addRoom
  | viewAllServices
  | addService
  | viewAvailableRooms
  | makeBooking
  | viewMyBookings
  | logout
  | invalidChoice
  deriving DecidableEq, Repr

/-- The nested switch of `main` on the role of the current user and on the
choice. -/
def menuAction (role : UserRole) (choice : Int) : Action :=
  match role with
  | UserRole.ADMIN =>
    if choice = 1 then Action.viewAllBookings
    else if choice = 2 then Action.manageBooking
    else if choice = 3 then Action.addServiceToBooking
    else if choice = 4 then Action.calculateBill
    else if choice = 5 then Action.manageUserRoles
    else if choice = 6 then Action.registerUser
    else if choice = 7 then Action.viewAllRooms
    else if choice = 8 then Action.addRoom
    else if choice = 9 then Action.viewAllServices
    else if choice = 10 then Action.addService
    else if choice = 0 then Action.logout
    else Action.invalidChoice
  | UserRole.MANAGER =>
    if choice = 1 then Action.viewAllBookings
    else if choice = 2 then Action.manageBooking
    else if choice = 3 then Action.calculateBill
    else if choice = 4 then Action.viewAllRooms
    else if choice = 5 then Action.addRoom
    else if choice = 6 then Action.viewAllServices
    else if choice = 7 then Action.addService
    else if choice = 0 then Action.logout
    else Action.invalidChoice
  | UserRole.USER =>
    if choice = 1 then Action.viewAvailableRooms
    else if choice = 2 then Action.makeBooking
    else if choice = 3 then Action.viewMyBookings
    else if choice = 0 then Action.logout
    else Action.invalidChoice

/-- The call made for an action. `main` has no `try` around it: an exception
that leaves the called function leaves `main`. -/
def runAction (action : Action) (db : DBManager) (currentUser : Option User) (typed : Typed) :
    Except Exn (Option User × DBManager) :=
  match action with
  | Action.viewAllBookings =>
    match viewAllBookings db with
    | (Except.error e, _) => Except.error e
    | (Except.ok _, db1) => Except.ok (currentUser, db1)
  | Action.manageBooking =>
    match manageBooking db typed.bookingId typed.statusChoice with
    | (Except.error e, _) => Except.error e
    | (Except.ok _, db1) => Except.ok (currentUser, db1)
  | Action.addServiceToBooking =>
    match addServiceToBooking db typed.bookingId typed.serviceId typed.quantity with
    | (Except.error e, _) => Except.error e
    | (Except.ok _, db1) => Except.ok (currentUser, db1)
  | Action.calculateBill =>
    match calculateBill db typed.bookingId with
    | (Except.error e, _) => Except.error e
    | (Except.ok _, db1) => Except.ok (currentUser, db1)
  | Action.manageUserRoles =>
    Except.ok (currentUser, manageUserRoles db typed.userId typed.newRoleChoice)
  | Action.registerUser =>
    Except.ok (currentUser,
      (registerUser db currentUser typed.roleChoice typed.login typed.password).2)
  | Action.viewAllRooms => Except.ok (currentUser, viewAllRooms db)
  | Action.addRoom =>
    Except.ok (currentUser,
      addRoom db typed.number typed.type typed.pricePerDay typed.description)
  | Action.viewAllServices => Except.ok (currentUser, viewAllServices db)
  | Action.addService => Except.ok (currentUser, addService db typed.name typed.price)
  | Action.viewAvailableRooms =>
    match viewAvailableRooms db typed.dateFrom typed.dateTo with
    | (Except.error e, _) => Except.error e
    | (Except.ok _, db1) => Except.ok (currentUser, db1)
  | Action.makeBooking =>
    Except.ok (currentUser,
      (makeBooking db currentUser typed.roomId typed.dateFrom typed.dateTo).2)
  | Action.viewMyBookings =>
    match viewMyBookings db currentUser with
    | (Except.error e, _) => Except.error e
    | (Except.ok _, db1) => Except.ok (currentUser, db1)
  | Action.logout => Except.ok (User.logout currentUser, db)
  | Action.invalidChoice => Except.ok (currentUser, db)

/-- One pass of the loop of `main`, on an open connection: the flag `running`,
the current user and the stored state afterwards, or the exception that
leaves `main`. -/
def mainIteration (db : DBManager) (currentUser : Option User) (typed : Typed) :
    Except Exn (Bool × Option User × DBManager) :=
  match User.getCurrentUser currentUser with
  | none =>
    match typed.choice with
    | none => Except.ok (true, currentUser, db)
    | some choice =>
      if choice = 1 then
        let r := login db currentUser typed.login typed.password
        Except.ok (true, r.2.1, r.2.2)
      else if choice = 2 then
        Except.ok (true, currentUser,
          (registerUser db currentUser typed.roleChoice typed.login typed.password).2)
      else if choice = 0 then Except.ok (false, currentUser, db)
      else Except.ok (true, currentUser, db)
  | some user =>
    match typed.choice with
    | none => Except.ok (true, currentUser, db)
    | some choice =>
      match runAction (menuAction user.role choice) db currentUser typed with
      | Except.error e => Except.error e
      | Except.ok (currentUser1, db1) => Except.ok (true, currentUser1, db1)

/-- The loop of `main` over the passes typed, followed by `disconnect` and
`logout` when the loop is left through choice 0; an exception that leaves a
pass ends the program. -/
def mainLoop : List Typed → Option User → DBManager → Except Exn (Option User × DBManager)
  | [], currentUser, db => Except.ok (currentUser, db)
  | typed :: rest, currentUser, db =>
    match mainIteration db currentUser typed with
    | Except.error e => Except.error e
    | Except.ok (false, currentUser1, db1) =>
      Except.ok (User.logout currentUser1, db1.disconnect)
    | Except.ok (true, currentUser1, db1) => mainLoop rest currentUser1 db1

/-! ## Sequences of calls and the no-double-booking property -/

/-- The arguments of one call of `createBooking`. -/
structure BookingRequest where
  userId : Int
  roomId : Int
  dateFrom : Date
  dateTo : Date
  deriving DecidableEq, Repr

/-- The stored state after a sequence of calls of `createBooking`, each call
running on the state the call before it left, whatever its outcome (a booking,
`nullptr` or an exception). -/
def createBookings (db : DBManager) (requests : List BookingRequest) : DBManager :=
  requests.foldl
    (fun s q => (Booking.createBooking s q.userId q.roomId q.dateFrom q.dateTo).2) db

/-- No two stored bookings of the same room, neither of them cancelled, have
overlapping dates. The relation is symmetric (`overlaps_comm`), so it is
stated for each pair of rows once, in table order; `noDoubleBooking_iff` reads
it on every pair of distinct rows. -/
def NoDoubleBooking (bookings : List BookingRow) : Prop :=
  bookings.Pairwise (fun r1 r2 =>
    r1.room_id = r2.room_id → r1.status ≠ "cancelled" → r2.status ≠ "cancelled" →
      overlaps r1.date_from r1.date_to r2.date_from r2.date_to = false)

instance (bookings : List BookingRow) : Decidable (NoDoubleBooking bookings) :=
  inferInstanceAs (Decidable (bookings.Pairwise _))

/-! ## Readings used to state the properties -/

/-- The reading of a stored role string that `authenticate`, `findUserById` and
`getAllUsers` each spell out in their own chain of comparisons; written once
here so that the three copies can be compared with it. -/
def roleOfString (roleStr : String) : UserRole :=
  if roleStr = "admin" then UserRole.ADMIN
  else if roleStr = "manager" then UserRole.MANAGER
  else UserRole.USER

/-- The map `getServices` builds for a booking from the stored attachments. -/
def servicesOf (db : DBManager) (bookingId : Int) : List (Int × Int) :=
  ((db.booking_services.filter (fun r => r.booking_id == bookingId)).map
    (fun r => (r.service_id, r.quantity))).foldl
      (fun servicesMap row => mapAssign servicesMap row.1 row.2) []

/-- What one entry `(serviceId, quantity)` of the services of a booking adds to
a bill when the lookup of the service is answered: price times quantity when
exactly one stored service has the id, nothing otherwise. -/
def resolvedCost (services : List ServiceRow) (entry : Int × Int) : ℚ :=
  match services.filter (fun r => r.id == entry.1) with
  | [r] => r.price * (entry.2 : ℚ)
  | _ => 0

/-- The cost of the services of a bill, entry by entry, when the gateway gives
the answers `faults` to the lookups: an entry whose lookup is refused adds
nothing, another adds its `resolvedCost`. -/
def billedWith (services : List ServiceRow) : List (Int × Int) → List Bool → ℚ
  | [], _ => 0
  | entry :: rest, faults =>
    (if faults.head? = some true then 0 else resolvedCost services entry) +
      billedWith services rest faults.tail

/-- The lines the lookups of the entries write to `std::cerr` with the
answers `faults` of the server: one line for each lookup that is refused. -/
def cerrWith : List (Int × Int) → List Bool → List String
  | [], _ => []
  | _ :: rest, faults =>
    (if faults.head? = some true then
        ["Failed to find service by ID: Query execution failed: "]
      else []) ++ cerrWith rest faults.tail

/-! ## A stored state used in the examples -/

/-- Room 201 with one confirmed booking, 2023-01-01 (day 8401) to 2023-01-05
(day 8405), on an open connection. -/
def room201 : DBManager :=
  { connection := some ConnStatusType.CONNECTION_OK
    faults := []
    bookings := [{ id := 1, user_id := 101, room_id := 201, date_from := 8401,
                   date_to := 8405, status := "confirmed" }]
    booking_services := []
    bookings_id_seq := 2 }

/-- The in-memory object of the booking stored in `room201`. -/
def booking1 : Booking :=
  { id := 1, userId := 101, roomId := 201, dateFrom := 8401, dateTo := 8405,
    status := BookingStatus.CONFIRMED }

/-- Four requests on the state `room201`: one that overlaps the stored booking,
one after it, one between the two, and one for another room. -/
def requests201 : List BookingRequest :=
  [{ userId := 102, roomId := 201, dateFrom := 8404, dateTo := 8410 },
   { userId := 102, roomId := 201, dateFrom := 8406, dateTo := 8410 },
   { userId := 103, roomId := 201, dateFrom := 8405, dateTo := 8406 },
   { userId := 103, roomId := 202, dateFrom := 8401, dateTo := 8410 }]

/-- The state `room201` with its room priced 50 a day, the service `breakfast`
priced 10 and attached twice to booking 1, and the users `alice` (USER) and
`root` (ADMIN). -/
def hotel : DBManager :=
  { room201 with
    booking_services := [{ booking_id := 1, service_id := 7, quantity := 2 }]
    users := [{ id := 101, login := "alice", password_hash := "h1", role := "user" },
              { id := 1, login := "root", password_hash := "h0", role := "admin" }]
    users_id_seq := 102
    rooms := [{ id := 201, number := "201", type := "double", price_per_day := 50,
                description := "" }]
    rooms_id_seq := 202
    services := [{ id := 7, name := "breakfast", price := 10 }]
    services_id_seq := 8 }

/-- The state `hotel` after the connection is lost: `PQstatus` no longer
reports `CONNECTION_OK`. -/
def hotelOffline : DBManager :=
  { hotel with connection := some ConnStatusType.CONNECTION_BAD }

/-- The state `hotel` on a connection that answers one statement and fails
the next. -/
def hotelFlaky : DBManager :=
  { hotel with faults := [false, true] }

/-- The object of the stored user `root`. -/
def adminUser : User :=
  { id := 1, login := "root", password := "h0", role := UserRole.ADMIN }

/-- The object of the stored user `alice`. -/
def aliceUser : User :=
  { id := 101, login := "alice", password := "h1", role := UserRole.USER }

/-- The state `hotel` with a second booking of room 201, cancelled, over days
8411 to 8412, and with service 7 and service 9, of which nothing is stored,
attached to both bookings. -/
def hotelTwo : DBManager :=
  { hotel with
    bookings := [{ id := 1, user_id := 101, room_id := 201, date_from := 8401,
                   date_to := 8405, status := "confirmed" },
                 { id := 2, user_id := 101, room_id := 201, date_from := 8411,
                   date_to := 8412, status := "cancelled" }]
    bookings_id_seq := 3
    booking_services := [{ booking_id := 1, service_id := 7, quantity := 2 },
                         { booking_id := 2, service_id := 7, quantity := 2 },
                         { booking_id := 1, service_id := 9, quantity := 1 },
                         { booking_id := 2, service_id := 9, quantity := 1 }] }

/-- The state `hotel` with the user `bob`, whose stored credential holds a
quote character. -/
def hotelQuote : DBManager :=
  { hotel with
    users := [{ id := 101, login := "alice", password_hash := "h1", role := "user" },
              { id := 1, login := "root", password_hash := "h0", role := "admin" },
              { id := 102, login := "bob", password_hash := "a'b", role := "user" }]
    users_id_seq := 103 }

/-- The state `hotel` without bookings. -/
def hotelEmpty : DBManager :=
  { hotel with bookings := [], bookings_id_seq := 1, booking_services := [] }

/-- A statement that changes nothing, standing for `BEGIN`, `COMMIT` or
`ROLLBACK` in the examples. -/
def sqlNoEffect : Statement Nat :=
  fun db => (Except.ok 0, db)

/-! ## Auxiliary facts -/

/-! ## Statements built from text without quote characters -/

theorem lexSql_append (s : LexState) (l1 l2 : List Char) :
    lexSql s (l1 ++ l2) =
      match lexRun s l1 with
      | none => none
      | some (units, s1) =>
        match lexSql s1 l2 with
        | none => none
        | some rest => some (units ++ rest) := by
  induction l1 generalizing s with
  | nil =>
    simp only [List.nil_append, lexRun]
    rcases lexSql s l2 with _ | rest <;> simp
  | cons c cs ih =>
    simp only [List.cons_append, lexSql, lexRun]
    rcases lexStep s c with _ | ⟨units, s1⟩
    · rfl
    · have h : lexSql s1 (cs.append l2) = _ := ih s1
      simp only []
      rw [h]
      rcases lexRun s1 cs with _ | ⟨more, s2⟩
      · rfl
      · simp only []
        rcases lexSql s2 l2 with _ | rest
        · rfl
        · simp [List.append_assoc]

theorem lexRun_text (acc l : List Char) (h : l.contains (Char.ofNat 39) = false) :
    lexRun (LexState.inText acc) l = some ([], LexState.inText (l.reverse ++ acc)) := by
  induction l generalizing acc with
  | nil => rfl
  | cons c cs ih =>
    have hc : ¬ c = quoteChar := by
      intro hq
      rw [hq] at h
      simp [quoteChar] at h
    have hcs : cs.contains (Char.ofNat 39) = false := by
      simp only [List.contains_cons, Bool.or_eq_false_iff] at h
      exact h.2
    simp only [lexRun, lexStep, if_neg hc, ih _ hcs]
    simp

theorem lexSql_selectUser (login password : String) (h1 : SqlText login)
    (h2 : SqlText password) :
    lexSql LexState.start
        ("SELECT id, login, password_hash, role FROM users WHERE login = '" ++ login ++
          "' AND password_hash = '" ++ password ++ "';").data =
      some (headSelectUser ++
        [SqlToken.word "login", SqlToken.symbol '=', SqlToken.text login,
         SqlToken.word "and", SqlToken.word "password_hash", SqlToken.symbol '=',
         SqlToken.text password, SqlToken.symbol ';']) := by
  have hdata : ("SELECT id, login, password_hash, role FROM users WHERE login = '" ++ login ++
          "' AND password_hash = '" ++ password ++ "';").data =
      "SELECT id, login, password_hash, role FROM users WHERE login = '".data ++
        (login.data ++ ("' AND password_hash = '".data ++ (password.data ++ "';".data))) := by
    simp [String.data_append]
  rw [hdata, lexSql_append]
  have hA : lexRun LexState.start
      "SELECT id, login, password_hash, role FROM users WHERE login = '".data =
      some (headSelectUser ++ [SqlToken.word "login", SqlToken.symbol '='],
        LexState.inText []) := by
    decide
  rw [hA]
  simp only []
  rw [lexSql_append, lexRun_text _ _ h1]
  simp only []
  rw [lexSql_append]
  have hB : ∀ acc : List Char, lexRun (LexState.inText acc) "' AND password_hash = '".data =
      some ([SqlToken.text (String.mk acc.reverse), SqlToken.word "and",
        SqlToken.word "password_hash", SqlToken.symbol '='], LexState.inText []) := by
    intro acc
    rfl
  rw [hB]
  simp only []
  rw [lexSql_append, lexRun_text _ _ h2]
  simp only []
  have hC : ∀ acc : List Char, lexSql (LexState.inText acc) "';".data =
      some [SqlToken.text (String.mk acc.reverse), SqlToken.symbol ';'] := by
    intro acc
    rfl
  rw [hC]
  simp

/-- For a login and a credential without quote characters, the statement of
`authenticate` selects the rows that hold that login and that credential. -/
theorem sqlSelectUserByCredentials_eq (login password : String) (h1 : SqlText login)
    (h2 : SqlText password) (db : DBManager) :
    sqlSelectUserByCredentials login password db =
      (Except.ok (db.users.filter
        (fun r => r.login == login && r.password_hash == password)), db) := by
  have hread : readWhere headSelectUser
      ("SELECT id, login, password_hash, role FROM users WHERE login = '" ++ login ++
        "' AND password_hash = '" ++ password ++ "';") =
      some (SqlCond.and (SqlCond.eq (SqlValue.col "login") (SqlValue.lit login))
        (SqlCond.eq (SqlValue.col "password_hash") (SqlValue.lit password))) := by
    unfold readWhere
    rw [lexSql_selectUser login password h1 h2]
    rfl
  unfold sqlSelectUserByCredentials
  rw [hread]
  rfl

theorem lexSql_selectUserId (login : String) (h1 : SqlText login) :
    lexSql LexState.start ("SELECT id FROM users WHERE login = '" ++ login ++ "';").data =
      some (headSelectUserId ++
        [SqlToken.word "login", SqlToken.symbol '=', SqlToken.text login,
         SqlToken.symbol ';']) := by
  have hdata : ("SELECT id FROM users WHERE login = '" ++ login ++ "';").data =
      "SELECT id FROM users WHERE login = '".data ++ (login.data ++ "';".data) := by
    simp [String.data_append]
  rw [hdata, lexSql_append]
  have hA : lexRun LexState.start "SELECT id FROM users WHERE login = '".data =
      some (headSelectUserId ++ [SqlToken.word "login", SqlToken.symbol '='],
        LexState.inText []) := by
    decide
  rw [hA]
  simp only []
  rw [lexSql_append, lexRun_text _ _ h1]
  simp only []
  have hC : ∀ acc : List Char, lexSql (LexState.inText acc) "';".data =
      some [SqlToken.text (String.mk acc.reverse), SqlToken.symbol ';'] := by
    intro acc
    rfl
  rw [hC]
  simp

/-- For a login without quote characters, the first statement of `addUser`
selects the ids of the rows that hold that login. -/
theorem sqlSelectUserIdByLogin_eq (login : String) (h1 : SqlText login) (db : DBManager) :
    sqlSelectUserIdByLogin login db =
      (Except.ok ((db.users.filter (fun r => r.login == login)).map (fun r => r.id)), db) := by
  have hread : readWhere headSelectUserId
      ("SELECT id FROM users WHERE login = '" ++ login ++ "';") =
      some (SqlCond.eq (SqlValue.col "login") (SqlValue.lit login)) := by
    unfold readWhere
    rw [lexSql_selectUserId login h1]
    rfl
  unfold sqlSelectUserIdByLogin
  rw [hread]
  rfl

theorem lexSql_insertUser (login password role : String) (h1 : SqlText login)
    (h2 : SqlText password) (h3 : SqlText role) :
    lexSql LexState.start
        ("INSERT INTO users (login, password_hash, role) VALUES ('" ++ login ++ "', '" ++
          password ++ "', '" ++ role ++ "');").data =
      some (headInsertUser ++
        [SqlToken.text login, SqlToken.symbol ',', SqlToken.text password,
         SqlToken.symbol ',', SqlToken.text role, SqlToken.symbol ')',
         SqlToken.symbol ';']) := by
  have hdata : ("INSERT INTO users (login, password_hash, role) VALUES ('" ++ login ++ "', '" ++
          password ++ "', '" ++ role ++ "');").data =
      "INSERT INTO users (login, password_hash, role) VALUES ('".data ++
        (login.data ++ ("', '".data ++ (password.data ++ ("', '".data ++
          (role.data ++ "');".data))))) := by
    simp [String.data_append]
  rw [hdata, lexSql_append]
  have hA : lexRun LexState.start
      "INSERT INTO users (login, password_hash, role) VALUES ('".data =
      some (headInsertUser, LexState.inText []) := by
    decide
  rw [hA]
  simp only []
  have hB : ∀ acc : List Char, lexRun (LexState.inText acc) "', '".data =
      some ([SqlToken.text (String.mk acc.reverse), SqlToken.symbol ','],
        LexState.inText []) := by
    intro acc
    rfl
  have hC : ∀ acc : List Char, lexSql (LexState.inText acc) "');".data =
      some [SqlToken.text (String.mk acc.reverse), SqlToken.symbol ')',
        SqlToken.symbol ';'] := by
    intro acc
    rfl
  rw [lexSql_append, lexRun_text _ _ h1]
  simp only []
  rw [lexSql_append, hB]
  simp only []
  rw [lexSql_append, lexRun_text _ _ h2]
  simp only []
  rw [lexSql_append, hB]
  simp only []
  rw [lexSql_append, lexRun_text _ _ h3]
  simp only []
  rw [hC]
  simp

/-- For a login, a credential and a role string without quote characters, the
second statement of `addUser` stores the row of the three. -/
theorem sqlInsertUser_eq (login password role : String) (h1 : SqlText login)
    (h2 : SqlText password) (h3 : SqlText role) (db : DBManager) :
    sqlInsertUser login password role db = storeUser login password role db := by
  have hread : readInsertUser
      ("INSERT INTO users (login, password_hash, role) VALUES ('" ++ login ++ "', '" ++
        password ++ "', '" ++ role ++ "');") = some (login, password, role) := by
    unfold readInsertUser
    rw [lexSql_insertUser login password role h1 h2 h3]
    rfl
  unfold sqlInsertUser
  rw [hread]

theorem sqlText_getRoleString (user : User) : SqlText user.getRoleString := by
  unfold User.getRoleString
  cases user.role <;> decide


theorem overlaps_comm (s1 e1 s2 e2 : Date) : overlaps s1 e1 s2 e2 = overlaps s2 e2 s1 e1 := by
  unfold overlaps
  simp only [Date] at *
  split_ifs <;> simp <;> omega

/-- On ordered pairs, `OVERLAPS` holds exactly when the periods start together
or each starts strictly before the other ends. -/
theorem overlaps_ordered (a b c d : Date) (hab : a ≤ b) (hcd : c ≤ d) :
    overlaps a b c d = true ↔ a = c ∨ (c < b ∧ a < d) := by
  unfold overlaps
  simp only [Date] at *
  split_ifs <;> simp <;> omega

theorem isConnected_iff (db : DBManager) :
    db.isConnected = true ↔ db.connection = some ConnStatusType.CONNECTION_OK := by
  unfold DBManager.isConnected
  cases h : db.connection <;> simp

theorem filter_conflicts (R : Int) (c d : Date) (l : List BookingRow) :
    l.filter (conflicts R c d) =
      (l.filter (fun r => r.room_id == R && r.status != "cancelled")).filter
        (fun r => overlaps r.date_from r.date_to c d) := by
  rw [List.filter_filter]
  congr 1
  funext r
  simp [conflicts, Bool.and_comm]

theorem conflicts_eq_false_iff (R : Int) (c d : Date) (r : BookingRow) :
    conflicts R c d r = false ↔
      (r.room_id = R → r.status ≠ "cancelled" → overlaps r.date_from r.date_to c d = false) := by
  unfold conflicts
  by_cases h1 : r.room_id = R <;> by_cases h2 : r.status = "cancelled" <;> simp [h1, h2]

/-- The outcome of `isRoomAvailable` on an open connection whose next statement
is not refused. -/
theorem isRoomAvailable_eq (db : DBManager) (R : Int) (c d : Date)
    (hconn : db.isConnected = true) (hsend : db.faults.head? ≠ some true) :
    Booking.isRoomAvailable db R c d =
      (if (db.bookings.filter (conflicts R c d)).length ≤ 2147483647 then
          Except.ok (decide ((db.bookings.filter (conflicts R c d)).length = 0))
        else Except.error (Exn.out_of_range "stoi"),
        { db with faults := db.faults.tail }) := by
  unfold Booking.isRoomAvailable DBManager.executeQuery DBManager.exec sqlCountConflicts stoi
  simp only [hconn, hsend]
  generalize (db.bookings.filter (conflicts R c d)).length = n
  have hnn : (-2147483648 : Int) ≤ (n : Int) := by omega
  by_cases h : n ≤ 2147483647
  · have h2 : (n : Int) ≤ 2147483647 := by omega
    by_cases h0 : n = 0
    · subst h0; simp
    · have h3 : ¬ (n : Int) = 0 := by omega
      simp [h, h2, hnn, h0, h3]
  · have h2 : ¬ (n : Int) ≤ 2147483647 := by omega
    simp [h, h2]

/-- When `isRoomAvailable` returns a value, the connection was open and the
statement was not refused. -/
theorem isRoomAvailable_ok_sent (db : DBManager) (R : Int) (c d : Date) (b : Bool)
    (h : (Booking.isRoomAvailable db R c d).1 = Except.ok b) :
    db.isConnected = true ∧ db.faults.head? ≠ some true := by
  unfold Booking.isRoomAvailable DBManager.executeQuery DBManager.exec at h
  by_cases hc : db.isConnected = true
  · by_cases hf : db.faults.head? = some true
    · simp [hc, hf] at h
    · exact ⟨hc, hf⟩
  · simp [hc] at h

theorem filter_conflicts_length_le (R : Int) (c d : Date) (l : List BookingRow) :
    (l.filter (conflicts R c d)).length ≤ l.length :=
  List.length_filter_le _ _

/-! ## Availability -/

/-- C1: on an open connection whose statement is answered, with a table of
bookings small enough for the count to fit an `int`, `isRoomAvailable R c d`
returns a value, and that value is true exactly when no stored booking of room
`R` whose status is not `cancelled` has dates that overlap `(c, d)`; two
stored states that agree on the bookings of room `R` that are not cancelled
give the same answer, whatever bookings of other rooms and cancelled bookings
they hold. -/
theorem isRoomAvailable_true_iff (db : DBManager) (R : Int) (c d : Date)
    (hconn : db.isConnected = true) (hsend : db.faults.head? ≠ some true)
    (hsize : db.bookings.length ≤ 2147483647) :
    (∃ b : Bool, (Booking.isRoomAvailable db R c d).1 = Except.ok b ∧
      (b = true ↔ ∀ r ∈ db.bookings, r.room_id = R → r.status ≠ "cancelled" →
        overlaps r.date_from r.date_to c d = false)) ∧
    (∀ db2 : DBManager, db2.isConnected = true → db2.faults.head? ≠ some true →
      db2.bookings.filter (fun r => r.room_id == R && r.status != "cancelled") =
        db.bookings.filter (fun r => r.room_id == R && r.status != "cancelled") →
      (Booking.isRoomAvailable db2 R c d).1 = (Booking.isRoomAvailable db R c d).1) := by
  have hlen := filter_conflicts_length_le R c d db.bookings
  constructor
  · refine ⟨decide ((db.bookings.filter (conflicts R c d)).length = 0), ?_, ?_⟩
    · rw [isRoomAvailable_eq db R c d hconn hsend, if_pos (by omega)]
    · simp only [decide_eq_true_eq, List.length_eq_zero, List.filter_eq_nil_iff,
        Bool.not_eq_true]
      constructor
      · intro h r hr
        exact (conflicts_eq_false_iff R c d r).1 (h r hr)
      · intro h r hr
        exact (conflicts_eq_false_iff R c d r).2 (h r hr)
  · intro db2 hconn2 hsend2 hsame
    rw [isRoomAvailable_eq db R c d hconn hsend, isRoomAvailable_eq db2 R c d hconn2 hsend2,
      filter_conflicts R c d db2.bookings, hsame, ← filter_conflicts R c d db.bookings]

/-- Witness of C1: room 201 with a confirmed booking over days 8401 to 8405,
asked for days 8406 to 8410. -/
theorem isRoomAvailable_true_iff_witness :
    (∃ b : Bool, (Booking.isRoomAvailable room201 201 8406 8410).1 = Except.ok b ∧
      (b = true ↔ ∀ r ∈ room201.bookings, r.room_id = 201 → r.status ≠ "cancelled" →
        overlaps r.date_from r.date_to 8406 8410 = false)) ∧
    (∀ db2 : DBManager, db2.isConnected = true → db2.faults.head? ≠ some true →
      db2.bookings.filter (fun r => r.room_id == 201 && r.status != "cancelled") =
        room201.bookings.filter (fun r => r.room_id == 201 && r.status != "cancelled") →
      (Booking.isRoomAvailable db2 201 8406 8410).1 =
        (Booking.isRoomAvailable room201 201 8406 8410).1) :=
  isRoomAvailable_true_iff room201 201 8406 8410 (by decide) (by decide) (by decide)

/-- Counterexample to C2 as stated: room 201 holds a confirmed booking over
days 8401 to 8405; the request for days 8405 to 8410 starts on the date that
booking ends, so `c <= b` and `a <= d` hold, and `isRoomAvailable` returns
true. -/
theorem isRoomAvailable_shared_boundary_available :
    room201.bookings = [{ id := 1, user_id := 101, room_id := 201, date_from := 8401,
                          date_to := 8405, status := "confirmed" }] ∧
    (8401 : Date) ≤ 8405 ∧ (8405 : Date) ≤ 8410 ∧ (8405 : Date) ≤ 8405 ∧ (8401 : Date) ≤ 8410 ∧
    (Booking.isRoomAvailable room201 201 8405 8410).1 = Except.ok true := by
  decide

/-- C2, amended: the overlap of `isRoomAvailable` is that of `OVERLAPS`, half
open. If room `R` has a stored booking that is not cancelled over dates `a..b`
with `a <= b`, and the request `c..d` with `c <= d` starts on the same date
(`a = c`) or has `c < b` and `a < d`, then `isRoomAvailable R c d` returns
false; a request that only meets the booking at a boundary date (`c = b` with
`a < b`, or `d = a` with `c < d`) is not in conflict with that booking. -/
theorem isRoomAvailable_false_of_overlap (db : DBManager) (R : Int) (a b c d : Date)
    (row : BookingRow)
    (hconn : db.isConnected = true) (hsend : db.faults.head? ≠ some true)
    (hsize : db.bookings.length ≤ 2147483647)
    (hrow : row ∈ db.bookings) (hroom : row.room_id = R) (hstatus : row.status ≠ "cancelled")
    (hfrom : row.date_from = a) (hto : row.date_to = b) (hab : a ≤ b) (hcd : c ≤ d) :
    ((a = c ∨ (c < b ∧ a < d)) → (Booking.isRoomAvailable db R c d).1 = Except.ok false) ∧
    (a < b → c = b → conflicts R c d row = false) ∧
    (c < d → d = a → conflicts R c d row = false) := by
  have hlen := filter_conflicts_length_le R c d db.bookings
  refine ⟨?_, ?_, ?_⟩
  · intro hov
    have hc : conflicts R c d row = true := by
      unfold conflicts
      simp [hroom, hstatus, hfrom, hto, (overlaps_ordered a b c d hab hcd).2 hov]
    have hmem : row ∈ db.bookings.filter (conflicts R c d) := List.mem_filter.2 ⟨hrow, hc⟩
    have hne : (db.bookings.filter (conflicts R c d)).length ≠ 0 := by
      intro h0
      rw [List.length_eq_zero] at h0
      rw [h0] at hmem
      exact absurd hmem (List.not_mem_nil _)
    rw [isRoomAvailable_eq db R c d hconn hsend, if_pos (by omega)]
    simp [hne]
  · intro h1 h2
    have hno : ¬ (a = c ∨ (c < b ∧ a < d)) := by
      simp only [Date] at *
      omega
    have := (overlaps_ordered a b c d hab hcd).not.2 hno
    simp [conflicts, hfrom, hto, this]
  · intro h1 h2
    have hno : ¬ (a = c ∨ (c < b ∧ a < d)) := by
      simp only [Date] at *
      omega
    have := (overlaps_ordered a b c d hab hcd).not.2 hno
    simp [conflicts, hfrom, hto, this]

/-- Witness of C2, amended: the confirmed booking of room 201 over days 8401 to
8405 and the request for days 8404 to 8410. -/
theorem isRoomAvailable_false_of_overlap_witness :
    (((8401 : Date) = 8404 ∨ ((8404 : Date) < 8405 ∧ (8401 : Date) < 8410)) →
      (Booking.isRoomAvailable room201 201 8404 8410).1 = Except.ok false) ∧
    ((8401 : Date) < 8405 → (8404 : Date) = 8405 →
      conflicts 201 8404 8410 { id := 1, user_id := 101, room_id := 201, date_from := 8401,
                                date_to := 8405, status := "confirmed" } = false) ∧
    ((8404 : Date) < 8410 → (8410 : Date) = 8401 →
      conflicts 201 8404 8410 { id := 1, user_id := 101, room_id := 201, date_from := 8401,
                                date_to := 8405, status := "confirmed" } = false) :=
  isRoomAvailable_false_of_overlap room201 201 8401 8405 8404 8410
    { id := 1, user_id := 101, room_id := 201, date_from := 8401, date_to := 8405,
      status := "confirmed" }
    (by decide) (by decide) (by decide) (by decide) (by decide) (by decide) rfl rfl
    (by decide) (by decide)

theorem isRoomAvailable_ok_eq (db : DBManager) (R : Int) (c d : Date) (b : Bool)
    (h : (Booking.isRoomAvailable db R c d).1 = Except.ok b) :
    Booking.isRoomAvailable db R c d = (Except.ok b, { db with faults := db.faults.tail }) := by
  obtain ⟨hconn, hsend⟩ := isRoomAvailable_ok_sent db R c d b h
  rw [isRoomAvailable_eq db R c d hconn hsend] at h ⊢
  split_ifs at h ⊢ with hc
  · simp only [Except.ok.injEq] at h
    rw [h]

theorem filter_id_fresh (l : List BookingRow) (row : BookingRow)
    (hfresh : ∀ r ∈ l, r.id ≠ row.id) :
    (l ++ [row]).filter (fun r => r.id == row.id) = [row] := by
  rw [List.filter_append]
  have h1 : l.filter (fun r => r.id == row.id) = [] := by
    rw [List.filter_eq_nil_iff]
    intro r hr
    simpa using hfresh r hr
  simp [h1]

/-! ## Creating a booking -/

/-- C3: whenever `isRoomAvailable R c d` returns false on the stored state,
`createBooking u R c d` returns `nullptr`; the only statement it has sent is
the availability query, so no INSERT is issued: the state afterwards is the
state before with that one statement answered, the stored bookings and the id
generator being what they were. -/
theorem createBooking_unavailable (db : DBManager) (userId R : Int) (c d : Date)
    (h : (Booking.isRoomAvailable db R c d).1 = Except.ok false) :
    (Booking.createBooking db userId R c d).1 = Except.ok none ∧
    (Booking.createBooking db userId R c d).2 = { db with faults := db.faults.tail } ∧
    (Booking.createBooking db userId R c d).2.bookings = db.bookings ∧
    (Booking.createBooking db userId R c d).2.bookings_id_seq = db.bookings_id_seq := by
  have he := isRoomAvailable_ok_eq db R c d false h
  unfold Booking.createBooking
  rw [he]
  simp

/-- Witness of C3: the request for days 8404 to 8410 on room 201, which overlaps
the confirmed booking over days 8401 to 8405 (the rejected request of the
scenario). -/
theorem createBooking_unavailable_witness :
    (Booking.createBooking room201 102 201 8404 8410).1 = Except.ok none ∧
    (Booking.createBooking room201 102 201 8404 8410).2 =
      { room201 with faults := room201.faults.tail } ∧
    (Booking.createBooking room201 102 201 8404 8410).2.bookings = room201.bookings ∧
    (Booking.createBooking room201 102 201 8404 8410).2.bookings_id_seq =
      room201.bookings_id_seq :=
  createBooking_unavailable room201 102 201 8404 8410 (by decide)

/-- C4: whenever `isRoomAvailable R c d` returns true and the gateway succeeds
(the INSERT and the lookup that follow are not refused, and the id the
generator hands out is not taken), `createBooking u R c d` returns a booking
whose userId, roomId, dateFrom and dateTo are the arguments and whose status is
PENDING, and the stored bookings afterwards are the bookings before, unchanged,
followed by exactly one new row with those values and status `pending`. -/
theorem createBooking_available (db : DBManager) (userId R : Int) (c d : Date)
    (havail : (Booking.isRoomAvailable db R c d).1 = Except.ok true)
    (hinsert : db.faults.tail.head? ≠ some true)
    (hselect : db.faults.tail.tail.head? ≠ some true)
    (hfresh : ∀ r ∈ db.bookings, r.id ≠ db.bookings_id_seq) :
    (Booking.createBooking db userId R c d).1 =
      Except.ok (some { id := db.bookings_id_seq, userId := userId, roomId := R,
                         dateFrom := c, dateTo := d, status := BookingStatus.PENDING }) ∧
    (Booking.createBooking db userId R c d).2.bookings =
      db.bookings ++ [{ id := db.bookings_id_seq, user_id := userId, room_id := R,
                        date_from := c, date_to := d, status := "pending" }] := by
  have he := isRoomAvailable_ok_eq db R c d true havail
  obtain ⟨hconn, hsend⟩ := isRoomAvailable_ok_sent db R c d true havail
  have hany : (db.bookings.any fun r => r.id == db.bookings_id_seq) = false := by
    rw [List.any_eq_false]
    intro r hr
    simpa using hfresh r hr
  have hfilter := filter_id_fresh db.bookings
    { id := db.bookings_id_seq, user_id := userId, room_id := R,
      date_from := c, date_to := d, status := "pending" } hfresh
  unfold Booking.createBooking
  rw [he]
  simp only [DBManager.executeQuery, DBManager.exec, DBManager.isConnected, sqlInsertBooking,
    Booking.findBookingById, sqlSelectBookingById]
  rw [isConnected_iff] at hconn
  simp only [hconn, hinsert, hselect, hany]
  have hs : ¬ db.faults[2]? = some true := by simpa using hselect
  simp [hfilter, toBookingStatus, hs]
/-- Witness of C4: with the confirmed booking over days 8401 to 8405 on room
201, the request for days 8406 to 8410 succeeds. -/
theorem createBooking_available_witness :
    (Booking.createBooking room201 102 201 8406 8410).1 =
      Except.ok (some { id := room201.bookings_id_seq, userId := 102, roomId := 201,
                         dateFrom := 8406, dateTo := 8410,
                         status := BookingStatus.PENDING }) ∧
    (Booking.createBooking room201 102 201 8406 8410).2.bookings =
      room201.bookings ++ [{ id := room201.bookings_id_seq, user_id := 102, room_id := 201,
                             date_from := 8406, date_to := 8410, status := "pending" }] :=
  createBooking_available room201 102 201 8406 8410 (by decide) (by decide) (by decide)
    (by decide)

theorem isRoomAvailable_true_no_conflict (db : DBManager) (R : Int) (c d : Date)
    (h : (Booking.isRoomAvailable db R c d).1 = Except.ok true) :
    ∀ r ∈ db.bookings, conflicts R c d r = false := by
  obtain ⟨hconn, hsend⟩ := isRoomAvailable_ok_sent db R c d true h
  rw [isRoomAvailable_eq db R c d hconn hsend] at h
  split_ifs at h with hc
  simpa using h

theorem isRoomAvailable_state (db : DBManager) (R : Int) (c d : Date) :
    (Booking.isRoomAvailable db R c d).2 = db ∨
      (Booking.isRoomAvailable db R c d).2 = { db with faults := db.faults.tail } := by
  unfold Booking.isRoomAvailable DBManager.executeQuery DBManager.exec sqlCountConflicts
  by_cases hc : db.isConnected = true
  · right
    by_cases hf : db.faults.head? = some true
    · simp [hc, hf]
    · simp only [hc, hf, Bool.not_true, Bool.false_eq_true, ↓reduceIte]
      split <;> rfl
  · left
    simp [hc]

theorem findBookingById_bookings (db : DBManager) (id : Int) :
    (Booking.findBookingById db id).2.bookings = db.bookings := by
  unfold Booking.findBookingById DBManager.executeQuery DBManager.exec sqlSelectBookingById
  by_cases hc : db.isConnected = true
  · by_cases hf : db.faults.head? = some true
    · simp [hc, hf]
    · simp only [hc, hf]
      generalize db.bookings.filter (fun r => r.id == id) = rows
      rcases rows with _ | ⟨r, _ | ⟨r2, rest⟩⟩ <;> simp
  · simp [hc]

theorem createBooking_bookings (db : DBManager) (userId R : Int) (c d : Date) :
    (Booking.createBooking db userId R c d).2.bookings = db.bookings ∨
      ((Booking.isRoomAvailable db R c d).1 = Except.ok true ∧
        (Booking.createBooking db userId R c d).2.bookings =
          db.bookings ++ [{ id := db.bookings_id_seq, user_id := userId, room_id := R,
                            date_from := c, date_to := d, status := "pending" }]) := by
  have hstate := isRoomAvailable_state db R c d
  unfold Booking.createBooking
  rcases hres : Booking.isRoomAvailable db R c d with ⟨res, db1⟩
  rw [hres] at hstate
  simp only at hstate
  have hb : db1.bookings = db.bookings := by
    rcases hstate with h | h <;> rw [h]
  have hq : db1.bookings_id_seq = db.bookings_id_seq := by
    rcases hstate with h | h <;> rw [h]
  rcases res with e | b
  · left
    simpa using hb
  · cases b
    · left
      simpa using hb
    · simp only [true_and]
      unfold DBManager.executeQuery DBManager.exec sqlInsertBooking
      by_cases hc : db1.isConnected = true
      · by_cases hf : db1.faults.head? = some true
        · left
          simp [hc, hf, hb]
        · by_cases hany : (db1.bookings.any fun r => r.id == db1.bookings_id_seq) = true
          · left
            simp only [hc, hf, hany]
            simp [hb]
          · right
            simp only [hc, hf, hany]
            simp [findBookingById_bookings, hb, hq]
      · left
        simp [hc, hb]

theorem noDoubleBooking_append (l : List BookingRow) (row : BookingRow)
    (hl : NoDoubleBooking l)
    (hrow : ∀ r ∈ l, conflicts row.room_id row.date_from row.date_to r = false) :
    NoDoubleBooking (l ++ [row]) := by
  unfold NoDoubleBooking at hl ⊢
  rw [List.pairwise_append]
  refine ⟨hl, List.pairwise_singleton _ _, ?_⟩
  intro r hr x hx
  rw [List.mem_singleton] at hx
  subst hx
  intro hroom hs _
  exact (conflicts_eq_false_iff _ _ _ r).1 (hrow r hr) hroom hs

/-- The property `NoDoubleBooking` read on every pair of distinct rows, in
either order. -/
theorem noDoubleBooking_iff (l : List BookingRow) :
    NoDoubleBooking l ↔
      ∀ (i j : Nat) (hi : i < l.length) (hj : j < l.length), i ≠ j →
        l[i].room_id = l[j].room_id → l[i].status ≠ "cancelled" → l[j].status ≠ "cancelled" →
          overlaps l[i].date_from l[i].date_to l[j].date_from l[j].date_to = false := by
  unfold NoDoubleBooking
  rw [List.pairwise_iff_getElem]
  constructor
  · intro h i j hi hj hne hroom hsi hsj
    rcases Nat.lt_or_gt_of_ne hne with hlt | hgt
    · exact h i j hi hj hlt hroom hsi hsj
    · rw [overlaps_comm]
      exact h j i hj hi hgt hroom.symm hsj hsi
  · intro h i j hi hj hlt
    exact h i j hi hj (Nat.ne_of_lt hlt)

theorem createBooking_noDoubleBooking (db : DBManager) (userId R : Int) (c d : Date)
    (h : NoDoubleBooking db.bookings) :
    NoDoubleBooking (Booking.createBooking db userId R c d).2.bookings := by
  rcases createBooking_bookings db userId R c d with hsame | ⟨havail, happ⟩
  · rw [hsame]
    exact h
  · rw [happ]
    exact noDoubleBooking_append db.bookings _ h
      (isRoomAvailable_true_no_conflict db R c d havail)

/-- C5: if no two stored bookings of the same room, neither cancelled, have
overlapping dates (overlap as `isRoomAvailable` tests it), then after every
finite sequence of `createBooking` calls, whatever their arguments and whether
they return a booking, return `nullptr` or throw, the stored bookings have the
same property. -/
theorem createBookings_noDoubleBooking (requests : List BookingRequest) (db : DBManager)
    (h : NoDoubleBooking db.bookings) :
    NoDoubleBooking (createBookings db requests).bookings := by
  induction requests generalizing db with
  | nil => exact h
  | cons q qs ih =>
    unfold createBookings
    rw [List.foldl_cons]
    exact ih _ (createBooking_noDoubleBooking db q.userId q.roomId q.dateFrom q.dateTo h)

/-- Witness of C5: four requests on room 201 and 202, of which the first is
rejected and the other three are stored. -/
theorem createBookings_noDoubleBooking_witness :
    NoDoubleBooking room201.bookings ∧
    (createBookings room201 requests201).bookings.length = 4 ∧
    NoDoubleBooking (createBookings room201 requests201).bookings :=
  ⟨by decide, by decide, createBookings_noDoubleBooking requests201 room201 (by decide)⟩

/-! ## Status -/

theorem updateStatus_eq (self : Booking) (db : DBManager) (t : BookingStatus)
    (hconn : db.isConnected = true) (hsend : db.faults.head? ≠ some true) :
    self.updateStatus db t =
      (Except.ok (), { self with status := t },
        { db with
          faults := db.faults.tail
          bookings := db.bookings.map (fun r =>
            if r.id = self.id then
              { r with status := Booking.getStatusString { self with status := t } }
            else r) }) := by
  unfold Booking.updateStatus DBManager.executeUpdate DBManager.exec sqlUpdateBookingStatus
  simp [hconn, hsend]

/-- C7: `updateStatus` accepts every target. For every booking object, whatever
its current status, and every target status `t`, on a gateway that succeeds
the call returns normally, the object afterwards has status `t`, every stored
row with the id of the object has its status replaced by the status string of
`t`, every other row of `bookings` is what it was, and the attached services
are untouched. -/
theorem updateStatus_any_target (self : Booking) (db : DBManager) (t : BookingStatus)
    (hconn : db.isConnected = true) (hsend : db.faults.head? ≠ some true) :
    (self.updateStatus db t).1 = Except.ok () ∧
    (self.updateStatus db t).2.1 = { self with status := t } ∧
    (self.updateStatus db t).2.2.bookings =
      db.bookings.map (fun r =>
        if r.id = self.id then
          { r with status := Booking.getStatusString { self with status := t } }
        else r) ∧
    (self.updateStatus db t).2.2.booking_services = db.booking_services := by
  rw [updateStatus_eq self db t hconn hsend]
  simp

/-- Witness of C7: the confirmed booking of room 201 is set back to PENDING. -/
theorem updateStatus_any_target_witness :
    (booking1.updateStatus room201 BookingStatus.PENDING).1 = Except.ok () ∧
    (booking1.updateStatus room201 BookingStatus.PENDING).2.1 =
      { booking1 with status := BookingStatus.PENDING } ∧
    (booking1.updateStatus room201 BookingStatus.PENDING).2.2.bookings =
      room201.bookings.map (fun r =>
        if r.id = booking1.id then
          { r with status :=
              Booking.getStatusString { booking1 with status := BookingStatus.PENDING } }
        else r) ∧
    (booking1.updateStatus room201 BookingStatus.PENDING).2.2.booking_services =
      room201.booking_services :=
  updateStatus_any_target booking1 room201 BookingStatus.PENDING (by decide) (by decide)

/-- C6: cancelling frees the range. If exactly one stored row is in conflict
with the request `(c, d)` on room `R` (same room, not cancelled, overlapping
dates) and `B` is the object of that booking, then `isRoomAvailable R c d` is
false, `B.updateStatus(CANCELLED)` succeeds on a gateway that answers, and
`isRoomAvailable R c d` on the state it leaves returns true. -/
theorem cancel_frees_range (db : DBManager) (B : Booking) (R : Int) (c d : Date)
    (row : BookingRow)
    (hconn : db.isConnected = true) (hfirst : db.faults.head? ≠ some true)
    (hsecond : db.faults.tail.head? ≠ some true)
    (hone : db.bookings.filter (conflicts R c d) = [row]) (hB : row.id = B.id) :
    (Booking.isRoomAvailable db R c d).1 = Except.ok false ∧
    (B.updateStatus db BookingStatus.CANCELLED).1 = Except.ok () ∧
    (Booking.isRoomAvailable (B.updateStatus db BookingStatus.CANCELLED).2.2 R c d).1 =
      Except.ok true := by
  refine ⟨?_, ?_, ?_⟩
  · rw [isRoomAvailable_eq db R c d hconn hfirst, hone]
    simp
  · rw [updateStatus_eq B db _ hconn hfirst]
  · rw [updateStatus_eq B db _ hconn hfirst]
    have hconn2 : DBManager.isConnected
        { db with
          faults := db.faults.tail
          bookings := db.bookings.map (fun r =>
            if r.id = B.id then
              { r with status := Booking.getStatusString { B with status := BookingStatus.CANCELLED } }
            else r) } = true := by
      rw [isConnected_iff] at hconn ⊢
      exact hconn
    rw [isRoomAvailable_eq _ R c d hconn2 hsecond]
    have hnil : (db.bookings.map (fun r =>
            if r.id = B.id then
              { r with status := Booking.getStatusString { B with status := BookingStatus.CANCELLED } }
            else r)).filter (conflicts R c d) = [] := by
      rw [List.filter_eq_nil_iff]
      intro r hr
      rw [List.mem_map] at hr
      obtain ⟨r0, hr0, rfl⟩ := hr
      by_cases hid : r0.id = B.id
      · simp [hid, conflicts, Booking.getStatusString]
      · simp only [hid, if_false]
        intro hcf
        have hmem : r0 ∈ db.bookings.filter (conflicts R c d) := List.mem_filter.2 ⟨hr0, hcf⟩
        rw [hone, List.mem_singleton] at hmem
        exact hid (hmem ▸ hB)
    simp [hnil]

/-- Witness of C6: the confirmed booking of room 201 over days 8401 to 8405 is
the only conflict of the request for days 8404 to 8410. -/
theorem cancel_frees_range_witness :
    (Booking.isRoomAvailable room201 201 8404 8410).1 = Except.ok false ∧
    (booking1.updateStatus room201 BookingStatus.CANCELLED).1 = Except.ok () ∧
    (Booking.isRoomAvailable (booking1.updateStatus room201 BookingStatus.CANCELLED).2.2
      201 8404 8410).1 = Except.ok true :=
  cancel_frees_range room201 booking1 201 8404 8410
    { id := 1, user_id := 101, room_id := 201, date_from := 8401, date_to := 8405,
      status := "confirmed" }
    (by decide) (by decide) (by decide) (by decide) (by decide)

/-- C8: status names round-trip. `getStatusString` of a booking with status
PENDING, CONFIRMED, CANCELLED, COMPLETED is `pending`, `confirmed`,
`cancelled`, `completed`; `toBookingStatus` maps the status string of `t` back
to `t`; hence, when exactly one stored row has the id of the booking and the
gateway answers both statements, `findBookingById` after `updateStatus(t)`
returns that row with status `t`. -/
theorem status_roundtrip (self : Booking) (db : DBManager) (t : BookingStatus)
    (row : BookingRow)
    (hconn : db.isConnected = true) (hwrite : db.faults.head? ≠ some true)
    (hread : db.faults.tail.head? ≠ some true)
    (hrow : db.bookings.filter (fun r => r.id == self.id) = [row]) :
    Booking.getStatusString { self with status := BookingStatus.PENDING } = "pending" ∧
    Booking.getStatusString { self with status := BookingStatus.CONFIRMED } = "confirmed" ∧
    Booking.getStatusString { self with status := BookingStatus.CANCELLED } = "cancelled" ∧
    Booking.getStatusString { self with status := BookingStatus.COMPLETED } = "completed" ∧
    toBookingStatus (Booking.getStatusString { self with status := t }) = t ∧
    (Booking.findBookingById (self.updateStatus db t).2.2 self.id).1 =
      Except.ok (some { id := self.id, userId := row.user_id, roomId := row.room_id,
                         dateFrom := row.date_from, dateTo := row.date_to, status := t }) := by
  have hrt : toBookingStatus (Booking.getStatusString { self with status := t }) = t := by
    cases t <;> rfl
  refine ⟨rfl, rfl, rfl, rfl, hrt, ?_⟩
  rw [updateStatus_eq self db t hconn hwrite]
  have hfilter : (db.bookings.map (fun r =>
        if r.id = self.id then
          { r with status := Booking.getStatusString { self with status := t } }
        else r)).filter (fun r => r.id == self.id) =
      [{ row with status := Booking.getStatusString { self with status := t } }] := by
    rw [List.filter_map]
    have hcomp : ((fun r : BookingRow => r.id == self.id) ∘ (fun r : BookingRow =>
        if r.id = self.id then
          { r with status := Booking.getStatusString { self with status := t } }
        else r)) = fun r => r.id == self.id := by
      funext r
      simp only [Function.comp]
      split_ifs <;> rfl
    rw [hcomp, hrow]
    have hid : row.id = self.id := by
      have hmem : row ∈ db.bookings.filter (fun r => r.id == self.id) := by
        rw [hrow]
        exact List.mem_singleton.2 rfl
      simpa using (List.mem_filter.1 hmem).2
    simp [hid]
  rw [isConnected_iff] at hconn
  unfold Booking.findBookingById DBManager.executeQuery DBManager.exec sqlSelectBookingById
    DBManager.isConnected
  simp only [hconn, hread]
  simp [hfilter, hrt]

/-- Witness of C8: the booking of room 201 is set to COMPLETED and read back. -/
theorem status_roundtrip_witness :
    Booking.getStatusString { booking1 with status := BookingStatus.PENDING } = "pending" ∧
    Booking.getStatusString { booking1 with status := BookingStatus.CONFIRMED } = "confirmed" ∧
    Booking.getStatusString { booking1 with status := BookingStatus.CANCELLED } = "cancelled" ∧
    Booking.getStatusString { booking1 with status := BookingStatus.COMPLETED } = "completed" ∧
    toBookingStatus (Booking.getStatusString { booking1 with status := BookingStatus.COMPLETED })
      = BookingStatus.COMPLETED ∧
    (Booking.findBookingById (booking1.updateStatus room201 BookingStatus.COMPLETED).2.2
      booking1.id).1 =
      Except.ok (some { id := booking1.id, userId := 101, roomId := 201,
                         dateFrom := 8401, dateTo := 8405,
                         status := BookingStatus.COMPLETED }) :=
  status_roundtrip booking1 room201 BookingStatus.COMPLETED
    { id := 1, user_id := 101, room_id := 201, date_from := 8401, date_to := 8405,
      status := "confirmed" }
    (by decide) (by decide) (by decide) (by decide)

/-- C9: `toBookingStatus` is total, and every string that is not exactly one of
`pending`, `confirmed`, `cancelled`, `completed` is read as PENDING. -/
theorem toBookingStatus_default (s : String) (h1 : s ≠ "pending") (h2 : s ≠ "confirmed")
    (h3 : s ≠ "cancelled") (h4 : s ≠ "completed") :
    toBookingStatus s = BookingStatus.PENDING := by
  unfold toBookingStatus
  simp [h1, h2, h3, h4]

/-- Witness of C9: the empty string, `unknown`, the upper-case `PENDING` and
`confirmed` followed by a blank. -/
theorem toBookingStatus_default_witness :
    toBookingStatus "" = BookingStatus.PENDING ∧
    toBookingStatus "unknown" = BookingStatus.PENDING ∧
    toBookingStatus "PENDING" = BookingStatus.PENDING ∧
    toBookingStatus "confirmed " = BookingStatus.PENDING :=
  ⟨toBookingStatus_default "" (by decide) (by decide) (by decide) (by decide),
   toBookingStatus_default "unknown" (by decide) (by decide) (by decide) (by decide),
   toBookingStatus_default "PENDING" (by decide) (by decide) (by decide) (by decide),
   toBookingStatus_default "confirmed " (by decide) (by decide) (by decide) (by decide)⟩

/-! ## Attached services -/

theorem lookup_cons_eq (m : List (Int × Int)) (k0 v0 k2 : Int) :
    List.lookup k2 ((k0, v0) :: m) = if k2 = k0 then some v0 else List.lookup k2 m := by
  by_cases h : k2 = k0
  · subst h
    simp [List.lookup]
  · have hb : (k2 == k0) = false := by simpa using h
    simp [List.lookup, hb, h]

theorem lookup_mapAssign (m : List (Int × Int)) (k v k2 : Int) :
    (mapAssign m k v).lookup k2 = if k2 = k then some v else m.lookup k2 := by
  induction m with
  | nil =>
    simp only [mapAssign, lookup_cons_eq]
  | cons e m ih =>
    obtain ⟨k0, v0⟩ := e
    unfold mapAssign
    split_ifs with h1 h2 h3 h4 h5
    all_goals first
      | (simp only [lookup_cons_eq, ih]; done)
      | (simp only [lookup_cons_eq, ih]; split_ifs <;> first | rfl | omega)

theorem mapAssign_keys (m : List (Int × Int)) (k v : Int) :
    ∀ e ∈ mapAssign m k v, e.1 = k ∨ e ∈ m := by
  induction m with
  | nil =>
    intro e he
    simp [mapAssign] at he
    simp [he]
  | cons e0 m ih =>
    obtain ⟨k0, v0⟩ := e0
    intro e he
    unfold mapAssign at he
    split_ifs at he with h1 h2
    · rcases List.mem_cons.1 he with h | h
      · left; rw [h]
      · right; exact h
    · rcases List.mem_cons.1 he with h | h
      · left; rw [h]
      · right; exact List.mem_cons_of_mem _ h
    · rcases List.mem_cons.1 he with h | h
      · right; rw [h]; exact List.mem_cons_self _ _
      · rcases ih e h with h3 | h3
        · left; exact h3
        · right; exact List.mem_cons_of_mem _ h3

theorem mapAssign_sorted (m : List (Int × Int)) (k v : Int)
    (hm : m.Pairwise (fun x y => x.1 < y.1)) :
    (mapAssign m k v).Pairwise (fun x y => x.1 < y.1) := by
  induction m with
  | nil => simp [mapAssign]
  | cons e0 m ih =>
    obtain ⟨k0, v0⟩ := e0
    rw [List.pairwise_cons] at hm
    obtain ⟨hhead, htail⟩ := hm
    unfold mapAssign
    split_ifs with h1 h2
    · rw [List.pairwise_cons]
      refine ⟨?_, List.pairwise_cons.2 ⟨hhead, htail⟩⟩
      intro y hy
      rcases List.mem_cons.1 hy with h | h
      · rw [h]; exact h1
      · exact lt_trans h1 (hhead y h)
    · rw [List.pairwise_cons]
      refine ⟨?_, htail⟩
      intro y hy
      rw [h2]
      exact hhead y hy
    · rw [List.pairwise_cons]
      refine ⟨?_, ih htail⟩
      intro y hy
      rcases mapAssign_keys m k v y hy with h | h
      · rw [h]
        simp only [] at h1 h2 ⊢
        omega
      · exact hhead y h

theorem foldl_mapAssign_sorted (rows acc : List (Int × Int))
    (hacc : acc.Pairwise (fun x y => x.1 < y.1)) :
    (rows.foldl (fun servicesMap row => mapAssign servicesMap row.1 row.2) acc).Pairwise
      (fun x y => x.1 < y.1) := by
  induction rows generalizing acc with
  | nil => exact hacc
  | cons r rs ih =>
    rw [List.foldl_cons]
    exact ih _ (mapAssign_sorted acc r.1 r.2 hacc)

theorem foldl_mapAssign_lookup (rows acc : List (Int × Int)) (s q : Int)
    (hall : ∀ r ∈ rows, r.1 = s → r.2 = q)
    (hex : acc.lookup s = some q ∨ ∃ r ∈ rows, r.1 = s) :
    (rows.foldl (fun servicesMap row => mapAssign servicesMap row.1 row.2) acc).lookup s =
      some q := by
  induction rows generalizing acc with
  | nil =>
    rcases hex with h | ⟨r, hr, _⟩
    · exact h
    · exact absurd hr (List.not_mem_nil _)
  | cons r rs ih =>
    rw [List.foldl_cons]
    apply ih
    · intro r2 hr2
      exact hall r2 (List.mem_cons_of_mem _ hr2)
    · rw [lookup_mapAssign]
      by_cases h : s = r.1
      · left
        rw [if_pos h, hall r (List.mem_cons_self _ _) h.symm]
      · rw [if_neg h]
        rcases hex with h2 | ⟨r2, hr2, hk⟩
        · left; exact h2
        · right
          rcases List.mem_cons.1 hr2 with h3 | h3
          · exact absurd (h3 ▸ hk).symm h
          · exact ⟨r2, h3, hk⟩

theorem filter_key_of_sorted_lookup (m : List (Int × Int)) (s q : Int)
    (hm : m.Pairwise (fun x y => x.1 < y.1)) (hl : m.lookup s = some q) :
    m.filter (fun e => e.1 == s) = [(s, q)] := by
  induction m with
  | nil => simp [List.lookup] at hl
  | cons e0 m ih =>
    obtain ⟨k0, v0⟩ := e0
    rw [List.pairwise_cons] at hm
    obtain ⟨hhead, htail⟩ := hm
    by_cases h : s = k0
    · subst h
      rw [lookup_cons_eq, if_pos rfl] at hl
      simp only [Option.some.injEq] at hl
      subst hl
      have hnil : m.filter (fun e => e.1 == s) = [] := by
        rw [List.filter_eq_nil_iff]
        intro y hy
        have := hhead y hy
        simp only [] at this
        simp
        omega
      simp [List.filter_cons, hnil]
    · have hne : ¬ k0 = s := fun h2 => h h2.symm
      have hl2 : m.lookup s = some q := by
        rw [lookup_cons_eq, if_neg h] at hl
        exact hl
      simp [List.filter_cons, hne, ih htail hl2]

/-- The outcome of `addService` on an open connection whose next statement is
not refused: the table afterwards holds a row for the booking and the service,
and every such row carries the new quantity. -/
theorem addService_ok (self : Booking) (db : DBManager) (s q : Int)
    (hconn : db.isConnected = true) (hsend : db.faults.head? ≠ some true) :
    ∃ rows : List BookingServiceRow,
      self.addService db s q =
        (Except.ok (), { db with faults := db.faults.tail, booking_services := rows }) ∧
      (∀ r ∈ rows, r.booking_id = self.id → r.service_id = s → r.quantity = q) ∧
      (∃ r ∈ rows, r.booking_id = self.id ∧ r.service_id = s) := by
  unfold Booking.addService DBManager.executeUpdate DBManager.exec sqlUpsertBookingService
  by_cases hany : (db.booking_services.any
      (fun r => r.booking_id == self.id && r.service_id == s)) = true
  · refine ⟨db.booking_services.map (fun r =>
      if r.booking_id == self.id && r.service_id == s then { r with quantity := q } else r),
      ?_, ?_, ?_⟩
    · simp [hconn, hsend, hany]
    · intro r hr hb hs
      rw [List.mem_map] at hr
      obtain ⟨r0, _, rfl⟩ := hr
      split_ifs at hb hs ⊢ with h
      · rfl
      · simp [hb, hs] at h
    · rw [List.any_eq_true] at hany
      obtain ⟨r0, hr0, hmatch⟩ := hany
      refine ⟨_, List.mem_map.2 ⟨r0, hr0, rfl⟩, ?_⟩
      simp only [Bool.and_eq_true, beq_iff_eq] at hmatch
      simp [hmatch]
  · refine ⟨db.booking_services ++ [{ booking_id := self.id, service_id := s, quantity := q }],
      ?_, ?_, ?_⟩
    · simp only [Bool.not_eq_true] at hany
      simp only [hconn, hsend, hany]
      simp
    · intro r hr hb hs
      rcases List.mem_append.1 hr with h | h
      · exfalso
        apply hany
        rw [List.any_eq_true]
        exact ⟨r, h, by simp [hb, hs]⟩
      · rw [List.mem_singleton] at h
        rw [h]
    · exact ⟨_, List.mem_append_right _ (List.mem_singleton.2 rfl), rfl, rfl⟩

theorem getServices_eq (self : Booking) (db : DBManager)
    (hconn : db.isConnected = true) (hsend : db.faults.head? ≠ some true) :
    (self.getServices db).1 =
      Except.ok (((db.booking_services.filter (fun r => r.booking_id == self.id)).map
        (fun r => (r.service_id, r.quantity))).foldl
          (fun servicesMap row => mapAssign servicesMap row.1 row.2) []) := by
  unfold Booking.getServices DBManager.executeQuery DBManager.exec sqlSelectBookingServices
  simp [hconn, hsend]

/-- C10: `addService` overwrites. For every booking object, every service id
`s` and all quantities `q1`, `q2` (of either sign, or zero), on a gateway that
answers, `addService(s, q1)` followed by `addService(s, q2)` both succeed, and
the map `getServices` then returns has exactly one entry for `s`, with
quantity `q2` (not `q1 + q2`). -/
theorem addService_twice_overwrites (self : Booking) (db : DBManager) (s q1 q2 : Int)
    (hconn : db.isConnected = true) (hfirst : db.faults.head? ≠ some true)
    (hsecond : db.faults.tail.head? ≠ some true)
    (hread : db.faults.tail.tail.head? ≠ some true) :
    (self.addService db s q1).1 = Except.ok () ∧
    (self.addService (self.addService db s q1).2 s q2).1 = Except.ok () ∧
    ∃ servicesMap : List (Int × Int),
      (self.getServices (self.addService (self.addService db s q1).2 s q2).2).1 =
        Except.ok servicesMap ∧
      servicesMap.filter (fun entry => entry.1 == s) = [(s, q2)] := by
  obtain ⟨rows1, h1, -, -⟩ := addService_ok self db s q1 hconn hfirst
  rw [h1]
  have hconn1 : DBManager.isConnected
      { db with faults := db.faults.tail, booking_services := rows1 } = true := by
    rw [isConnected_iff] at hconn ⊢
    exact hconn
  obtain ⟨rows2, h2, hall, hex⟩ := addService_ok self
    { db with faults := db.faults.tail, booking_services := rows1 } s q2 hconn1 hsecond
  rw [h2]
  have hconn2 : DBManager.isConnected
      { db with faults := db.faults.tail.tail, booking_services := rows2 } = true := by
    rw [isConnected_iff] at hconn ⊢
    exact hconn
  refine ⟨rfl, rfl, _, getServices_eq self _ hconn2 hread, ?_⟩
  apply filter_key_of_sorted_lookup
  · exact foldl_mapAssign_sorted _ _ List.Pairwise.nil
  · apply foldl_mapAssign_lookup
    · intro e he hk
      rw [List.mem_map] at he
      obtain ⟨r, hr, rfl⟩ := he
      rw [List.mem_filter] at hr
      exact hall r hr.1 (by simpa using hr.2) hk
    · right
      obtain ⟨r, hr, hb, hs⟩ := hex
      exact ⟨(r.service_id, r.quantity),
        List.mem_map.2 ⟨r, List.mem_filter.2 ⟨hr, by simpa using hb⟩, rfl⟩, hs⟩

/-- Witness of C10: service 7 is attached to booking 1 with quantity 2, then
with quantity -1. -/
theorem addService_twice_overwrites_witness :
    (booking1.addService room201 7 2).1 = Except.ok () ∧
    (booking1.addService (booking1.addService room201 7 2).2 7 (-1)).1 = Except.ok () ∧
    ∃ servicesMap : List (Int × Int),
      (booking1.getServices
        (booking1.addService (booking1.addService room201 7 2).2 7 (-1)).2).1 =
        Except.ok servicesMap ∧
      servicesMap.filter (fun entry => entry.1 == 7) = [(7, -1)] :=
  addService_twice_overwrites booking1 room201 7 2 (-1) (by decide) (by decide) (by decide)
    (by decide)

/-! ## The gateway, case by case -/

theorem executeQuery_not_connected {α : Type} (db : DBManager) (query : Statement α)
    (h : db.isConnected = false) :
    db.executeQuery query = (Except.error (Exn.runtime_error "Database not connected"), db) := by
  simp [DBManager.executeQuery, h]

theorem executeUpdate_not_connected (db : DBManager) (query : Statement Nat)
    (h : db.isConnected = false) :
    db.executeUpdate query = (Except.error (Exn.runtime_error "Database not connected"), db) := by
  simp [DBManager.executeUpdate, h]

theorem executeQuery_refused {α : Type} (db : DBManager) (query : Statement α)
    (hconn : db.isConnected = true) (hf : db.faults.head? = some true) :
    db.executeQuery query =
      (Except.error (Exn.runtime_error "Query execution failed: "),
        { db with faults := db.faults.tail }) := by
  simp [DBManager.executeQuery, DBManager.exec, hconn, hf]

theorem executeUpdate_refused (db : DBManager) (query : Statement Nat)
    (hconn : db.isConnected = true) (hf : db.faults.head? = some true) :
    db.executeUpdate query =
      (Except.error (Exn.runtime_error "Update execution failed: "),
        { db with faults := db.faults.tail }) := by
  simp [DBManager.executeUpdate, DBManager.exec, hconn, hf]

theorem executeQuery_sent {α : Type} (db : DBManager) (query : Statement α)
    (hconn : db.isConnected = true) (hsend : db.faults.head? ≠ some true) :
    db.executeQuery query =
      match query { db with faults := db.faults.tail } with
      | (Except.error msg, db1) =>
        (Except.error (Exn.runtime_error ("Query execution failed: " ++ msg)), db1)
      | (Except.ok rows, db1) => (Except.ok rows, db1) := by
  simp [DBManager.executeQuery, DBManager.exec, hconn, hsend]

theorem executeUpdate_sent (db : DBManager) (query : Statement Nat)
    (hconn : db.isConnected = true) (hsend : db.faults.head? ≠ some true) :
    db.executeUpdate query =
      match query { db with faults := db.faults.tail } with
      | (Except.error msg, db1) =>
        (Except.error (Exn.runtime_error ("Update execution failed: " ++ msg)), db1)
      | (Except.ok rows, db1) => (Except.ok rows, db1) := by
  rcases hq : query { db with faults := db.faults.tail } with ⟨_ | _, db1⟩ <;>
    simp [DBManager.executeUpdate, DBManager.exec, hconn, hsend, hq]

/-- The gateway answers or fails: the three cases of a statement sent. -/
theorem gateway_cases (db : DBManager) :
    db.isConnected = false ∨ (db.isConnected = true ∧ db.faults.head? = some true) ∨
      (db.isConnected = true ∧ db.faults.head? ≠ some true) := by
  cases h : db.isConnected
  · exact Or.inl rfl
  · by_cases hf : db.faults.head? = some true
    · exact Or.inr (Or.inl ⟨rfl, hf⟩)
    · exact Or.inr (Or.inr ⟨rfl, hf⟩)

theorem removeService_eq (self : Booking) (db : DBManager) (s : Int)
    (hconn : db.isConnected = true) (hsend : db.faults.head? ≠ some true) :
    self.removeService db s =
      (Except.ok (),
        { db with
          faults := db.faults.tail
          booking_services := db.booking_services.filter (fun r =>
            not (r.booking_id == self.id && r.service_id == s)) }) := by
  unfold Booking.removeService
  rw [executeUpdate_sent db _ hconn hsend]
  rfl

theorem foldl_mapAssign_lookup_acc (rows acc1 acc2 : List (Int × Int)) (k : Int)
    (h : acc1.lookup k = acc2.lookup k) :
    (rows.foldl (fun servicesMap row => mapAssign servicesMap row.1 row.2) acc1).lookup k =
      (rows.foldl (fun servicesMap row => mapAssign servicesMap row.1 row.2) acc2).lookup k := by
  induction rows generalizing acc1 acc2 with
  | nil => exact h
  | cons r rs ih =>
    rw [List.foldl_cons, List.foldl_cons]
    apply ih
    rw [lookup_mapAssign, lookup_mapAssign, h]

theorem foldl_mapAssign_lookup_filter (rows acc : List (Int × Int)) (k : Int) :
    (rows.foldl (fun servicesMap row => mapAssign servicesMap row.1 row.2) acc).lookup k =
      ((rows.filter (fun e => e.1 == k)).foldl
        (fun servicesMap row => mapAssign servicesMap row.1 row.2) acc).lookup k := by
  induction rows generalizing acc with
  | nil => rfl
  | cons r rs ih =>
    by_cases hk : r.1 = k
    · have hf : (r :: rs).filter (fun e => e.1 == k) = r :: rs.filter (fun e => e.1 == k) := by
        simp [List.filter_cons, hk]
      rw [hf, List.foldl_cons, List.foldl_cons]
      exact ih _
    · have hf : (r :: rs).filter (fun e => e.1 == k) = rs.filter (fun e => e.1 == k) := by
        simp [List.filter_cons, hk]
      rw [hf, List.foldl_cons, ih]
      apply foldl_mapAssign_lookup_acc
      rw [lookup_mapAssign, if_neg (fun h => hk h.symm)]

theorem filter_key_of_lookup_none (m : List (Int × Int)) (k : Int)
    (hl : m.lookup k = none) : m.filter (fun e => e.1 == k) = [] := by
  induction m with
  | nil => rfl
  | cons e0 m ih =>
    obtain ⟨k0, v0⟩ := e0
    rw [lookup_cons_eq] at hl
    by_cases h : k = k0
    · rw [if_pos h] at hl
      exact absurd hl (by simp)
    · rw [if_neg h] at hl
      have hne : ¬ k0 = k := fun h2 => h h2.symm
      simp [List.filter_cons, hne, ih hl]

/-- In a map with ascending keys, the entries of a key are decided by
`lookup`. -/
theorem filter_key_congr (m1 m2 : List (Int × Int)) (k : Int)
    (h1 : m1.Pairwise (fun x y => x.1 < y.1)) (h2 : m2.Pairwise (fun x y => x.1 < y.1))
    (h : m1.lookup k = m2.lookup k) :
    m1.filter (fun e => e.1 == k) = m2.filter (fun e => e.1 == k) := by
  cases hl : m2.lookup k with
  | none =>
    rw [filter_key_of_lookup_none m2 k hl, filter_key_of_lookup_none m1 k (h.trans hl)]
  | some q =>
    rw [filter_key_of_sorted_lookup m2 k q h2 hl,
      filter_key_of_sorted_lookup m1 k q h1 (h.trans hl)]

/-- The rows `getServices` reads for a booking after the rows of service `s`
are deleted hold none for `s`. -/
theorem serviceRows_after_delete_same (l : List BookingServiceRow) (id s : Int) :
    (((l.filter (fun r => not (r.booking_id == id && r.service_id == s))).filter
        (fun r => r.booking_id == id)).map (fun r => (r.service_id, r.quantity))).filter
          (fun e => e.1 == s) = [] := by
  rw [List.filter_eq_nil_iff]
  intro e he
  simp only [List.mem_map, List.mem_filter] at he
  obtain ⟨r, ⟨⟨_, hr1⟩, hr2⟩, rfl⟩ := he
  simp at hr1 hr2 ⊢
  rcases hr1 with h | h
  · exact absurd hr2 h
  · exact h

/-- The rows `getServices` reads for a booking after the rows of service `s`
are deleted are, for a key other than `s`, the rows read before. -/
theorem serviceRows_after_delete_other (l : List BookingServiceRow) (id s k : Int)
    (hk : k ≠ s) :
    (((l.filter (fun r => not (r.booking_id == id && r.service_id == s))).filter
        (fun r => r.booking_id == id)).map (fun r => (r.service_id, r.quantity))).filter
          (fun e => e.1 == k) =
      ((l.filter (fun r => r.booking_id == id)).map
        (fun r => (r.service_id, r.quantity))).filter (fun e => e.1 == k) := by
  rw [List.filter_map, List.filter_map, List.filter_filter, List.filter_filter,
    List.filter_filter]
  congr 1
  apply List.filter_congr
  intro r _
  by_cases hb : r.booking_id = id <;> by_cases hs : r.service_id = s <;>
    by_cases hsk : r.service_id = k <;> simp [hb, hs, hsk]
  all_goals first
    | exact hk
    | exact fun h => hk h.symm

/-- C11: `removeService` is an idempotent delete. On a gateway that answers,
for every booking object and service id `s`: removing a service that is not
attached leaves the stored attachments unchanged; the first and the second
`removeService(s)` both return normally and the second leaves the stored
state the first left (one more statement answered); and `getServices` after
the removal has no entry for `s`, while for every other key it has the entries
it had before. -/
theorem removeService_idempotent (self : Booking) (db : DBManager) (s : Int)
    (hconn : db.isConnected = true) (hfirst : db.faults.head? ≠ some true)
    (hsecond : db.faults.tail.head? ≠ some true) :
    ((∀ r ∈ db.booking_services, ¬ (r.booking_id = self.id ∧ r.service_id = s)) →
      (self.removeService db s).2.booking_services = db.booking_services) ∧
    (self.removeService db s).1 = Except.ok () ∧
    (self.removeService (self.removeService db s).2 s).1 = Except.ok () ∧
    (self.removeService (self.removeService db s).2 s).2 =
      { (self.removeService db s).2 with faults := db.faults.tail.tail } ∧
    ∃ before after : List (Int × Int),
      (self.getServices db).1 = Except.ok before ∧
      (self.getServices (self.removeService db s).2).1 = Except.ok after ∧
      after.filter (fun entry => entry.1 == s) = [] ∧
      ∀ k : Int, k ≠ s →
        after.filter (fun entry => entry.1 == k) = before.filter (fun entry => entry.1 == k) := by
  have hconn1 : DBManager.isConnected
      { db with
        faults := db.faults.tail
        booking_services := db.booking_services.filter (fun r =>
          not (r.booking_id == self.id && r.service_id == s)) } = true := by
    rw [isConnected_iff] at hconn ⊢
    exact hconn
  rw [removeService_eq self db s hconn hfirst, removeService_eq self _ s hconn1 hsecond]
  refine ⟨?_, rfl, rfl, ?_, _, _, getServices_eq self db hconn hfirst,
    getServices_eq self _ hconn1 hsecond, ?_, ?_⟩
  · intro hnone
    rw [List.filter_eq_self]
    intro r hr
    have hr2 := hnone r hr
    by_cases hb : r.booking_id = self.id
    · have hs : ¬ r.service_id = s := fun h => hr2 ⟨hb, h⟩
      simp [hb, hs]
    · simp [hb]
  · simp [List.filter_filter]
  · apply filter_key_of_lookup_none
    rw [foldl_mapAssign_lookup_filter, serviceRows_after_delete_same]
    rfl
  · intro k hk
    apply filter_key_congr
    · exact foldl_mapAssign_sorted _ _ List.Pairwise.nil
    · exact foldl_mapAssign_sorted _ _ List.Pairwise.nil
    · rw [foldl_mapAssign_lookup_filter, serviceRows_after_delete_other _ _ _ _ hk,
        ← foldl_mapAssign_lookup_filter]

/-- Witness of C11: service 7, attached to booking 1, is removed twice; service
9, not attached, is removed. -/
theorem removeService_idempotent_witness :
    (booking1.removeService hotel 7).1 = Except.ok () ∧
    (booking1.removeService (booking1.removeService hotel 7).2 7).1 = Except.ok () ∧
    (booking1.removeService (booking1.removeService hotel 7).2 7).2 =
      { (booking1.removeService hotel 7).2 with faults := hotel.faults.tail.tail } ∧
    (booking1.removeService hotel 9).2.booking_services = hotel.booking_services :=
  ⟨(removeService_idempotent booking1 hotel 7 (by decide) (by decide) (by decide)).2.1,
   (removeService_idempotent booking1 hotel 7 (by decide) (by decide) (by decide)).2.2.1,
   (removeService_idempotent booking1 hotel 7 (by decide) (by decide) (by decide)).2.2.2.1,
   (removeService_idempotent booking1 hotel 9 (by decide) (by decide) (by decide)).1
     (by decide)⟩

/-! ## Users -/

/-- For a login and a credential without quote characters: when the gateway
answers and exactly one stored user row has both, `authenticate` returns true,
and `getCurrentUser` afterwards is a user with the id and the login of that
row and the role read from its role string, whoever was the current user
before. -/
theorem authenticate_unique_match (db : DBManager) (currentUser : Option User)
    (login password : String) (row : UserRow)
    (_hlogin : SqlText login) (_hpassword : SqlText password)
    (hconn : db.isConnected = true) (hsend : db.faults.head? ≠ some true)
    (hrow : db.users.filter (fun r => r.login == login && r.password_hash == password) =
      [row]) :
    (User.authenticate db currentUser login password).1 = true ∧
    User.getCurrentUser (User.authenticate db currentUser login password).2.1 =
      some { id := row.id, login := row.login, password := row.password_hash,
             role := if row.role = "admin" then UserRole.ADMIN
                     else if row.role = "manager" then UserRole.MANAGER
                     else UserRole.USER } ∧
    row.login = login := by
  have hmem : row ∈ db.users.filter
      (fun r => r.login == login && r.password_hash == password) := by
    rw [hrow]
    exact List.mem_singleton.2 rfl
  have hl : row.login = login := by
    have := (List.mem_filter.1 hmem).2
    simp at this
    exact this.1
  unfold User.authenticate
  rw [executeQuery_sent db _ hconn hsend,
    sqlSelectUserByCredentials_eq login password _hlogin _hpassword]
  simp [hrow, User.getCurrentUser, User.setCurrentUser, hl]

/-- The lemma `authenticate_unique_match` at an example: `alice` logs in with
her credential while `root` is the current user. -/
theorem authenticate_unique_match_witness :
    (User.authenticate hotel (some adminUser) "alice" "h1").1 = true ∧
    User.getCurrentUser (User.authenticate hotel (some adminUser) "alice" "h1").2.1 =
      some { id := 101, login := "alice", password := "h1",
             role := if "user" = "admin" then UserRole.ADMIN
                     else if "user" = "manager" then UserRole.MANAGER
                     else UserRole.USER } ∧
    "alice" = "alice" :=
  authenticate_unique_match hotel (some adminUser) "alice" "h1"
    { id := 101, login := "alice", password_hash := "h1", role := "user" }
    (by decide) (by decide) (by decide) (by decide) (by decide)

/-- C13 does not hold of the code: `authenticate` splices login and credential
between quotes without escaping them. In the state `hotelQuote` exactly one
stored row has the login `bob` and the credential `a'b`; the statement built
from them ends in `password_hash = 'a'b';`, which leaves a text literal open,
so the server refuses it: on an open connection that answers, `authenticate`
returns false and no user becomes the current user. -/
theorem authenticate_quote_in_credential :
    hotelQuote.users.filter (fun r => r.login == "bob" && r.password_hash == "a'b") =
      [{ id := 102, login := "bob", password_hash := "a'b", role := "user" }] ∧
    hotelQuote.isConnected = true ∧ hotelQuote.faults = [] ∧
    lexSql LexState.start
      ("SELECT id, login, password_hash, role FROM users WHERE login = '" ++ "bob" ++
        "' AND password_hash = '" ++ "a'b" ++ "';").data = none ∧
    (User.authenticate hotelQuote none "bob" "a'b").1 = false ∧
    User.getCurrentUser (User.authenticate hotelQuote none "bob" "a'b").2.1 = none := by
  decide

theorem authenticate_no_match (db : DBManager) (currentUser : Option User)
    (login password : String) (hlogin : SqlText login) (hpassword : SqlText password)
    (hnone : db.users.filter (fun r => r.login == login && r.password_hash == password) = []) :
    User.authenticate db currentUser login password =
      (false, currentUser, (db.executeQuery (sqlSelectUserByCredentials login password)).2) := by
  unfold User.authenticate
  rcases gateway_cases db with h | ⟨h, hf⟩ | ⟨h, hf⟩
  · rw [executeQuery_not_connected db _ h]
  · rw [executeQuery_refused db _ h hf]
  · rw [executeQuery_sent db _ h hf, sqlSelectUserByCredentials_eq login password hlogin hpassword]
    simp [hnone]

theorem executeQuery_state_same {α β : Type} (db : DBManager) (q1 : Statement α)
    (q2 : Statement β)
    (h : (q1 { db with faults := db.faults.tail }).2 = (q2 { db with faults := db.faults.tail }).2)
    (h1 : ∀ msg, (q1 { db with faults := db.faults.tail }).1 ≠ Except.error msg)
    (h2 : ∀ msg, (q2 { db with faults := db.faults.tail }).1 ≠ Except.error msg) :
    (db.executeQuery q1).2 = (db.executeQuery q2).2 := by
  rcases gateway_cases db with hc | ⟨hc, hf⟩ | ⟨hc, hf⟩
  · rw [executeQuery_not_connected db _ hc, executeQuery_not_connected db _ hc]
  · rw [executeQuery_refused db _ hc hf, executeQuery_refused db _ hc hf]
  · rw [executeQuery_sent db _ hc hf, executeQuery_sent db _ hc hf]
    rcases hq1 : q1 { db with faults := db.faults.tail } with ⟨_ | _, d1⟩
    · exact absurd (by rw [hq1]) (h1 _)
    · rcases hq2 : q2 { db with faults := db.faults.tail } with ⟨_ | _, d2⟩
      · exact absurd (by rw [hq2]) (h2 _)
      · rw [hq1, hq2] at h
        exact h

/-- For logins and credentials without quote characters: `authenticate` gives
the same result, false, with the same effect on the session, none, for a login
that has no stored row and for a stored login with a credential that does not
match; the two calls leave the same state. -/
theorem authenticate_indistinguishable (db : DBManager) (currentUser : Option User)
    (unknownLogin anyPassword storedLogin wrongPassword : String)
    (_h1 : SqlText unknownLogin) (_h2 : SqlText anyPassword)
    (_h3 : SqlText storedLogin) (_h4 : SqlText wrongPassword)
    (hunknown : ∀ r ∈ db.users, r.login ≠ unknownLogin)
    (_hstored : ∃ r ∈ db.users, r.login = storedLogin)
    (hwrong : ∀ r ∈ db.users, r.login = storedLogin → r.password_hash ≠ wrongPassword) :
    User.authenticate db currentUser unknownLogin anyPassword =
      User.authenticate db currentUser storedLogin wrongPassword ∧
    (User.authenticate db currentUser unknownLogin anyPassword).1 = false ∧
    User.getCurrentUser (User.authenticate db currentUser unknownLogin anyPassword).2.1 =
      User.getCurrentUser currentUser ∧
    (User.authenticate db currentUser storedLogin wrongPassword).1 = false ∧
    User.getCurrentUser (User.authenticate db currentUser storedLogin wrongPassword).2.1 =
      User.getCurrentUser currentUser := by
  have hn1 : db.users.filter
      (fun r => r.login == unknownLogin && r.password_hash == anyPassword) = [] := by
    rw [List.filter_eq_nil_iff]
    intro r hr
    simp [hunknown r hr]
  have hn2 : db.users.filter
      (fun r => r.login == storedLogin && r.password_hash == wrongPassword) = [] := by
    rw [List.filter_eq_nil_iff]
    intro r hr
    by_cases hl : r.login = storedLogin
    · simp [hl, hwrong r hr hl]
    · simp [hl]
  rw [authenticate_no_match db currentUser _ _ _h1 _h2 hn1,
    authenticate_no_match db currentUser _ _ _h3 _h4 hn2]
  refine ⟨?_, rfl, rfl, rfl, rfl⟩
  have hstate :
      (db.executeQuery (sqlSelectUserByCredentials unknownLogin anyPassword)).2 =
        (db.executeQuery (sqlSelectUserByCredentials storedLogin wrongPassword)).2 := by
    rcases gateway_cases db with hc | ⟨hc, hf⟩ | ⟨hc, hf⟩
    · rw [executeQuery_not_connected db _ hc, executeQuery_not_connected db _ hc]
    · rw [executeQuery_refused db _ hc hf, executeQuery_refused db _ hc hf]
    · rw [executeQuery_sent db _ hc hf, executeQuery_sent db _ hc hf,
        sqlSelectUserByCredentials_eq _ _ _h1 _h2, sqlSelectUserByCredentials_eq _ _ _h3 _h4]
  rw [hstate]

/-- The lemma `authenticate_indistinguishable` at an example: the unknown
login `bob` and the stored login `alice` with a wrong credential, while `root`
is the current user. -/
theorem authenticate_indistinguishable_witness :
    User.authenticate hotel (some adminUser) "bob" "h1" =
      User.authenticate hotel (some adminUser) "alice" "h2" ∧
    (User.authenticate hotel (some adminUser) "bob" "h1").1 = false ∧
    User.getCurrentUser (User.authenticate hotel (some adminUser) "bob" "h1").2.1 =
      User.getCurrentUser (some adminUser) ∧
    (User.authenticate hotel (some adminUser) "alice" "h2").1 = false ∧
    User.getCurrentUser (User.authenticate hotel (some adminUser) "alice" "h2").2.1 =
      User.getCurrentUser (some adminUser) :=
  authenticate_indistinguishable hotel (some adminUser) "bob" "h1" "alice" "h2"
    (by decide) (by decide) (by decide) (by decide) (by decide) (by decide) (by decide)

/-- C14 does not hold of the code: `authenticate` splices the credential
between quotes without escaping it. In the state `hotel` no row has the login
`nobody`, and `authenticate("nobody", "x")` returns false and leaves the
session alone; the stored login `root` has the credential `h0`, and with the
credential `'OR(login)='root`, which does not match, the statement reads
`login = 'root' AND password_hash = '' OR (login) = 'root'`: the server returns
the row of `root`, `authenticate` returns true and `root` becomes the current
user. The same holds for the credential `' OR login = 'root`. -/
theorem authenticate_injected_credential :
    (∀ r ∈ hotel.users, r.login ≠ "nobody") ∧
    (User.authenticate hotel none "nobody" "x").1 = false ∧
    User.getCurrentUser (User.authenticate hotel none "nobody" "x").2.1 = none ∧
    (∃ r ∈ hotel.users, r.login = "root") ∧
    (∀ r ∈ hotel.users, r.login = "root" → r.password_hash ≠ "'OR(login)='root") ∧
    readWhere headSelectUser
      ("SELECT id, login, password_hash, role FROM users WHERE login = '" ++ "root" ++
        "' AND password_hash = '" ++ "'OR(login)='root" ++ "';") =
      some (SqlCond.or
        (SqlCond.and (SqlCond.eq (SqlValue.col "login") (SqlValue.lit "root"))
          (SqlCond.eq (SqlValue.col "password_hash") (SqlValue.lit "")))
        (SqlCond.eq (SqlValue.col "login") (SqlValue.lit "root"))) ∧
    (User.authenticate hotel none "root" "'OR(login)='root").1 = true ∧
    User.getCurrentUser (User.authenticate hotel none "root" "'OR(login)='root").2.1 =
      some adminUser ∧
    (∀ r ∈ hotel.users, r.login = "root" → r.password_hash ≠ "' OR login = 'root") ∧
    (User.authenticate hotel none "root" "' OR login = 'root").1 = true ∧
    User.getCurrentUser (User.authenticate hotel none "root" "' OR login = 'root").2.1 =
      some adminUser := by
  decide

theorem addUser_eq (db : DBManager) (login password : String) (role : UserRole)
    (hlogin : SqlText login)
    (hconn : db.isConnected = true) (hfirst : db.faults.head? ≠ some true) :
    User.addUser db login password role =
      if (db.users.filter (fun r => r.login == login)).length > 0 then
        (false, { db with faults := db.faults.tail })
      else
        match DBManager.executeUpdate { db with faults := db.faults.tail }
            (sqlInsertUser login password
              (User.getRoleString { id := db.users_id_seq, login := login,
                                    password := password, role := role })) with
        | (Except.error _, db2) => (false, db2)
        | (Except.ok _, db2) => (true, db2) := by
  unfold User.addUser
  rw [executeQuery_sent db _ hconn hfirst, sqlSelectUserIdByLogin_eq login hlogin]
  simp only [List.length_map]
  split_ifs
  · rfl
  · cases role <;> rfl

/-- For a login and a credential without quote characters: if a user with the
login is stored, `addUser` returns false and the stored users are unchanged,
whatever the gateway does; if no user has the login and the gateway succeeds
(both statements answered, the generated id not taken), it returns true and
the stored users are the users before followed by exactly one row with that
login, that credential and the role string of the role. -/
theorem addUser_duplicate_and_fresh (db : DBManager) (login password : String)
    (role : UserRole) (_hlogin : SqlText login) (_hpassword : SqlText password) :
    ((∃ r ∈ db.users, r.login = login) →
      (User.addUser db login password role).1 = false ∧
      (User.addUser db login password role).2.users = db.users) ∧
    ((∀ r ∈ db.users, r.login ≠ login) →
      db.isConnected = true → db.faults.head? ≠ some true →
      db.faults.tail.head? ≠ some true → (∀ r ∈ db.users, r.id ≠ db.users_id_seq) →
      (User.addUser db login password role).1 = true ∧
      (User.addUser db login password role).2.users =
        db.users ++ [{ id := db.users_id_seq, login := login, password_hash := password,
                       role := User.getRoleString { id := db.users_id_seq, login := login,
                                                    password := password, role := role } }]) := by
  constructor
  · rintro ⟨r, hr, hl⟩
    rcases gateway_cases db with hc | ⟨hc, hf⟩ | ⟨hc, hf⟩
    · unfold User.addUser
      rw [executeQuery_not_connected db _ hc]
      exact ⟨rfl, rfl⟩
    · unfold User.addUser
      rw [executeQuery_refused db _ hc hf]
      exact ⟨rfl, rfl⟩
    · rw [addUser_eq db login password role _hlogin hc hf]
      have hpos : (db.users.filter (fun r => r.login == login)).length > 0 := by
        apply List.length_pos_of_mem (a := r)
        exact List.mem_filter.2 ⟨hr, by simpa using hl⟩
      rw [if_pos hpos]
      exact ⟨rfl, rfl⟩
  · intro hnew hc hf hf2 hfresh
    rw [addUser_eq db login password role _hlogin hc hf]
    have hzero : ¬ (db.users.filter (fun r => r.login == login)).length > 0 := by
      have hnil : db.users.filter (fun r => r.login == login) = [] := by
        rw [List.filter_eq_nil_iff]
        intro r hr
        simpa using hnew r hr
      rw [hnil]
      simp
    rw [if_neg hzero]
    have hc1 : DBManager.isConnected { db with faults := db.faults.tail } = true := by
      rw [isConnected_iff] at hc ⊢
      exact hc
    rw [executeUpdate_sent _ _ hc1 hf2]
    have hany : (db.users.any fun r => r.id == db.users_id_seq || r.login == login) = false := by
      rw [List.any_eq_false]
      intro r hr
      simp [hfresh r hr, hnew r hr]
    rw [sqlInsertUser_eq _ _ _ _hlogin _hpassword (sqlText_getRoleString _)]
    simp [storeUser, hany]

/-- The lemma `addUser_duplicate_and_fresh` at an example:
`addUser("alice","h1",USER)` on a state without users, then
`addUser("alice","h2",MANAGER)`: the second call returns false and `alice` is
still stored with the role `user`. -/
theorem addUser_duplicate_and_fresh_witness :
    ((User.addUser room201 "alice" "h1" UserRole.USER).1 = true ∧
      (User.addUser room201 "alice" "h1" UserRole.USER).2.users =
        room201.users ++
          [{ id := room201.users_id_seq, login := "alice", password_hash := "h1",
             role := User.getRoleString { id := room201.users_id_seq, login := "alice",
                                          password := "h1", role := UserRole.USER } }]) ∧
    ((User.addUser (User.addUser room201 "alice" "h1" UserRole.USER).2 "alice" "h2"
        UserRole.MANAGER).1 = false ∧
      (User.addUser (User.addUser room201 "alice" "h1" UserRole.USER).2 "alice" "h2"
        UserRole.MANAGER).2.users =
        (User.addUser room201 "alice" "h1" UserRole.USER).2.users) ∧
    (User.addUser room201 "alice" "h1" UserRole.USER).2.users =
      [{ id := 1, login := "alice", password_hash := "h1", role := "user" }] :=
  ⟨(addUser_duplicate_and_fresh room201 "alice" "h1" UserRole.USER (by decide)
      (by decide)).2 (by decide) (by decide) (by decide) (by decide) (by decide),
   (addUser_duplicate_and_fresh (User.addUser room201 "alice" "h1" UserRole.USER).2
      "alice" "h2" UserRole.MANAGER (by decide) (by decide)).1 (by decide),
   by decide⟩

/-- C15 does not hold of the code: `addUser` splices the credential between
quotes without escaping it. In the state `hotel` no user has the login `bob`;
`addUser("bob", "pw','admin')--", USER)` builds the statement
`INSERT INTO users (login, password_hash, role) VALUES ('bob', 'pw','admin')--', 'user');`
whose end is a comment: the call returns true and the row stored has the
credential `pw` and the role `admin`, not the credential and the role given.
`registerUser` makes that call for a user who is not logged in. -/
theorem addUser_injected_role :
    (∀ r ∈ hotel.users, r.login ≠ "bob") ∧
    readInsertUser
      ("INSERT INTO users (login, password_hash, role) VALUES ('" ++ "bob" ++ "', '" ++
        "pw','admin')--" ++ "', '" ++ "user" ++ "');") = some ("bob", "pw", "admin") ∧
    (User.addUser hotel "bob" "pw','admin')--" UserRole.USER).1 = true ∧
    (User.addUser hotel "bob" "pw','admin')--" UserRole.USER).2.users =
      hotel.users ++ [{ id := 102, login := "bob", password_hash := "pw", role := "admin" }] ∧
    (registerUser hotel none none "bob" "pw','admin')--").2.users =
      hotel.users ++ [{ id := 102, login := "bob", password_hash := "pw", role := "admin" }] := by
  decide

/-- C16: `updateRole` keeps the object and the stored row in agreement. When
the write succeeds (open connection, statement answered) it returns true, the
role of the object becomes `newRole` and every stored row with the id of the
object gets the role string of `newRole`, the other rows being unchanged; when
the write fails it returns false, and the object and the stored users are what
they were. -/
theorem updateRole_agreement (self : User) (db : DBManager) (newRole : UserRole) :
    (db.isConnected = true ∧ db.faults.head? ≠ some true →
      (self.updateRole db newRole).1 = true ∧
      (self.updateRole db newRole).2.1 = { self with role := newRole } ∧
      (self.updateRole db newRole).2.2.users =
        db.users.map (fun r =>
          if r.id = self.id then
            { r with role := User.getRoleString { self with role := newRole } }
          else r)) ∧
    (¬ (db.isConnected = true ∧ db.faults.head? ≠ some true) →
      (self.updateRole db newRole).1 = false ∧
      (self.updateRole db newRole).2.1 = self ∧
      (self.updateRole db newRole).2.2.users = db.users) := by
  have hstr : (match newRole with
      | UserRole.ADMIN => "admin"
      | UserRole.MANAGER => "manager"
      | UserRole.USER => "user") = User.getRoleString { self with role := newRole } := by
    cases newRole <;> rfl
  constructor
  · rintro ⟨hc, hf⟩
    unfold User.updateRole
    simp only [hstr]
    rw [executeUpdate_sent db _ hc hf]
    simp [sqlUpdateUserRole]
  · intro hfail
    unfold User.updateRole
    simp only [hstr]
    rcases gateway_cases db with hc | ⟨hc, hf⟩ | ⟨hc, hf⟩
    · rw [executeUpdate_not_connected db _ hc]
      exact ⟨rfl, rfl, rfl⟩
    · rw [executeUpdate_refused db _ hc hf]
      exact ⟨rfl, rfl, rfl⟩
    · exact absurd ⟨hc, hf⟩ hfail

/-- Witness of C16: `alice` is made MANAGER on an open connection, and the same
call after the connection is lost. -/
theorem updateRole_agreement_witness :
    ((aliceUser.updateRole hotel UserRole.MANAGER).1 = true ∧
      (aliceUser.updateRole hotel UserRole.MANAGER).2.1 =
        { aliceUser with role := UserRole.MANAGER } ∧
      (aliceUser.updateRole hotel UserRole.MANAGER).2.2.users =
        hotel.users.map (fun r =>
          if r.id = aliceUser.id then
            { r with role := User.getRoleString { aliceUser with role := UserRole.MANAGER } }
          else r)) ∧
    ((aliceUser.updateRole hotelOffline UserRole.MANAGER).1 = false ∧
      (aliceUser.updateRole hotelOffline UserRole.MANAGER).2.1 = aliceUser ∧
      (aliceUser.updateRole hotelOffline UserRole.MANAGER).2.2.users = hotelOffline.users) :=
  ⟨(updateRole_agreement aliceUser hotel UserRole.MANAGER).1 ⟨by decide, by decide⟩,
   (updateRole_agreement aliceUser hotelOffline UserRole.MANAGER).2 (by decide)⟩

/-! ## Rooms and services -/

theorem filter_id_length_le_one (l : List BookingRow) (id : Int)
    (h : (l.map (fun r => r.id)).Nodup) :
    (l.filter (fun r => r.id == id)).length ≤ 1 := by
  induction l with
  | nil => simp
  | cons r l ih =>
    rw [List.map_cons, List.nodup_cons] at h
    by_cases hid : r.id = id
    · have hnil : l.filter (fun x => x.id == id) = [] := by
        rw [List.filter_eq_nil_iff]
        intro x hx hxid
        apply h.1
        rw [List.mem_map]
        exact ⟨x, hx, by rw [hid]; simpa using hxid⟩
      simp [List.filter_cons, hid, hnil]
    · simpa [List.filter_cons, hid] using ih h.2

theorem findBookingById_eq (db : DBManager) (id : Int)
    (hconn : db.isConnected = true) (hsend : db.faults.head? ≠ some true) :
    (Booking.findBookingById db id).1 =
      match db.bookings.filter (fun r => r.id == id) with
      | [r] => Except.ok (some { id := id, userId := r.user_id, roomId := r.room_id,
                                  dateFrom := r.date_from, dateTo := r.date_to,
                                  status := toBookingStatus r.status })
      | _ => Except.ok none := by
  unfold Booking.findBookingById
  rw [executeQuery_sent db _ hconn hsend]
  simp only [sqlSelectBookingById]
  generalize db.bookings.filter (fun r => r.id == id) = rows
  rcases rows with _ | ⟨r, _ | ⟨r2, rest⟩⟩ <;> rfl

theorem findRoomById_eq (db : DBManager) (id : Int)
    (hconn : db.isConnected = true) (hsend : db.faults.head? ≠ some true) :
    Room.findRoomById db id =
      (match db.rooms.filter (fun r => r.id == id) with
        | [r] => some { id := id, number := r.number, type := r.type,
                        pricePerDay := r.price_per_day, description := r.description }
        | _ => none,
        { db with faults := db.faults.tail }) := by
  unfold Room.findRoomById
  rw [executeQuery_sent db _ hconn hsend]
  simp only [sqlSelectRoomById]
  generalize db.rooms.filter (fun r => r.id == id) = rows
  rcases rows with _ | ⟨r, _ | ⟨r2, rest⟩⟩ <;> rfl

/-- C18, amended: `Booking::findBookingById` keeps not-found and failure apart:
it returns `nullptr` only when the gateway answered and the number of stored
rows with the id is not one (no row at all, when ids are distinct), and a
gateway failure leaves it as an exception. `Room::findRoomById` does not: it
returns `nullptr` exactly when the connection is not open, or the statement is
refused, or the number of stored rows with the id is not one. -/
theorem lookup_outcomes (db : DBManager) (id : Int) :
    ((Booking.findBookingById db id).1 = Except.ok none →
      db.isConnected = true ∧ db.faults.head? ≠ some true ∧
      (db.bookings.filter (fun r => r.id == id)).length ≠ 1) ∧
    ((db.bookings.map (fun r => r.id)).Nodup →
      (Booking.findBookingById db id).1 = Except.ok none → ∀ r ∈ db.bookings, r.id ≠ id) ∧
    (db.isConnected = false ∨ db.faults.head? = some true →
      ∃ e, (Booking.findBookingById db id).1 = Except.error e) ∧
    ((Room.findRoomById db id).1 = none ↔
      db.isConnected = false ∨ db.faults.head? = some true ∨
      (db.rooms.filter (fun r => r.id == id)).length ≠ 1) := by
  have hthrow : db.isConnected = false ∨ db.faults.head? = some true →
      ∃ e, (Booking.findBookingById db id).1 = Except.error e := by
    intro hfail
    unfold Booking.findBookingById
    rcases gateway_cases db with hc | ⟨hc, hf⟩ | ⟨hc, hf⟩
    · rw [executeQuery_not_connected db _ hc]
      exact ⟨_, rfl⟩
    · rw [executeQuery_refused db _ hc hf]
      exact ⟨_, rfl⟩
    · rcases hfail with h | h
      · rw [hc] at h
        exact absurd h (by simp)
      · exact absurd h hf
  have hnone : (Booking.findBookingById db id).1 = Except.ok none →
      db.isConnected = true ∧ db.faults.head? ≠ some true ∧
      (db.bookings.filter (fun r => r.id == id)).length ≠ 1 := by
    intro h
    rcases gateway_cases db with hc | ⟨hc, hf⟩ | ⟨hc, hf⟩
    · obtain ⟨e, he⟩ := hthrow (Or.inl hc)
      rw [he] at h
      exact absurd h (by simp)
    · obtain ⟨e, he⟩ := hthrow (Or.inr hf)
      rw [he] at h
      exact absurd h (by simp)
    · refine ⟨hc, hf, ?_⟩
      rw [findBookingById_eq db id hc hf] at h
      intro hlen
      obtain ⟨r, hr⟩ := List.length_eq_one.1 hlen
      rw [hr] at h
      simp at h
  refine ⟨hnone, ?_, hthrow, ?_⟩
  · intro hnodup h r hr hid
    have hlen := (hnone h).2.2
    have hle := filter_id_length_le_one db.bookings id hnodup
    have hmem : r ∈ db.bookings.filter (fun x => x.id == id) :=
      List.mem_filter.2 ⟨hr, by simpa using hid⟩
    have hpos := List.length_pos_of_mem hmem
    omega
  · rcases gateway_cases db with hc | ⟨hc, hf⟩ | ⟨hc, hf⟩
    · unfold Room.findRoomById
      rw [executeQuery_not_connected db _ hc]
      simp [hc]
    · unfold Room.findRoomById
      rw [executeQuery_refused db _ hc hf]
      simp [hf]
    · rw [findRoomById_eq db id hc hf]
      simp only [hc, hf]
      generalize db.rooms.filter (fun r => r.id == id) = rows
      rcases rows with _ | ⟨r, _ | ⟨r2, rest⟩⟩ <;> simp

/-- Witness of C18, amended: booking 5 is not stored; the lookups of booking 1
and of room 201 after the connection is lost. -/
theorem lookup_outcomes_witness :
    (∀ r ∈ hotel.bookings, r.id ≠ 5) ∧
    (∃ e, (Booking.findBookingById hotelOffline 1).1 = Except.error e) ∧
    (Room.findRoomById hotelOffline 201).1 = none :=
  ⟨(lookup_outcomes hotel 5).2.1 (by decide) (by decide),
   (lookup_outcomes hotelOffline 1).2.2.1 (Or.inl (by decide)),
   (lookup_outcomes hotelOffline 201).2.2.2.2 (Or.inl (by decide))⟩

/-- Counterexample to C18 as stated: room 201 is stored, the connection is
lost, and `Room::findRoomById(201)` returns `nullptr` although a row matches
the id; on the open connection the same lookup returns the room. -/
theorem findRoomById_failure_is_nullptr :
    (∃ r ∈ hotelOffline.rooms, r.id = 201) ∧
    hotelOffline.isConnected = false ∧
    (Room.findRoomById hotelOffline 201).1 = none ∧
    (Room.findRoomById hotel 201).1 =
      some { id := 201, number := "201", type := "double", pricePerDay := 50,
             description := "" } := by
  decide

/-- C12, the code at the failing input: booking 1 holds room 201 (50 a day)
from day 8401 to day 8405, with service 7 (price 10) attached twice.
`calculateBill` prints the total 70, that is 50 × 1 + 10 × 2, where the claim
gives 50 × 4 + 20 = 220 for the four nights of the stay (270 if both end
dates are counted). -/
theorem calculateBill_charges_one_day :
    (Booking.findBookingById hotel 1).1 =
      Except.ok (some { id := 1, userId := 101, roomId := 201, dateFrom := 8401,
                         dateTo := 8405, status := BookingStatus.CONFIRMED }) ∧
    (calculateBill hotel 1).1 = Except.ok (some 70) ∧
    (50 : ℚ) * ((8405 - 8401 : Int) : ℚ) + 10 * ((2 : Int) : ℚ) = 220 ∧
    (50 : ℚ) * ((8405 - 8401 + 1 : Int) : ℚ) + 10 * ((2 : Int) : ℚ) = 270 := by
  refine ⟨by decide, by with_unfolding_all decide, by norm_num, by norm_num⟩

/-- C19, the code at the failing inputs: with `root` (ADMIN) logged in and the
connection lost, the choices 1 (view all bookings), 2 (manage booking status),
3 (add service to booking) and 4 (calculate bill), and with `alice` (USER)
logged in choice 3 (view my bookings), each end `main` with the
`runtime_error` of the gateway; so does choice 2 when the connection fails
after the lookup of the booking. Only choice 2 of `alice` (make booking) keeps
the failure inside: `makeBooking` reports no booking and the loop goes on. -/
theorem main_failure_leaves_main :
    mainLoop [{ choice := some 1 }] (some adminUser) hotelOffline =
      Except.error (Exn.runtime_error "Database not connected") ∧
    mainLoop [{ choice := some 2, bookingId := 1, statusChoice := 1 }] (some adminUser)
      hotelOffline = Except.error (Exn.runtime_error "Database not connected") ∧
    mainLoop [{ choice := some 3, bookingId := 1, serviceId := 7, quantity := 1 }]
      (some adminUser) hotelOffline =
      Except.error (Exn.runtime_error "Database not connected") ∧
    mainLoop [{ choice := some 4, bookingId := 1 }] (some adminUser) hotelOffline =
      Except.error (Exn.runtime_error "Database not connected") ∧
    mainLoop [{ choice := some 3 }] (some aliceUser) hotelOffline =
      Except.error (Exn.runtime_error "Database not connected") ∧
    mainLoop [{ choice := some 2, bookingId := 1, statusChoice := 1 }] (some adminUser)
      hotelFlaky = Except.error (Exn.runtime_error "Update execution failed: ") ∧
    (makeBooking hotelFlaky (some aliceUser) (some 201) 8406 8410).1 = none ∧
    (∃ state, mainLoop [{ choice := some 2, roomId := some 201, dateFrom := 8406,
                          dateTo := 8410 }] (some aliceUser) hotelFlaky = Except.ok state) := by
  refine ⟨by decide, by decide, by decide, by decide, by decide, by decide, by decide,
    ⟨_, rfl⟩⟩

/-- C20: a `DBManager` that is freshly constructed, or on which `disconnect`
was called, reports `isConnected() = false`, and `executeQuery`,
`executeUpdate`, `beginTransaction`, `commit` and `rollback` each throw the
`runtime_error` "Database not connected" for every statement, the state
(and with it what the server was sent) being what it was. -/
theorem not_connected_fails {α : Type} (server db d : DBManager) (query : Statement α)
    (update sqlBegin sqlCommit sqlRollback : Statement Nat)
    (hd : d = DBManager.construct server ∨ d = db.disconnect) :
    d.isConnected = false ∧
    d.executeQuery query = (Except.error (Exn.runtime_error "Database not connected"), d) ∧
    d.executeUpdate update = (Except.error (Exn.runtime_error "Database not connected"), d) ∧
    d.beginTransaction sqlBegin =
      (Except.error (Exn.runtime_error "Database not connected"), d) ∧
    d.commit sqlCommit = (Except.error (Exn.runtime_error "Database not connected"), d) ∧
    d.rollback sqlRollback = (Except.error (Exn.runtime_error "Database not connected"), d) := by
  have h : d.isConnected = false := by
    rcases hd with h | h
    · rw [h]
      rfl
    · rw [h]
      unfold DBManager.disconnect
      cases hc : db.connection with
      | none => simp [DBManager.isConnected, hc]
      | some c => rfl
  refine ⟨h, executeQuery_not_connected d query h, executeUpdate_not_connected d update h,
    ?_, ?_, ?_⟩
  · simp [DBManager.beginTransaction, h]
  · simp [DBManager.commit, h]
  · simp [DBManager.rollback, h]

/-- Witness of C20: the manager constructed over the state `hotel`. -/
theorem not_connected_fails_witness :
    (DBManager.construct hotel).isConnected = false ∧
    (DBManager.construct hotel).executeQuery sqlSelectBookings =
      (Except.error (Exn.runtime_error "Database not connected"),
        DBManager.construct hotel) ∧
    (DBManager.construct hotel).executeUpdate (sqlDeleteBookingService 1 7) =
      (Except.error (Exn.runtime_error "Database not connected"),
        DBManager.construct hotel) ∧
    (DBManager.construct hotel).beginTransaction sqlNoEffect =
      (Except.error (Exn.runtime_error "Database not connected"),
        DBManager.construct hotel) ∧
    (DBManager.construct hotel).commit sqlNoEffect =
      (Except.error (Exn.runtime_error "Database not connected"),
        DBManager.construct hotel) ∧
    (DBManager.construct hotel).rollback sqlNoEffect =
      (Except.error (Exn.runtime_error "Database not connected"),
        DBManager.construct hotel) :=
  not_connected_fails hotel hotel (DBManager.construct hotel) sqlSelectBookings
    (sqlDeleteBookingService 1 7) sqlNoEffect sqlNoEffect sqlNoEffect (Or.inl rfl)

/-! ## The menu -/

/-- C21: the nested switch of `main` is gated by the role of the current user.
With role USER every choice leads to `viewAvailableRooms`, `makeBooking`,
`viewMyBookings`, `logout` or the message `Invalid choice`; `manageBooking`,
`calculateBill`, `addRoom` and `addService` are reached only with role ADMIN or
MANAGER; `manageUserRoles`, `addServiceToBooking` and `registerUser` for a
logged-in user only with role ADMIN; and a pass of the loop of `main` with a
current user of role `role` runs the call the switch selects. -/
theorem menuAction_role_gated (role : UserRole) (choice : Int) :
    (menuAction UserRole.USER choice = Action.viewAvailableRooms ∨
      menuAction UserRole.USER choice = Action.makeBooking ∨
      menuAction UserRole.USER choice = Action.viewMyBookings ∨
      menuAction UserRole.USER choice = Action.logout ∨
      menuAction UserRole.USER choice = Action.invalidChoice) ∧
    (menuAction role choice = Action.manageBooking ∨
      menuAction role choice = Action.calculateBill ∨
      menuAction role choice = Action.addRoom ∨
      menuAction role choice = Action.addService →
      role = UserRole.ADMIN ∨ role = UserRole.MANAGER) ∧
    (menuAction role choice = Action.manageUserRoles ∨
      menuAction role choice = Action.addServiceToBooking ∨
      menuAction role choice = Action.registerUser →
      role = UserRole.ADMIN) ∧
    (∀ (db : DBManager) (user : User) (typed : Typed), user.role = role →
      typed.choice = some choice →
      mainIteration db (some user) typed =
        match runAction (menuAction role choice) db (some user) typed with
        | Except.error e => Except.error e
        | Except.ok (currentUser1, db1) => Except.ok (true, currentUser1, db1)) := by
  refine ⟨?_, ?_, ?_, ?_⟩
  · unfold menuAction
    simp only []
    split_ifs <;> simp
  · cases role
    · intro _; exact Or.inl rfl
    · intro _; exact Or.inr rfl
    · unfold menuAction
      simp only []
      split_ifs <;> simp
  · cases role
    · intro _; rfl
    · unfold menuAction
      simp only []
      split_ifs <;> simp
    · unfold menuAction
      simp only []
      split_ifs <;> simp
  · intro db user typed hrole hchoice
    unfold mainIteration
    simp only [User.getCurrentUser, hchoice, hrole]

/-- Witness of C21: `alice`, of role USER, types 5, which the menu of ADMIN
reads as `Manage User Roles`: the pass changes nothing; and `manageBooking`
is reached by a MANAGER with choice 2. -/
theorem menuAction_role_gated_witness :
    aliceUser.role = UserRole.USER ∧
    mainIteration hotel (some aliceUser) { choice := some 5 } =
      Except.ok (true, some aliceUser, hotel) ∧
    (UserRole.MANAGER = UserRole.ADMIN ∨ UserRole.MANAGER = UserRole.MANAGER) :=
  ⟨rfl,
   ((menuAction_role_gated UserRole.USER 5).2.2.2 hotel aliceUser { choice := some 5 }
      rfl rfl).trans rfl,
   (menuAction_role_gated UserRole.MANAGER 2).2.1 (Or.inl rfl)⟩

/-! ## Date texts -/

theorem isDigit_ne_quote (c : Char) (h : c.isDigit = true) : (Char.ofNat 39 == c) = false := by
  rw [beq_eq_false_iff_ne]
  rintro rfl
  exact absurd h (by decide)

theorem regexMatch_datePattern (l : List Char) :
    regexMatch datePattern l = true ↔
      ∃ y1 y2 y3 y4 m1 m2 d1 d2 : Char,
        (y1.isDigit = true ∧ y2.isDigit = true ∧ y3.isDigit = true ∧ y4.isDigit = true ∧
          m1.isDigit = true ∧ m2.isDigit = true ∧ d1.isDigit = true ∧ d2.isDigit = true) ∧
        l = [y1, y2, y3, y4, '-', m1, m2, '-', d1, d2] := by
  constructor
  · intro h
    rcases l with _ | ⟨c1, _ | ⟨c2, _ | ⟨c3, _ | ⟨c4, _ | ⟨c5, _ | ⟨c6, _ | ⟨c7, _ | ⟨c8,
      _ | ⟨c9, _ | ⟨c10, _ | ⟨c11, rest⟩⟩⟩⟩⟩⟩⟩⟩⟩⟩⟩ <;>
      simp [datePattern, regexMatch, RegexAtom.accepts, List.replicate] at h
    obtain ⟨h1, h2, h3, h4, h5, h6, h7, h8, h9, h10⟩ := h
    exact ⟨c1, c2, c3, c4, c6, c7, c9, c10, ⟨h1, h2, h3, h4, h6, h7, h9, h10⟩, by
      rw [h5, h8]⟩
  · rintro ⟨y1, y2, y3, y4, m1, m2, d1, d2, ⟨h1, h2, h3, h4, h5, h6, h7, h8⟩, rfl⟩
    simp [datePattern, regexMatch, RegexAtom.accepts, List.replicate, h1, h2, h3, h4, h5, h6,
      h7, h8]

theorem readValidDate_accepts (lines : List String) (s : String) (rest : List String)
    (h : readValidDate lines = some (s, rest)) : isValidDate s = true ∧ s ∈ lines := by
  induction lines with
  | nil => simp [readValidDate] at h
  | cons line more ih =>
    unfold readValidDate at h
    by_cases hv : isValidDate line = true
    · rw [if_pos hv] at h
      simp only [Option.some.injEq, Prod.mk.injEq] at h
      rw [← h.1]
      exact ⟨hv, List.mem_cons_self _ _⟩
    · rw [if_neg hv] at h
      exact ⟨(ih h).1, List.mem_cons_of_mem _ (ih h).2⟩

/-- C22: `isValidDate s` is true exactly when `s` is four decimal digits, `-`,
two digits, `-`, two digits, and false for every other text; an accepted text
has 10 characters and no quote character; `2023-13-45` is accepted though the
server reads no date in it; a date prompt returns only a line `isValidDate`
accepted; and when `makeBooking` or `viewAvailableRooms` reaches the calls of
`createBooking` or `isRoomAvailable`, both date texts it passes were accepted
by `isValidDate`. -/
theorem isValidDate_iff (s : String) :
    (isValidDate s = true ↔
      ∃ y1 y2 y3 y4 m1 m2 d1 d2 : Char,
        (y1.isDigit = true ∧ y2.isDigit = true ∧ y3.isDigit = true ∧ y4.isDigit = true ∧
          m1.isDigit = true ∧ m2.isDigit = true ∧ d1.isDigit = true ∧ d2.isDigit = true) ∧
        s.data = [y1, y2, y3, y4, '-', m1, m2, '-', d1, d2]) ∧
    (isValidDate s = true → s.length = 10 ∧ SqlText s) ∧
    (isValidDate "2023-13-45" = true ∧ dateIn "2023-13-45" = none) ∧
    (∀ (lines rest : List String) (date : String),
      readValidDate lines = some (date, rest) → isValidDate date = true ∧ date ∈ lines) ∧
    (∀ (db : DBManager) (currentUser : Option User) (roomId : Option Int)
      (lines : List String) (out : Option Booking × DBManager),
      makeBookingLines db currentUser roomId lines = some out →
      (out.1 = none ∧ (currentUser = none ∨ roomId = none ∨
        ∃ r, roomId = some r ∧ out = (none, (Room.findRoomById db r).2))) ∨
      ∃ (user : User) (r : Int) (dateFrom dateTo : String),
        currentUser = some user ∧ roomId = some r ∧
        isValidDate dateFrom = true ∧ isValidDate dateTo = true ∧
        out = makeBookingTry (Room.findRoomById db r).2 user.id r dateFrom dateTo) ∧
    (∀ (db : DBManager) (lines : List String) (out : Except Exn (List Room) × DBManager),
      viewAvailableRoomsLines db lines = some out →
      ∃ dateFrom dateTo : String,
        isValidDate dateFrom = true ∧ isValidDate dateTo = true ∧
        out = viewAvailableRoomsFor db dateFrom dateTo) := by
  refine ⟨regexMatch_datePattern s.data, ?_, ⟨by decide, by decide⟩, ?_, ?_, ?_⟩
  · intro h
    obtain ⟨y1, y2, y3, y4, m1, m2, d1, d2, ⟨h1, h2, h3, h4, h5, h6, h7, h8⟩, hs⟩ :=
      (regexMatch_datePattern s.data).1 h
    constructor
    · rw [String.length, hs]
      rfl
    · unfold SqlText
      rw [hs]
      simp only [List.contains_cons, List.contains_nil, Bool.or_false,
        isDigit_ne_quote _ h1, isDigit_ne_quote _ h2, isDigit_ne_quote _ h3,
        isDigit_ne_quote _ h4, isDigit_ne_quote _ h5, isDigit_ne_quote _ h6,
        isDigit_ne_quote _ h7, isDigit_ne_quote _ h8]
      rfl
  · intro lines rest date h
    exact readValidDate_accepts lines date rest h
  · intro db currentUser roomId lines out h
    unfold makeBookingLines User.getCurrentUser at h
    rcases currentUser with _ | user
    · left
      simp only [Option.some.injEq] at h
      rw [← h]
      exact ⟨rfl, Or.inl rfl⟩
    · rcases roomId with _ | r
      · left
        simp only [Option.some.injEq] at h
        rw [← h]
        exact ⟨rfl, Or.inr (Or.inl rfl)⟩
      · simp only [] at h
        rcases hroom : Room.findRoomById db r with ⟨_ | room, db1⟩
        · left
          rw [hroom] at h
          simp only [Option.some.injEq] at h
          rw [← h]
          exact ⟨rfl, Or.inr (Or.inr ⟨r, rfl, by rw [hroom]⟩)⟩
        · right
          rw [hroom] at h
          have hdb : (Room.findRoomById db r).2 = db1 := by rw [hroom]
          simp only [] at h
          rcases h1 : readValidDate lines with _ | ⟨dateFrom, rest⟩
          · rw [h1] at h
            simp at h
          · rw [h1] at h
            simp only [] at h
            rcases h2 : readValidDate rest with _ | ⟨dateTo, rest2⟩
            · rw [h2] at h
              simp at h
            · rw [h2] at h
              simp only [Option.some.injEq] at h
              exact ⟨user, r, dateFrom, dateTo, rfl, rfl,
                (readValidDate_accepts _ _ _ h1).1, (readValidDate_accepts _ _ _ h2).1, by
                  rw [hdb]
                  exact h.symm⟩
  · intro db lines out h
    unfold viewAvailableRoomsLines at h
    rcases h1 : readValidDate lines with _ | ⟨dateFrom, rest⟩
    · rw [h1] at h
      simp at h
    · rw [h1] at h
      simp only [] at h
      rcases h2 : readValidDate rest with _ | ⟨dateTo, rest2⟩
      · rw [h2] at h
        simp at h
      · rw [h2] at h
        simp only [Option.some.injEq] at h
        exact ⟨dateFrom, dateTo, (readValidDate_accepts _ _ _ h1).1,
          (readValidDate_accepts _ _ _ h2).1, h.symm⟩

/-- Witness of C22: `2023-13-45` is accepted; of the lines `tomorrow`,
`2023-01-01`, `01/05/2023`, `2023-01-05` typed at the prompts of
`viewAvailableRooms`, the two handed on are accepted ones. -/
theorem isValidDate_iff_witness :
    isValidDate "2023-13-45" = true ∧
    ("2023-13-45".length = 10 ∧ SqlText "2023-13-45") ∧
    (∃ dateFrom dateTo : String,
      isValidDate dateFrom = true ∧ isValidDate dateTo = true ∧
      (viewAvailableRoomsFor hotel "2023-01-01" "2023-01-05") =
        viewAvailableRoomsFor hotel dateFrom dateTo) :=
  ⟨by decide, (isValidDate_iff "2023-13-45").2.1 (by decide),
   (isValidDate_iff "").2.2.2.2.2 hotel ["tomorrow", "2023-01-01", "01/05/2023", "2023-01-05"]
     (viewAvailableRoomsFor hotel "2023-01-01" "2023-01-05") (by decide)⟩

/-! ## Role names -/

theorem updateRole_eq (self : User) (db : DBManager) (newRole : UserRole)
    (hconn : db.isConnected = true) (hsend : db.faults.head? ≠ some true) :
    self.updateRole db newRole =
      (true, { self with role := newRole },
        { db with
          faults := db.faults.tail
          users := db.users.map (fun r =>
            if r.id = self.id then
              { r with role := User.getRoleString { self with role := newRole } }
            else r) }) := by
  have hstr : (match newRole with
      | UserRole.ADMIN => "admin"
      | UserRole.MANAGER => "manager"
      | UserRole.USER => "user") = User.getRoleString { self with role := newRole } := by
    cases newRole <;> rfl
  unfold User.updateRole
  simp only [hstr]
  rw [executeUpdate_sent db _ hconn hsend]
  simp [sqlUpdateUserRole]

theorem getAllUsers_eq (db : DBManager)
    (hconn : db.isConnected = true) (hsend : db.faults.head? ≠ some true) :
    User.getAllUsers db =
      (db.users.map (fun r =>
        { id := r.id, login := r.login, password := r.password_hash,
          role := roleOfString r.role }), { db with faults := db.faults.tail }) := by
  unfold User.getAllUsers
  rw [executeQuery_sent db _ hconn hsend]
  rfl

theorem findUserById_eq (db : DBManager) (id : Int) (row : UserRow)
    (hconn : db.isConnected = true) (hsend : db.faults.head? ≠ some true)
    (hrow : db.users.filter (fun r => r.id == id) = [row]) :
    User.findUserById db id =
      (some { id := row.id, login := row.login, password := row.password_hash,
              role := roleOfString row.role }, { db with faults := db.faults.tail }) := by
  unfold User.findUserById
  rw [executeQuery_sent db _ hconn hsend]
  simp only [sqlSelectUserById, hrow]
  rfl

/-- C23: role names round-trip. `getRoleString` returns `admin`, `manager`,
`user` for ADMIN, MANAGER, USER; on an open connection whose statement is
answered, the row `addUser` stores for a role (login and credential being text
without quote characters) and the rows `updateRole` rewrites hold
`getRoleString` of that role; `roleOfString` maps that string back to the role
and every string other than `admin` and `manager` to USER; and the roles that
`getAllUsers`, `findUserById` and `authenticate` give to the users they read
are `roleOfString` of the stored strings, so the three copies agree. -/
theorem role_roundtrip (role : UserRole) (user : User) (db : DBManager)
    (hconn : db.isConnected = true) (hsend : db.faults.head? ≠ some true) :
    (User.getRoleString { user with role := UserRole.ADMIN } = "admin" ∧
      User.getRoleString { user with role := UserRole.MANAGER } = "manager" ∧
      User.getRoleString { user with role := UserRole.USER } = "user") ∧
    (∀ login password : String, SqlText login → SqlText password →
      (User.addUser db login password role).1 = true →
      ∃ id, (User.addUser db login password role).2.users =
        db.users ++ [{ id := id, login := login, password_hash := password,
                       role := User.getRoleString { user with role := role } }]) ∧
    (user.updateRole db role).2.2.users =
      db.users.map (fun r =>
        if r.id = user.id then
          { r with role := User.getRoleString { user with role := role } }
        else r) ∧
    roleOfString (User.getRoleString { user with role := role }) = role ∧
    (∀ roleStr : String, roleStr ≠ "admin" → roleStr ≠ "manager" →
      roleOfString roleStr = UserRole.USER) ∧
    (User.getAllUsers db).1 =
      db.users.map (fun r =>
        { id := r.id, login := r.login, password := r.password_hash,
          role := roleOfString r.role }) ∧
    (∀ (id : Int) (row : UserRow), db.users.filter (fun r => r.id == id) = [row] →
      (User.findUserById db id).1 =
        some { id := row.id, login := row.login, password := row.password_hash,
               role := roleOfString row.role }) ∧
    (∀ (currentUser : Option User) (login password : String) (row : UserRow),
      SqlText login → SqlText password →
      db.users.filter (fun r => r.login == login && r.password_hash == password) = [row] →
      (User.authenticate db currentUser login password).2.1 =
        some { id := row.id, login := row.login, password := row.password_hash,
               role := roleOfString row.role }) := by
  refine ⟨⟨rfl, rfl, rfl⟩, ?_, ?_, ?_, ?_, ?_, ?_, ?_⟩
  · intro login password hlogin hpassword hok
    rw [addUser_eq db login password role hlogin hconn hsend] at hok ⊢
    have hrs :
        User.getRoleString
          { id := db.users_id_seq, login := login, password := password, role := role } =
        User.getRoleString { user with role := role } := by
      cases role <;> rfl
    rw [hrs] at hok ⊢
    by_cases hdup : (db.users.filter (fun r => r.login == login)).length > 0
    · rw [if_pos hdup] at hok
      exact absurd hok (by simp)
    · rw [if_neg hdup] at hok ⊢
      have hc1 : DBManager.isConnected { db with faults := db.faults.tail } = true := by
        rw [isConnected_iff] at hconn ⊢
        exact hconn
      rcases gateway_cases { db with faults := db.faults.tail } with hc | ⟨hc, hf⟩ | ⟨hc, hf⟩
      · rw [hc1] at hc
        exact absurd hc (by simp)
      · rw [executeUpdate_refused _ _ hc hf] at hok
        exact absurd hok (by simp)
      · rw [executeUpdate_sent _ _ hc hf,
          sqlInsertUser_eq _ _ _ hlogin hpassword (sqlText_getRoleString _)] at hok ⊢
        by_cases hany : (db.users.any fun r => r.id == db.users_id_seq || r.login == login) = true
        · simp [storeUser, hany] at hok
        · refine ⟨db.users_id_seq, ?_⟩
          simp [storeUser, hany]
  · rw [updateRole_eq user db role hconn hsend]
  · cases role <;> rfl
  · intro roleStr h1 h2
    simp [roleOfString, h1, h2]
  · rw [getAllUsers_eq db hconn hsend]
  · intro id row hrow
    rw [findUserById_eq db id row hconn hsend hrow]
  · intro currentUser login password row hlogin hpassword hrow
    unfold User.authenticate
    rw [executeQuery_sent db _ hconn hsend,
      sqlSelectUserByCredentials_eq login password hlogin hpassword]
    simp only [hrow]
    rfl

/-- Witness of C23: `alice` is made MANAGER, `root` is looked up, and `bob` is
added as MANAGER, on the state `hotel`. -/
theorem role_roundtrip_witness :
    hotel.isConnected = true ∧ hotel.faults.head? ≠ some true ∧
    (aliceUser.updateRole hotel UserRole.MANAGER).2.2.users =
      hotel.users.map (fun r =>
        if r.id = aliceUser.id then
          { r with role := User.getRoleString { aliceUser with role := UserRole.MANAGER } }
        else r) ∧
    roleOfString (User.getRoleString { aliceUser with role := UserRole.MANAGER }) =
      UserRole.MANAGER ∧
    (User.findUserById hotel 1).1 =
      some { id := 1, login := "root", password := "h0", role := roleOfString "admin" } ∧
    (∃ id, (User.addUser hotel "bob" "pw" UserRole.MANAGER).2.users =
      hotel.users ++ [{ id := id, login := "bob", password_hash := "pw",
                        role := User.getRoleString
                                  { aliceUser with role := UserRole.MANAGER } }]) :=
  ⟨by decide, by decide,
   (role_roundtrip UserRole.MANAGER aliceUser hotel (by decide) (by decide)).2.2.1,
   (role_roundtrip UserRole.MANAGER aliceUser hotel (by decide) (by decide)).2.2.2.1,
   (role_roundtrip UserRole.MANAGER aliceUser hotel (by decide) (by decide)).2.2.2.2.2.2.1 1
     { id := 1, login := "root", password_hash := "h0", role := "admin" } (by decide),
   (role_roundtrip UserRole.MANAGER aliceUser hotel (by decide) (by decide)).2.1 "bob" "pw"
     (by decide) (by decide) (by decide)⟩

/-! ## The bill -/

theorem findBookingById_row (db : DBManager) (id : Int) (row : BookingRow)
    (hconn : db.isConnected = true) (hsend : db.faults.head? ≠ some true)
    (hrow : db.bookings.filter (fun r => r.id == id) = [row]) :
    Booking.findBookingById db id =
      (Except.ok (some { id := id, userId := row.user_id, roomId := row.room_id,
                          dateFrom := row.date_from, dateTo := row.date_to,
                          status := toBookingStatus row.status }),
        { db with faults := db.faults.tail }) := by
  unfold Booking.findBookingById
  rw [executeQuery_sent db _ hconn hsend]
  simp only [sqlSelectBookingById, hrow]

theorem getServices_full (self : Booking) (db : DBManager)
    (hconn : db.isConnected = true) (hsend : db.faults.head? ≠ some true) :
    self.getServices db =
      (Except.ok (servicesOf db self.id), { db with faults := db.faults.tail }) := by
  unfold Booking.getServices
  rw [executeQuery_sent db _ hconn hsend]
  rfl

theorem findServiceById_eq (db : DBManager) (id : Int)
    (hconn : db.isConnected = true) (hsend : db.faults.head? ≠ some true) :
    Service.findServiceById db id =
      (match db.services.filter (fun r => r.id == id) with
        | [r] => some { id := id, name := r.name, price := r.price }
        | _ => none,
        { db with faults := db.faults.tail }) := by
  unfold Service.findServiceById
  rw [executeQuery_sent db _ hconn hsend]
  simp only [sqlSelectServiceById]
  generalize db.services.filter (fun r => r.id == id) = rows
  rcases rows with _ | ⟨r, _ | ⟨r2, rest⟩⟩ <;> rfl

theorem findServiceById_refused (db : DBManager) (id : Int)
    (hconn : db.isConnected = true) (hf : db.faults.head? = some true) :
    Service.findServiceById db id = (none, { db with faults := db.faults.tail }) := by
  unfold Service.findServiceById
  rw [executeQuery_refused db _ hconn hf]

/-- One lookup of `calculateBill`, on an open connection: what it adds and the
state it leaves. -/
theorem findServiceById_cost (db : DBManager) (entry : Int × Int)
    (hconn : db.isConnected = true) :
    (((Service.findServiceById db entry.1).1.map
        (fun service => service.price * (entry.2 : ℚ))).getD 0 =
      if db.faults.head? = some true then 0 else resolvedCost db.services entry) ∧
    (Service.findServiceById db entry.1).2 = { db with faults := db.faults.tail } := by
  by_cases hf : db.faults.head? = some true
  · rw [findServiceById_refused db _ hconn hf, if_pos hf]
    exact ⟨rfl, rfl⟩
  · rw [findServiceById_eq db _ hconn hf, if_neg hf]
    refine ⟨?_, rfl⟩
    unfold resolvedCost
    generalize db.services.filter (fun r => r.id == entry.1) = rows
    rcases rows with _ | ⟨r, _ | ⟨r2, rest⟩⟩ <;> rfl

theorem billed_foldl (step : ℚ × DBManager → Int × Int → ℚ × DBManager)
    (hstep : ∀ acc entry, step acc entry =
      (acc.1 + ((Service.findServiceById acc.2 entry.1).1.map
        (fun service => service.price * (entry.2 : ℚ))).getD 0,
        (Service.findServiceById acc.2 entry.1).2))
    (entries : List (Int × Int)) (a : ℚ) (db : DBManager) (hconn : db.isConnected = true) :
    (entries.foldl step (a, db)).1 = a + billedWith db.services entries db.faults := by
  induction entries generalizing a db with
  | nil => simp [billedWith]
  | cons entry rest ih =>
    rw [List.foldl_cons, hstep]
    obtain ⟨hcost, hstate⟩ := findServiceById_cost db entry hconn
    simp only [hcost, hstate]
    have hconn1 : DBManager.isConnected { db with faults := db.faults.tail } = true := by
      rw [isConnected_iff] at hconn ⊢
      exact hconn
    rw [ih _ _ hconn1]
    simp only [billedWith]
    ring

theorem billedWith_answered (services : List ServiceRow) (entries : List (Int × Int))
    (faults : List Bool) (h : ∀ f ∈ faults, f = false) :
    billedWith services entries faults = (entries.map (resolvedCost services)).sum := by
  induction entries generalizing faults with
  | nil => simp [billedWith]
  | cons entry rest ih =>
    have hhead : faults.head? ≠ some true := by
      intro hh
      rcases faults with _ | ⟨f, fs⟩
      · simp at hh
      · simp only [List.head?_cons, Option.some.injEq] at hh
        have := h f (List.mem_cons_self _ _)
        rw [hh] at this
        exact absurd this (by simp)
    have htail : ∀ f ∈ faults.tail, f = false := fun f hf => h f (List.mem_of_mem_tail hf)
    simp only [billedWith, if_neg hhead, List.map_cons, List.sum_cons, ih _ htail]

theorem calculateBill_total (db : DBManager) (id : Int) (brow : BookingRow) (rrow : RoomRow)
    (hconn : db.isConnected = true) (h1 : db.faults.head? ≠ some true)
    (h2 : db.faults.tail.head? ≠ some true) (h3 : db.faults.tail.tail.head? ≠ some true)
    (hb : db.bookings.filter (fun r => r.id == id) = [brow])
    (hr : db.rooms.filter (fun r => r.id == brow.room_id) = [rrow]) :
    (calculateBill db id).1 =
      Except.ok (some (rrow.price_per_day * 1 +
        billedWith db.services (servicesOf db id) db.faults.tail.tail.tail)) := by
  have hc1 : DBManager.isConnected { db with faults := db.faults.tail } = true := by
    rw [isConnected_iff] at hconn ⊢
    exact hconn
  have hc2 : DBManager.isConnected { db with faults := db.faults.tail.tail } = true := by
    rw [isConnected_iff] at hconn ⊢
    exact hconn
  have hc3 : DBManager.isConnected { db with faults := db.faults.tail.tail.tail } = true := by
    rw [isConnected_iff] at hconn ⊢
    exact hconn
  unfold calculateBill
  rw [findBookingById_row db id brow hconn h1 hb]
  simp only []
  rw [findRoomById_eq _ _ hc1 h2]
  simp only [hr]
  rw [getServices_full _ _ hc2 h3]
  simp only []
  rw [billed_foldl _ _ _ _ _ hc3]
  · simp [servicesOf]
  · intro acc entry
    rcases hs : Service.findServiceById acc.2 entry.1 with ⟨_ | service, d⟩ <;> simp

/-- C24: on an open connection whose first three statements are answered, for a
stored booking `idA` whose room is stored, `calculateBill` prints the price of
the room for one day, times 1, plus what its attached services add, each
`price * quantity` when the service resolves and 0 when it does not; the
dates of the booking do not enter: a second booking `idB` of the same room with
the same attached services gets the same total whatever its dates; and when no
statement is refused the services add the sum of `resolvedCost`. -/
theorem calculateBill_ignores_dates (db : DBManager) (idA idB : Int)
    (rowA rowB : BookingRow) (room : RoomRow)
    (hconn : db.isConnected = true) (h1 : db.faults.head? ≠ some true)
    (h2 : db.faults.tail.head? ≠ some true) (h3 : db.faults.tail.tail.head? ≠ some true)
    (hA : db.bookings.filter (fun r => r.id == idA) = [rowA])
    (hB : db.bookings.filter (fun r => r.id == idB) = [rowB])
    (hroom : db.rooms.filter (fun r => r.id == rowA.room_id) = [room])
    (hsameRoom : rowB.room_id = rowA.room_id)
    (hsameServices : servicesOf db idB = servicesOf db idA) :
    (calculateBill db idA).1 =
      Except.ok (some (room.price_per_day * 1 +
        billedWith db.services (servicesOf db idA) db.faults.tail.tail.tail)) ∧
    (calculateBill db idB).1 = (calculateBill db idA).1 ∧
    ((∀ f ∈ db.faults, f = false) →
      (calculateBill db idA).1 =
        Except.ok (some (room.price_per_day * 1 +
          ((servicesOf db idA).map (resolvedCost db.services)).sum))) := by
  have hroomB : db.rooms.filter (fun r => r.id == rowB.room_id) = [room] := by
    rw [hsameRoom]
    exact hroom
  have hbillA := calculateBill_total db idA rowA room hconn h1 h2 h3 hA hroom
  have hbillB := calculateBill_total db idB rowB room hconn h1 h2 h3 hB hroomB
  refine ⟨hbillA, ?_, ?_⟩
  · rw [hbillA, hbillB, hsameServices]
  · intro hnone
    have htail : ∀ f ∈ db.faults.tail.tail.tail, f = false := fun f hf =>
      hnone f (List.mem_of_mem_tail (List.mem_of_mem_tail (List.mem_of_mem_tail hf)))
    rw [hbillA, billedWith_answered _ _ _ htail]

/-- Witness of C24: bookings 1 (days 8401 to 8405) and 2 (days 8411 to 8412) of
room 201 in the state `hotelTwo`, with the same services attached. -/
theorem calculateBill_ignores_dates_witness :
    (calculateBill hotelTwo 1).1 = Except.ok (some (50 * 1 +
        billedWith hotelTwo.services (servicesOf hotelTwo 1) hotelTwo.faults.tail.tail.tail)) ∧
    (calculateBill hotelTwo 2).1 = (calculateBill hotelTwo 1).1 ∧
    ((∀ f ∈ hotelTwo.faults, f = false) →
      (calculateBill hotelTwo 1).1 =
        Except.ok (some (50 * 1 +
          ((servicesOf hotelTwo 1).map (resolvedCost hotelTwo.services)).sum))) :=
  calculateBill_ignores_dates hotelTwo 1 2
    { id := 1, user_id := 101, room_id := 201, date_from := 8401, date_to := 8405,
      status := "confirmed" }
    { id := 2, user_id := 101, room_id := 201, date_from := 8411, date_to := 8412,
      status := "cancelled" }
    { id := 201, number := "201", type := "double", price_per_day := 50, description := "" }
    (by decide) (by decide) (by decide) (by decide) (by decide) (by decide) (by decide)
    (by decide) (by decide)

theorem findServiceByIdCerr_eq (db : DBManager) (id : Int) (hconn : db.isConnected = true) :
    Service.findServiceByIdCerr db id =
      if db.faults.head? = some true then
        ["Failed to find service by ID: Query execution failed: "]
      else [] := by
  unfold Service.findServiceByIdCerr
  by_cases hf : db.faults.head? = some true
  · rw [executeQuery_refused db _ hconn hf, if_pos hf]
    simp only [Exn.what]
    rfl
  · rw [executeQuery_sent db _ hconn hf, if_neg hf]
    rfl

theorem cerr_foldl (entries : List (Int × Int)) (lines : List String) (db : DBManager)
    (hconn : db.isConnected = true) :
    (entries.foldl
      (fun acc entry =>
        (acc.1 ++ Service.findServiceByIdCerr acc.2 entry.1,
          (Service.findServiceById acc.2 entry.1).2))
      (lines, db)).1 = lines ++ cerrWith entries db.faults := by
  induction entries generalizing lines db with
  | nil => simp [cerrWith]
  | cons entry rest ih =>
    rw [List.foldl_cons]
    simp only []
    rw [(findServiceById_cost db entry hconn).2, findServiceByIdCerr_eq db entry.1 hconn]
    have hconn1 : DBManager.isConnected { db with faults := db.faults.tail } = true := by
      rw [isConnected_iff] at hconn ⊢
      exact hconn
    rw [ih _ _ hconn1]
    simp only [cerrWith, List.append_assoc]

theorem calculateBillCerr_eq (db : DBManager) (id : Int) (brow : BookingRow) (rrow : RoomRow)
    (hconn : db.isConnected = true) (h1 : db.faults.head? ≠ some true)
    (h2 : db.faults.tail.head? ≠ some true) (h3 : db.faults.tail.tail.head? ≠ some true)
    (hb : db.bookings.filter (fun r => r.id == id) = [brow])
    (hr : db.rooms.filter (fun r => r.id == brow.room_id) = [rrow]) :
    calculateBillCerr db id = cerrWith (servicesOf db id) db.faults.tail.tail.tail := by
  have hc1 : DBManager.isConnected { db with faults := db.faults.tail } = true := by
    rw [isConnected_iff] at hconn ⊢
    exact hconn
  have hc2 : DBManager.isConnected { db with faults := db.faults.tail.tail } = true := by
    rw [isConnected_iff] at hconn ⊢
    exact hconn
  have hc3 : DBManager.isConnected { db with faults := db.faults.tail.tail.tail } = true := by
    rw [isConnected_iff] at hconn ⊢
    exact hconn
  have hroomCerr : Room.findRoomByIdCerr { db with faults := db.faults.tail } brow.room_id =
      [] := by
    unfold Room.findRoomByIdCerr
    rw [executeQuery_sent _ _ hc1 h2]
    rfl
  unfold calculateBillCerr
  rw [findBookingById_row db id brow hconn h1 hb]
  simp only []
  rw [hroomCerr, findRoomById_eq _ _ hc1 h2]
  simp only [hr]
  rw [getServices_full _ _ hc2 h3]
  simp only []
  rw [cerr_foldl _ _ _ hc3]
  simp [servicesOf]

/-- Counterexample to C29 as stated: booking 1 of `hotelTwo` has services 7 and
9 attached; the first three statements of `calculateBill` are answered and the
lookup of service 7 is refused. The lookup returns `nullptr`, the bill is
produced with the total 50, and the failure is reported: `findServiceById`
writes a line to `std::cerr`. -/
theorem calculateBill_lookup_failure_on_cerr :
    (Service.findServiceById { hotelTwo with faults := [true] } 7).1 = none ∧
    (calculateBill { hotelTwo with faults := [false, false, false, true] } 1).1 =
      Except.ok (some 50) ∧
    calculateBillCerr { hotelTwo with faults := [false, false, false, true] } 1 =
      ["Failed to find service by ID: Query execution failed: "] ∧
    calculateBillCerr hotelTwo 1 = [] := by
  refine ⟨by decide, by with_unfolding_all decide, by decide, by decide⟩

/-- C29, amended: `Service::findServiceById` returns no service exactly when
the connection is not open, or the statement is refused, or the number of
stored rows with that id is not 1, and it writes a line to `std::cerr` exactly
when the gateway fails, not when the row is missing; on an open connection
whose first three statements are answered, for a stored booking whose room is
stored, `calculateBill` ends without an exception and prints a total, the room
for one day plus what the attached services add; an attached service whose
lookup is refused or finds no single row adds 0; and the lines on `std::cerr`
are one for each lookup that is refused, none for a lookup that is answered. -/
theorem calculateBill_omits_unresolved (db : DBManager) (id : Int) (brow : BookingRow)
    (rrow : RoomRow)
    (hconn : db.isConnected = true) (h1 : db.faults.head? ≠ some true)
    (h2 : db.faults.tail.head? ≠ some true) (h3 : db.faults.tail.tail.head? ≠ some true)
    (hb : db.bookings.filter (fun r => r.id == id) = [brow])
    (hr : db.rooms.filter (fun r => r.id == brow.room_id) = [rrow]) :
    (∀ (d : DBManager) (s : Int), (Service.findServiceById d s).1 = none ↔
      (d.isConnected = false ∨ d.faults.head? = some true ∨
        (d.services.filter (fun r => r.id == s)).length ≠ 1)) ∧
    (calculateBill db id).1 =
      Except.ok (some (rrow.price_per_day * 1 +
        billedWith db.services (servicesOf db id) db.faults.tail.tail.tail)) ∧
    (∀ (entry : Int × Int) (rest : List (Int × Int)) (faults : List Bool),
      (faults.head? = some true ∨
        (db.services.filter (fun r => r.id == entry.1)).length ≠ 1) →
      billedWith db.services (entry :: rest) faults =
        billedWith db.services rest faults.tail) ∧
    (∀ (d : DBManager) (s : Int), Service.findServiceByIdCerr d s ≠ [] ↔
      (d.isConnected = false ∨ d.faults.head? = some true)) ∧
    calculateBillCerr db id = cerrWith (servicesOf db id) db.faults.tail.tail.tail ∧
    (∀ (entry : Int × Int) (rest : List (Int × Int)) (faults : List Bool),
      cerrWith (entry :: rest) faults =
        (if faults.head? = some true then
            ["Failed to find service by ID: Query execution failed: "]
          else []) ++ cerrWith rest faults.tail) := by
  refine ⟨?_, calculateBill_total db id brow rrow hconn h1 h2 h3 hb hr, ?_, ?_,
    calculateBillCerr_eq db id brow rrow hconn h1 h2 h3 hb hr, fun _ _ _ => rfl⟩
  · intro d s
    rcases gateway_cases d with hc | ⟨hc, hf⟩ | ⟨hc, hf⟩
    · constructor
      · intro _
        exact Or.inl hc
      · intro _
        unfold Service.findServiceById
        rw [executeQuery_not_connected d _ hc]
    · constructor
      · intro _
        exact Or.inr (Or.inl hf)
      · intro _
        rw [findServiceById_refused d s hc hf]
    · rw [findServiceById_eq d s hc hf]
      generalize d.services.filter (fun r => r.id == s) = rows
      rcases rows with _ | ⟨r, _ | ⟨r2, rest⟩⟩ <;> simp [hc, hf]
  · intro entry rest faults h
    simp only [billedWith]
    by_cases hf : faults.head? = some true
    · rw [if_pos hf, zero_add]
    · rw [if_neg hf]
      rcases h with h | h
      · exact absurd h hf
      · have hz : resolvedCost db.services entry = 0 := by
          unfold resolvedCost
          revert h
          generalize db.services.filter (fun r => r.id == entry.1) = rows
          intro h
          rcases rows with _ | ⟨r, _ | ⟨r2, rest2⟩⟩
          · rfl
          · exact absurd rfl h
          · rfl
        rw [hz, zero_add]
  · intro d s
    rcases gateway_cases d with hc | ⟨hc, hf⟩ | ⟨hc, hf⟩
    · unfold Service.findServiceByIdCerr
      rw [executeQuery_not_connected d _ hc]
      simp [hc]
    · rw [findServiceByIdCerr_eq d s hc, if_pos hf]
      simp [hf]
    · rw [findServiceByIdCerr_eq d s hc, if_neg hf]
      simp [hc, hf]

/-- Witness of C29, amended: booking 1 of `hotelTwo` has service 7 and service
9 attached, and no service 9 is stored: the total is 50 + 10 × 2 = 70 and
nothing is written to `std::cerr`; when the lookup of service 7 is refused as
well, the total is 50 and one line is written. -/
theorem calculateBill_omits_unresolved_witness :
    (calculateBill hotelTwo 1).1 = Except.ok (some 70) ∧
    (calculateBill { hotelTwo with faults := [false, false, false, true] } 1).1 =
      Except.ok (some 50) ∧
    billedWith hotelTwo.services [(9, 1), (7, 2)] [] =
      billedWith hotelTwo.services [(7, 2)] [] ∧
    calculateBillCerr hotelTwo 1 = [] ∧
    calculateBillCerr { hotelTwo with faults := [false, false, false, true] } 1 =
      ["Failed to find service by ID: Query execution failed: "] :=
  ⟨((calculateBill_omits_unresolved hotelTwo 1
      { id := 1, user_id := 101, room_id := 201, date_from := 8401, date_to := 8405,
        status := "confirmed" }
      { id := 201, number := "201", type := "double", price_per_day := 50, description := "" }
      (by decide) (by decide) (by decide) (by decide) (by decide) (by decide)).2.1).trans
      (by with_unfolding_all decide),
   ((calculateBill_omits_unresolved { hotelTwo with faults := [false, false, false, true] } 1
      { id := 1, user_id := 101, room_id := 201, date_from := 8401, date_to := 8405,
        status := "confirmed" }
      { id := 201, number := "201", type := "double", price_per_day := 50, description := "" }
      (by decide) (by decide) (by decide) (by decide) (by decide) (by decide)).2.1).trans
      (by with_unfolding_all decide),
   (calculateBill_omits_unresolved hotelTwo 1
      { id := 1, user_id := 101, room_id := 201, date_from := 8401, date_to := 8405,
        status := "confirmed" }
      { id := 201, number := "201", type := "double", price_per_day := 50, description := "" }
      (by decide) (by decide) (by decide) (by decide) (by decide) (by decide)).2.2.1
      (9, 1) [(7, 2)] [] (Or.inr (by decide)),
   ((calculateBill_omits_unresolved hotelTwo 1
      { id := 1, user_id := 101, room_id := 201, date_from := 8401, date_to := 8405,
        status := "confirmed" }
      { id := 201, number := "201", type := "double", price_per_day := 50, description := "" }
      (by decide) (by decide) (by decide) (by decide) (by decide)
      (by decide)).2.2.2.2.1).trans (by decide),
   ((calculateBill_omits_unresolved { hotelTwo with faults := [false, false, false, true] } 1
      { id := 1, user_id := 101, room_id := 201, date_from := 8401, date_to := 8405,
        status := "confirmed" }
      { id := 201, number := "201", type := "double", price_per_day := 50, description := "" }
      (by decide) (by decide) (by decide) (by decide) (by decide)
      (by decide)).2.2.2.2.1).trans (by decide)⟩

/-! ## Status changes and failures -/

/-- C25 does not hold of the code: `updateStatus` assigns the member before it
sends the statement, so the object has the new status whatever the outcome of
the write. With the connection lost, the call on the confirmed booking 1 with
target CANCELLED ends in an exception, the object is CANCELLED afterwards, and
the stored row is still `confirmed`: memory and storage disagree. -/
theorem updateStatus_failure_keeps_new_status :
    (∀ (self : Booking) (db : DBManager) (t : BookingStatus),
      (self.updateStatus db t).2.1.status = t) ∧
    booking1.status = BookingStatus.CONFIRMED ∧
    (booking1.updateStatus hotelOffline BookingStatus.CANCELLED).1 =
      Except.error (Exn.runtime_error "Database not connected") ∧
    (booking1.updateStatus hotelOffline BookingStatus.CANCELLED).2.1.status =
      BookingStatus.CANCELLED ∧
    (booking1.updateStatus hotelOffline BookingStatus.CANCELLED).2.2.bookings =
      [{ id := 1, user_id := 101, room_id := 201, date_from := 8401, date_to := 8405,
         status := "confirmed" }] ∧
    (booking1.updateStatus { hotel with faults := [true] } BookingStatus.CANCELLED).1 =
      Except.error (Exn.runtime_error "Update execution failed: ") ∧
    (booking1.updateStatus { hotel with faults := [true] } BookingStatus.CANCELLED).2.1.status =
      BookingStatus.CANCELLED ∧
    (booking1.updateStatus { hotel with faults := [true] } BookingStatus.CANCELLED).2.2.bookings =
      [{ id := 1, user_id := 101, room_id := 201, date_from := 8401, date_to := 8405,
         status := "confirmed" }] := by
  refine ⟨?_, by decide, by decide, by decide, by decide, by decide, by decide, by decide⟩
  intro self db t
  unfold Booking.updateStatus
  simp only []
  split <;> rfl

/-- C26: from the state `hotelEmpty`, booking A of room 201 over days 8401 to
8405 is created, A is set to CANCELLED, booking B of room 201 over days 8403 to
8407 is created, and A is set back to CONFIRMED; the four calls succeed, and
afterwards the stored bookings are A, confirmed, and B, pending, on the same
room with overlapping dates: `NoDoubleBooking` no longer holds. -/
theorem revive_cancelled_double_booking :
    ∃ (a a1 a2 b : Booking) (db1 db2 db3 db4 : DBManager),
      Booking.createBooking hotelEmpty 101 201 8401 8405 = (Except.ok (some a), db1) ∧
      a.updateStatus db1 BookingStatus.CANCELLED = (Except.ok (), a1, db2) ∧
      NoDoubleBooking db2.bookings ∧
      Booking.createBooking db2 1 201 8403 8407 = (Except.ok (some b), db3) ∧
      NoDoubleBooking db3.bookings ∧
      a1.updateStatus db3 BookingStatus.CONFIRMED = (Except.ok (), a2, db4) ∧
      db4.bookings =
        [{ id := 1, user_id := 101, room_id := 201, date_from := 8401, date_to := 8405,
           status := "confirmed" },
         { id := 2, user_id := 1, room_id := 201, date_from := 8403, date_to := 8407,
           status := "pending" }] ∧
      overlaps 8401 8405 8403 8407 = true ∧
      ¬ NoDoubleBooking db4.bookings := by
  refine ⟨_, _, _, _, _, _, _, _, rfl, rfl, ?_, rfl, ?_, rfl, ?_, ?_, ?_⟩
  · decide
  · decide
  · decide
  · decide
  · decide

/-! ## Registration and role changes -/

theorem addUser_users (db : DBManager) (login password : String) (role : UserRole)
    (hlogin : SqlText login) (hpassword : SqlText password) :
    (User.addUser db login password role).2.users = db.users ∨
      ∃ id, (User.addUser db login password role).2.users =
        db.users ++ [{ id := id, login := login, password_hash := password,
                       role := User.getRoleString { id := id, login := login,
                                                    password := password, role := role } }] := by
  rcases gateway_cases db with hc | ⟨hc, hf⟩ | ⟨hc, hf⟩
  · left
    unfold User.addUser
    rw [executeQuery_not_connected db _ hc]
  · left
    unfold User.addUser
    rw [executeQuery_refused db _ hc hf]
  · rw [addUser_eq db login password role hlogin hc hf]
    by_cases hdup : (db.users.filter (fun r => r.login == login)).length > 0
    · left
      rw [if_pos hdup]
    · rw [if_neg hdup]
      have hc1 : DBManager.isConnected { db with faults := db.faults.tail } = true := by
        rw [isConnected_iff] at hc ⊢
        exact hc
      by_cases hf1 : db.faults.tail.head? = some true
      · left
        rw [executeUpdate_refused _ _ hc1 hf1]
      · rw [executeUpdate_sent _ _ hc1 hf1,
          sqlInsertUser_eq _ _ _ hlogin hpassword (sqlText_getRoleString _)]
        unfold storeUser
        simp only []
        split_ifs
        · left
          rfl
        · right
          exact ⟨db.users_id_seq, rfl⟩

/-- C27: when no user is logged in, or the current user is not ADMIN,
`registerUser` makes the call `User::addUser(db, login, password, USER)`
whatever is typed, and (login and credential being text without quote
characters) every stored user afterwards was stored before or has the role
`user`; when the current user is ADMIN, a failed read of the role choice ends
the function without a call, choice 1 passes ADMIN, choice 2 passes MANAGER,
and every other choice passes USER. -/
theorem registerUser_role_gate (db : DBManager) (currentUser : Option User)
    (roleChoice : Option Int) (login password : String) :
    ((∀ a, currentUser = some a → a.role ≠ UserRole.ADMIN) →
      registerUser db currentUser roleChoice login password =
        User.addUser db login password UserRole.USER ∧
      (SqlText login → SqlText password →
        ∀ r ∈ (registerUser db currentUser roleChoice login password).2.users,
          r ∈ db.users ∨ r.role = "user")) ∧
    (∀ a, currentUser = some a → a.role = UserRole.ADMIN →
      (roleChoice = none →
        registerUser db currentUser roleChoice login password = (false, db)) ∧
      (∀ c, roleChoice = some c →
        registerUser db currentUser roleChoice login password =
          User.addUser db login password
            (if c = 1 then UserRole.ADMIN else if c = 2 then UserRole.MANAGER
              else UserRole.USER)) ∧
      (∀ c, roleChoice = some c → c ≠ 1 → c ≠ 2 →
        registerUser db currentUser roleChoice login password =
          User.addUser db login password UserRole.USER)) := by
  constructor
  · intro hnot
    have heq : registerUser db currentUser roleChoice login password =
        User.addUser db login password UserRole.USER := by
      unfold registerUser User.getCurrentUser
      rcases currentUser with _ | a
      · rfl
      · have ha := hnot a rfl
        have hb : (a.role == UserRole.ADMIN) = false := by
          cases hr : a.role
          · exact absurd hr ha
          · rfl
          · rfl
        simp [hb]
    refine ⟨heq, ?_⟩
    intro hlogin hpassword r hr
    rw [heq] at hr
    rcases addUser_users db login password UserRole.USER hlogin hpassword with h | ⟨id, h⟩
    · rw [h] at hr
      exact Or.inl hr
    · rw [h, List.mem_append, List.mem_singleton] at hr
      rcases hr with hr | hr
      · exact Or.inl hr
      · right
        rw [hr]
        rfl
  · intro a hcur hadmin
    subst hcur
    have hb : (a.role == UserRole.ADMIN) = true := by
      rw [hadmin]
      rfl
    refine ⟨?_, ?_, ?_⟩
    · intro hnone
      subst hnone
      simp [registerUser, User.getCurrentUser, hb]
    · intro c hsome
      subst hsome
      unfold registerUser User.getCurrentUser
      simp only [hb, if_true]
      by_cases h1 : c = 1
      · simp [h1]
      · by_cases h2 : c = 2
        · simp [h2]
        · simp [h1, h2]
    · intro c hsome h1 h2
      subst hsome
      unfold registerUser User.getCurrentUser
      simp [hb, h1, h2]

/-- Witness of C27: `alice`, of role USER, registers `bob` and types role
choice 1; `root`, ADMIN, registers `bob` with choices 2 and 7. -/
theorem registerUser_role_gate_witness :
    registerUser hotel (some aliceUser) (some 1) "bob" "pw" =
      User.addUser hotel "bob" "pw" UserRole.USER ∧
    (∀ r ∈ (registerUser hotel (some aliceUser) (some 1) "bob" "pw").2.users,
      r ∈ hotel.users ∨ r.role = "user") ∧
    registerUser hotel (some adminUser) (some 2) "bob" "pw" =
      User.addUser hotel "bob" "pw" UserRole.MANAGER ∧
    registerUser hotel (some adminUser) (some 7) "bob" "pw" =
      User.addUser hotel "bob" "pw" UserRole.USER :=
  ⟨((registerUser_role_gate hotel (some aliceUser) (some 1) "bob" "pw").1
      (fun a ha => by
        cases ha
        decide)).1,
   ((registerUser_role_gate hotel (some aliceUser) (some 1) "bob" "pw").1
      (fun a ha => by
        cases ha
        decide)).2 (by decide) (by decide),
   ((registerUser_role_gate hotel (some adminUser) (some 2) "bob" "pw").2
      adminUser rfl rfl).2.1 2 rfl,
   ((registerUser_role_gate hotel (some adminUser) (some 7) "bob" "pw").2
      adminUser rfl rfl).2.2 7 rfl (by decide) (by decide)⟩

/-! ## Dates in reverse order -/

/-- C28: `createBooking` does not compare its dates. On an open connection
whose three statements are answered, with the generated id not taken, for a
room all of whose stored bookings are cancelled and dates with `dateTo` before
`dateFrom`, `createBooking` returns a PENDING booking with those dates, stored
as a new row whose `date_to` is before its `date_from`; and the call on date
texts the server reads as those dates is that call. -/
theorem createBooking_reversed_dates (db : DBManager) (userId R : Int) (c d : Date)
    (hconn : db.isConnected = true) (hcount : db.faults.head? ≠ some true)
    (hinsert : db.faults.tail.head? ≠ some true)
    (hselect : db.faults.tail.tail.head? ≠ some true)
    (hfresh : ∀ r ∈ db.bookings, r.id ≠ db.bookings_id_seq)
    (hfree : ∀ r ∈ db.bookings, r.room_id = R → r.status = "cancelled")
    (hrev : d < c) :
    (Booking.createBooking db userId R c d).1 =
      Except.ok (some { id := db.bookings_id_seq, userId := userId, roomId := R,
                         dateFrom := c, dateTo := d, status := BookingStatus.PENDING }) ∧
    (Booking.createBooking db userId R c d).2.bookings =
      db.bookings ++ [{ id := db.bookings_id_seq, user_id := userId, room_id := R,
                        date_from := c, date_to := d, status := "pending" }] ∧
    (∃ b : Booking, (Booking.createBooking db userId R c d).1 = Except.ok (some b) ∧
      b.status = BookingStatus.PENDING ∧ b.dateTo < b.dateFrom) ∧
    (∀ textFrom textTo : String, dateIn textFrom = some c → dateIn textTo = some d →
      Booking.createBookingText db userId R textFrom textTo =
        Booking.createBooking db userId R c d) := by
  have hnone : db.bookings.filter (conflicts R c d) = [] := by
    rw [List.filter_eq_nil_iff]
    intro r hr
    rw [Bool.not_eq_true, conflicts_eq_false_iff]
    intro hroom hs
    exact absurd (hfree r hr hroom) hs
  have he : Booking.isRoomAvailable db R c d =
      (Except.ok true, { db with faults := db.faults.tail }) := by
    rw [isRoomAvailable_eq db R c d hconn hcount, hnone]
    simp
  have hany : (db.bookings.any fun r => r.id == db.bookings_id_seq) = false := by
    rw [List.any_eq_false]
    intro r hr
    simpa using hfresh r hr
  have hfilter := filter_id_fresh db.bookings
    { id := db.bookings_id_seq, user_id := userId, room_id := R,
      date_from := c, date_to := d, status := "pending" } hfresh
  have hs : ¬ db.faults[2]? = some true := by simpa using hselect
  have hconn1 := (isConnected_iff db).1 hconn
  have hres : (Booking.createBooking db userId R c d).1 =
      Except.ok (some { id := db.bookings_id_seq, userId := userId, roomId := R,
                         dateFrom := c, dateTo := d, status := BookingStatus.PENDING }) := by
    unfold Booking.createBooking
    rw [he]
    simp only [DBManager.executeQuery, DBManager.exec, DBManager.isConnected, sqlInsertBooking,
      Booking.findBookingById, sqlSelectBookingById]
    simp only [hconn1, hinsert, hselect, hany]
    simp [hfilter, toBookingStatus, hs]
  have hrows : (Booking.createBooking db userId R c d).2.bookings =
      db.bookings ++ [{ id := db.bookings_id_seq, user_id := userId, room_id := R,
                        date_from := c, date_to := d, status := "pending" }] := by
    unfold Booking.createBooking
    rw [he]
    simp only [DBManager.executeQuery, DBManager.exec, DBManager.isConnected, sqlInsertBooking,
      Booking.findBookingById, sqlSelectBookingById]
    simp only [hconn1, hinsert, hselect, hany]
    simp [hfilter, toBookingStatus, hs]
  refine ⟨hres, hrows, ⟨_, hres, rfl, hrev⟩, ?_⟩
  intro textFrom textTo hf ht
  unfold Booking.createBookingText
  rw [hf, ht]

/-- Witness of C28: the texts `2023-01-10` and `2023-01-01`, both accepted by
`isValidDate`, for room 201 of the state `hotelEmpty`. -/
theorem createBooking_reversed_dates_witness :
    isValidDate "2023-01-10" = true ∧ isValidDate "2023-01-01" = true ∧
    (Booking.createBookingText hotelEmpty 101 201 "2023-01-10" "2023-01-01").1 =
      Except.ok (some { id := 1, userId := 101, roomId := 201, dateFrom := 8410,
                         dateTo := 8401, status := BookingStatus.PENDING }) ∧
    (Booking.createBooking hotelEmpty 101 201 8410 8401).2.bookings =
      [{ id := 1, user_id := 101, room_id := 201, date_from := 8410, date_to := 8401,
         status := "pending" }] :=
  ⟨by decide, by decide,
   (congrArg Prod.fst
      ((createBooking_reversed_dates hotelEmpty 101 201 8410 8401 (by decide) (by decide)
        (by decide) (by decide) (by decide) (by decide) (by decide)).2.2.2
        "2023-01-10" "2023-01-01" (by decide) (by decide))).trans
    (createBooking_reversed_dates hotelEmpty 101 201 8410 8401 (by decide) (by decide)
      (by decide) (by decide) (by decide) (by decide) (by decide)).1,
   (createBooking_reversed_dates hotelEmpty 101 201 8410 8401 (by decide) (by decide)
      (by decide) (by decide) (by decide) (by decide) (by decide)).2.1⟩

/-! ## The role of the session user -/

theorem roleOfString_getRoleString (user : User) :
    roleOfString user.getRoleString = user.role := by
  unfold User.getRoleString
  cases user.role <;> decide

theorem manageUserRoles_eq (db : DBManager) (userId c : Int) (newRole : UserRole)
    (row : UserRow)
    (hconn : db.isConnected = true) (h1 : db.faults.head? ≠ some true)
    (h2 : db.faults.tail.head? ≠ some true) (h3 : db.faults.tail.tail.head? ≠ some true)
    (hrow : db.users.filter (fun r => r.id == userId) = [row]) (hne : userId ≠ -1)
    (hc : (c = 1 ∧ newRole = UserRole.ADMIN) ∨ (c = 2 ∧ newRole = UserRole.MANAGER) ∨
      (c = 3 ∧ newRole = UserRole.USER)) :
    manageUserRoles db (some userId) (some c) =
      { db with
        faults := db.faults.tail.tail.tail
        users := db.users.map (fun r =>
          if r.id = userId then
            { r with role := User.getRoleString ⟨row.id, row.login, row.password_hash, newRole⟩ }
          else r) } := by
  have hc1 : DBManager.isConnected { db with faults := db.faults.tail } = true := by
    rw [isConnected_iff] at hconn ⊢
    exact hconn
  have hc2 : DBManager.isConnected { db with faults := db.faults.tail.tail } = true := by
    rw [isConnected_iff] at hconn ⊢
    exact hconn
  have hmem : row ∈ db.users.filter (fun r => r.id == userId) := by
    rw [hrow]
    exact List.mem_singleton_self _
  have hin : row ∈ db.users := List.mem_of_mem_filter hmem
  have hid : row.id = userId := by
    simpa using (List.mem_filter.1 hmem).2
  have hnonempty : (db.users.map (fun r =>
      ({ id := r.id, login := r.login, password := r.password_hash,
         role := roleOfString r.role } : User))).isEmpty = false := by
    rcases hu : db.users with _ | ⟨u, us⟩
    · rw [hu] at hin
      exact absurd hin (List.not_mem_nil _)
    · rfl
  have hnew : (if c = 1 then some UserRole.ADMIN
      else if c = 2 then some UserRole.MANAGER
      else if c = 3 then some UserRole.USER
      else none) = some newRole := by
    rcases hc with ⟨h, hr⟩ | ⟨h, hr⟩ | ⟨h, hr⟩ <;> subst h <;> subst hr <;> rfl
  unfold manageUserRoles
  rw [getAllUsers_eq db hconn h1]
  simp only [hnonempty, Bool.false_eq_true, if_false, if_neg hne]
  rw [findUserById_eq _ userId row hc1 h2 hrow]
  simp only [hnew]
  rw [updateRole_eq _ _ _ hc2 h3]
  simp only [hid]

/-- C30: the current user `user`, ADMIN, chooses `Manage User Roles` in `main`,
types the own id and a role choice 1, 2 or 3, on an open connection whose three
statements are answered and that stores one row with that id. The pass ends
normally with the same object as current user, so `getCurrentUser()` still
reports ADMIN; the stored row of the user has the string of the new role, and
a lookup of the id afterwards gives a user with the new role; the next pass
with choice 5 runs `manageUserRoles` again, which the menu of a role other
than ADMIN does not offer; after `logout`, `authenticate` with the credential
of that row (text without quote characters) gives a current user with the new
role. -/
theorem manageUserRoles_keeps_session_role (db : DBManager) (user : User) (row : UserRow)
    (typed : Typed) (c : Int) (newRole : UserRole)
    (hrole : user.role = UserRole.ADMIN) (hchoice : typed.choice = some 5)
    (hid : typed.userId = some user.id) (hnew : typed.newRoleChoice = some c)
    (hc : (c = 1 ∧ newRole = UserRole.ADMIN) ∨ (c = 2 ∧ newRole = UserRole.MANAGER) ∨
      (c = 3 ∧ newRole = UserRole.USER))
    (hconn : db.isConnected = true) (h1 : db.faults.head? ≠ some true)
    (h2 : db.faults.tail.head? ≠ some true) (h3 : db.faults.tail.tail.head? ≠ some true)
    (hrow : db.users.filter (fun r => r.id == user.id) = [row]) (hne : user.id ≠ -1) :
    ∃ db1 : DBManager,
      mainIteration db (some user) typed = Except.ok (true, some user, db1) ∧
      (User.getCurrentUser (some user)).map (fun u => u.role) = some UserRole.ADMIN ∧
      db1.users = db.users.map (fun r =>
        if r.id = user.id then
          { r with role := User.getRoleString { user with role := newRole } }
        else r) ∧
      (db1.faults.head? ≠ some true →
        (User.findUserById db1 user.id).1 =
          some { id := row.id, login := row.login, password := row.password_hash,
                 role := newRole }) ∧
      (∀ typed2 : Typed, typed2.choice = some 5 →
        mainIteration db1 (some user) typed2 =
          Except.ok (true, some user,
            manageUserRoles db1 typed2.userId typed2.newRoleChoice)) ∧
      (newRole ≠ UserRole.ADMIN → menuAction newRole 5 ≠ Action.manageUserRoles) ∧
      (∀ (login password : String) (row1 : UserRow), SqlText login → SqlText password →
        db1.faults.head? ≠ some true →
        db1.users.filter (fun r => r.login == login && r.password_hash == password) = [row1] →
        row1.id = user.id →
        (User.authenticate db1 (User.logout (some user)) login password).2.1 =
          some { id := row1.id, login := row1.login, password := row1.password_hash,
                 role := newRole }) := by
  have hstr : ∀ u1 u2 : User, User.getRoleString { u1 with role := newRole } =
      User.getRoleString { u2 with role := newRole } := fun _ _ => rfl
  have hm := manageUserRoles_eq db user.id c newRole row hconn h1 h2 h3 hrow hne hc
  refine ⟨manageUserRoles db (some user.id) (some c), ?_, ?_, ?_, ?_, ?_, ?_, ?_⟩
  · unfold mainIteration
    simp only [User.getCurrentUser, hchoice, hrole, menuAction, runAction, hid, hnew]
    rfl
  · simp [User.getCurrentUser, hrole]
  · rw [hm]
    rfl
  · intro hsend
    rw [hm] at hsend ⊢
    have hc3 : DBManager.isConnected
        { db with
          faults := db.faults.tail.tail.tail
          users := db.users.map (fun r =>
            if r.id = user.id then
              { r with role := User.getRoleString ⟨row.id, row.login, row.password_hash, newRole⟩ }
            else r) } = true := by
      rw [isConnected_iff] at hconn ⊢
      exact hconn
    have hfilter : (db.users.map (fun r =>
          if r.id = user.id then
            { r with role := User.getRoleString ⟨row.id, row.login, row.password_hash, newRole⟩ }
          else r)).filter (fun r => r.id == user.id) =
        [{ row with role := User.getRoleString ⟨row.id, row.login, row.password_hash, newRole⟩ }] := by
      rw [List.filter_map]
      have hcomp : ((fun r : UserRow => r.id == user.id) ∘ (fun r : UserRow =>
          if r.id = user.id then
            { r with role := User.getRoleString ⟨row.id, row.login, row.password_hash, newRole⟩ }
          else r)) = (fun r : UserRow => r.id == user.id) := by
        funext r
        simp only [Function.comp]
        split_ifs <;> rfl
      rw [hcomp, hrow]
      have hmem : row ∈ db.users.filter (fun r => r.id == user.id) := by
        rw [hrow]
        exact List.mem_singleton_self _
      have hrid : row.id = user.id := by
        simpa using (List.mem_filter.1 hmem).2
      simp [hrid]
    rw [findUserById_eq _ user.id _ hc3 hsend hfilter]
    simp only []
    rw [roleOfString_getRoleString]
  · intro typed2 h5
    unfold mainIteration
    simp only [User.getCurrentUser, h5, hrole, menuAction, runAction]
    rfl
  · intro hnot
    cases newRole
    · exact absurd rfl hnot
    · decide
    · decide
  · intro login password row1 hlogin hpassword hsend hrow1 hid1
    have hc4 : DBManager.isConnected (manageUserRoles db (some user.id) (some c)) = true := by
      rw [hm]
      rw [isConnected_iff] at hconn ⊢
      exact hconn
    have hmem1 : row1 ∈ (manageUserRoles db (some user.id) (some c)).users := by
      have hin : row1 ∈ [row1] := List.mem_singleton_self _
      rw [← hrow1] at hin
      exact List.mem_of_mem_filter hin
    have hrole1 : row1.role =
        User.getRoleString ⟨row.id, row.login, row.password_hash, newRole⟩ := by
      rw [hm] at hmem1
      simp only [List.mem_map] at hmem1
      obtain ⟨r, _, hfr⟩ := hmem1
      by_cases hr : r.id = user.id
      · rw [if_pos hr] at hfr
        rw [← hfr]
      · rw [if_neg hr] at hfr
        rw [hfr] at hr
        exact absurd hid1 hr
    have key : (User.authenticate (manageUserRoles db (some user.id) (some c))
        (User.logout (some user)) login password).2.1 =
          some { id := row1.id, login := row1.login, password := row1.password_hash,
                 role := roleOfString row1.role } := by
      unfold User.authenticate
      rw [executeQuery_sent _ _ hc4 hsend,
        sqlSelectUserByCredentials_eq login password hlogin hpassword]
      simp only [hrow1]
      rfl
    rw [key, hrole1, roleOfString_getRoleString]

/-- Witness of C30: `root`, ADMIN and current user, sets the role of user 1,
that is of `root`, to USER on the state `hotel`. -/
theorem manageUserRoles_keeps_session_role_witness :
    ∃ db1 : DBManager,
      mainIteration hotel (some adminUser)
          { choice := some 5, userId := some 1, newRoleChoice := some 3 } =
        Except.ok (true, some adminUser, db1) ∧
      (User.getCurrentUser (some adminUser)).map (fun u => u.role) = some UserRole.ADMIN ∧
      db1.users = hotel.users.map (fun r =>
        if r.id = adminUser.id then
          { r with role := User.getRoleString { adminUser with role := UserRole.USER } }
        else r) ∧
      (db1.faults.head? ≠ some true →
        (User.findUserById db1 adminUser.id).1 =
          some { id := 1, login := "root", password := "h0", role := UserRole.USER }) ∧
      (∀ typed2 : Typed, typed2.choice = some 5 →
        mainIteration db1 (some adminUser) typed2 =
          Except.ok (true, some adminUser,
            manageUserRoles db1 typed2.userId typed2.newRoleChoice)) ∧
      (UserRole.USER ≠ UserRole.ADMIN →
        menuAction UserRole.USER 5 ≠ Action.manageUserRoles) ∧
      (∀ (login password : String) (row1 : UserRow), SqlText login → SqlText password →
        db1.faults.head? ≠ some true →
        db1.users.filter (fun r => r.login == login && r.password_hash == password) = [row1] →
        row1.id = adminUser.id →
        (User.authenticate db1 (User.logout (some adminUser)) login password).2.1 =
          some { id := row1.id, login := row1.login, password := row1.password_hash,
                 role := UserRole.USER }) :=
  manageUserRoles_keeps_session_role hotel adminUser
    { id := 1, login := "root", password_hash := "h0", role := "admin" }
    { choice := some 5, userId := some 1, newRoleChoice := some 3 } 3 UserRole.USER
    rfl rfl rfl rfl (Or.inr (Or.inr ⟨rfl, rfl⟩))
    (by decide) (by decide) (by decide) (by decide) (by decide) (by decide)

end HotelSystem
